import Mathlib

/-!
# VulkanTest `DemoApp`: device resolution, swapchain policies and the frame loop

A shallow embedding of the decision procedures of `DemoApp.cpp` (memory-type
search, surface-format / present-mode / extent / image-count selection, device
suitability and selection, multisample level, image layout transitions) and of
its frame loop (`drawFrame`, `recreateSwapChain`, `gameLoop`, `run`), together
with the properties established about them.

Conventions of the embedding:
* `uint32_t` values are natural numbers; arithmetic that can wrap is written
  with an explicit `% 2 ^ 32`.
* Vulkan handles are natural numbers, `VK_NULL_HANDLE` being `0`.
* A `throw std::runtime_error(msg)` is `Except.error msg`.
* What the driver answers to the `vkGet...`/`vkEnumerate...` queries about a
  physical device is gathered in the record `PhysicalDeviceInfo`.
* The frame loop is embedded by explicit state passing over `App`, whose `trace`
  logs the device and window calls made so far; a member function ends in an
  `Outcome` (returned, raised, or still waiting for the window).
-/

set_option autoImplicit false

namespace DemoApp

/-! ## Constants of the Vulkan headers used by the embedded code -/

/-- Size of the `memoryTypes` array of `VkPhysicalDeviceMemoryProperties`. -/
def VK_MAX_MEMORY_TYPES : Nat := 32

/-- Largest value of `uint32_t`, `std::numeric_limits<uint32_t>::max()`. -/
def UINT32_MAX : Nat := 4294967295

/-- Conversion of a C++ `int` to `uint32_t` (`static_cast<uint32_t>`). -/
def toUint32 (x : Int) : Nat := (x % 4294967296).toNat

/-! ## Memory-type selection (`DemoApp::findMemoryType`) -/

/-- Record `VkMemoryType`. -/
structure VkMemoryType where
  propertyFlags : Nat
  heapIndex : Nat
deriving DecidableEq, Repr

/-- Record `VkPhysicalDeviceMemoryProperties` (the heap table is not read by the
embedded code and is left out). -/
structure VkPhysicalDeviceMemoryProperties where
  memoryTypeCount : Nat
  memoryTypes : List VkMemoryType
deriving DecidableEq, Repr

/-- Read of `memProperties.memoryTypes[i].propertyFlags`. -/
def memoryTypeFlags (mem : VkPhysicalDeviceMemoryProperties) (i : Nat) : Nat :=
  (mem.memoryTypes.getD i ⟨0, 0⟩).propertyFlags

/-- The loop condition body of `findMemoryType`:
`(typeFilter & (1 << i)) && (memoryTypes[i].propertyFlags & properties) == properties`.
The `int` value `1 << i` is converted to `uint32_t` for the `&`. -/
def memoryTypeMatches (typeFilter properties : Nat)
    (mem : VkPhysicalDeviceMemoryProperties) (i : Nat) : Bool :=
  (typeFilter &&& ((1 <<< i) % 2 ^ 32) != 0) &&
    (memoryTypeFlags mem i &&& properties == properties)

/-- The `for (uint32_t i = 0; i < memoryTypeCount; ++i)` loop of `findMemoryType`,
started at index `i` with `remaining` iterations left. -/
def findMemoryTypeLoop (typeFilter properties : Nat)
    (mem : VkPhysicalDeviceMemoryProperties) : (remaining i : Nat) → Option Nat
  | 0, _ => none
  | remaining + 1, i =>
    if memoryTypeMatches typeFilter properties mem i then some i
    else findMemoryTypeLoop typeFilter properties mem remaining (i + 1)

/-- Embedding of `DemoApp::findMemoryType`. -/
def findMemoryType (typeFilter properties : Nat)
    (mem : VkPhysicalDeviceMemoryProperties) : Except String Nat :=
  match findMemoryTypeLoop typeFilter properties mem mem.memoryTypeCount 0 with
  | some i => .ok i
  | none => .error "failed to find suitable memory type!"

/-- Specification predicate: memory type `i` is allowed by the type filter and
its property flags include every requested flag. -/
def MemoryTypeSuitable (typeFilter properties : Nat)
    (mem : VkPhysicalDeviceMemoryProperties) (i : Nat) : Prop :=
  typeFilter.testBit i = true ∧ memoryTypeFlags mem i &&& properties = properties

instance (typeFilter properties : Nat) (mem : VkPhysicalDeviceMemoryProperties) (i : Nat) :
    Decidable (MemoryTypeSuitable typeFilter properties mem i) := by
  unfold MemoryTypeSuitable; infer_instance

/-! ## Surface-format selection (`DemoApp::chooseSwapSurfaceFormat`) -/

/-- Enumerator `VK_FORMAT_UNDEFINED`. -/
def VK_FORMAT_UNDEFINED : Nat := 0

/-- Enumerator `VK_FORMAT_B8G8R8A8_UNORM`. -/
def VK_FORMAT_B8G8R8A8_UNORM : Nat := 44

/-- Enumerator `VK_COLOR_SPACE_SRGB_NONLINEAR_KHR`. -/
def VK_COLOR_SPACE_SRGB_NONLINEAR_KHR : Nat := 0

/-- Record `VkSurfaceFormatKHR`. -/
structure VkSurfaceFormatKHR where
  format : Nat
  colorSpace : Nat
deriving DecidableEq, Repr

/-- The test made on each entry by the loop of `chooseSwapSurfaceFormat`. -/
def isPreferredSurfaceFormat (f : VkSurfaceFormatKHR) : Bool :=
  f.format == VK_FORMAT_B8G8R8A8_UNORM && f.colorSpace == VK_COLOR_SPACE_SRGB_NONLINEAR_KHR

/-- The range-`for` of `chooseSwapSurfaceFormat`: the first entry passing the test. -/
def chooseSwapSurfaceFormatLoop : List VkSurfaceFormatKHR → Option VkSurfaceFormatKHR
  | [] => none
  | f :: rest => if isPreferredSurfaceFormat f then some f else chooseSwapSurfaceFormatLoop rest

/-- The guard `availableFormats.size() == 1 && availableFormats[0].format == VK_FORMAT_UNDEFINED`. -/
def isSingleUndefinedFormat : List VkSurfaceFormatKHR → Bool
  | [f] => f.format == VK_FORMAT_UNDEFINED
  | _ => false

/-- Embedding of `DemoApp::chooseSwapSurfaceFormat`.  The final `availableFormats[0]`
is an out-of-bounds read on an empty vector; that case is `none`. -/
def chooseSwapSurfaceFormat (availableFormats : List VkSurfaceFormatKHR) :
    Option VkSurfaceFormatKHR :=
  if isSingleUndefinedFormat availableFormats then
    some ⟨VK_FORMAT_B8G8R8A8_UNORM, VK_COLOR_SPACE_SRGB_NONLINEAR_KHR⟩
  else
    match chooseSwapSurfaceFormatLoop availableFormats with
    | some f => some f
    | none => availableFormats.head?

/-! ## Presentation-mode selection (`DemoApp::chooseSwapPresentMode`) -/

/-- Enumerator `VK_PRESENT_MODE_IMMEDIATE_KHR`. -/
def VK_PRESENT_MODE_IMMEDIATE_KHR : Nat := 0

/-- Enumerator `VK_PRESENT_MODE_MAILBOX_KHR`. -/
def VK_PRESENT_MODE_MAILBOX_KHR : Nat := 1

/-- Enumerator `VK_PRESENT_MODE_FIFO_KHR`. -/
def VK_PRESENT_MODE_FIFO_KHR : Nat := 2

/-- The range-`for` of `chooseSwapPresentMode`, carrying the local `bestMode`. -/
def chooseSwapPresentModeLoop (bestMode : Nat) : List Nat → Nat
  | [] => bestMode
  | availablePresentMode :: rest =>
    if availablePresentMode == VK_PRESENT_MODE_MAILBOX_KHR then availablePresentMode
    else if availablePresentMode == VK_PRESENT_MODE_IMMEDIATE_KHR then
      chooseSwapPresentModeLoop availablePresentMode rest
    else chooseSwapPresentModeLoop bestMode rest

/-- Embedding of `DemoApp::chooseSwapPresentMode`. -/
def chooseSwapPresentMode (availablePresentModes : List Nat) : Nat :=
  chooseSwapPresentModeLoop VK_PRESENT_MODE_FIFO_KHR availablePresentModes

/-! ## Extent and image-count selection (`DemoApp::chooseSwapExtent`, `DemoApp::createSwapChain`) -/

/-- Record `VkExtent2D`. -/
structure VkExtent2D where
  width : Nat
  height : Nat
deriving DecidableEq, Repr

/-- Record `VkSurfaceCapabilitiesKHR`, restricted to the fields read by the
embedded code. -/
structure VkSurfaceCapabilitiesKHR where
  minImageCount : Nat
  maxImageCount : Nat
  currentExtent : VkExtent2D
  minImageExtent : VkExtent2D
  maxImageExtent : VkExtent2D
  currentTransform : Nat
deriving DecidableEq, Repr

/-- Embedding of `DemoApp::chooseSwapExtent`.  `fbWidth` and `fbHeight` are the two
`int` values that `glfwGetFramebufferSize` stores for the window. -/
def chooseSwapExtent (capabilities : VkSurfaceCapabilitiesKHR) (fbWidth fbHeight : Int) :
    VkExtent2D :=
  if capabilities.currentExtent.width != UINT32_MAX then
    capabilities.currentExtent
  else
    let actualExtent : VkExtent2D := ⟨toUint32 fbWidth, toUint32 fbHeight⟩
    { width := max capabilities.minImageExtent.width
        (min capabilities.maxImageExtent.width actualExtent.width),
      height := max capabilities.minImageExtent.height
        (min capabilities.maxImageExtent.height actualExtent.height) }

/-- The image count computed by `createSwapChain`:
`imageCount = minImageCount + 1` in `uint32_t`, replaced by `maxImageCount` when
`maxImageCount > 0 && imageCount > maxImageCount`. -/
def swapChainImageCount (capabilities : VkSurfaceCapabilitiesKHR) : Nat :=
  let imageCount := (capabilities.minImageCount + 1) % 2 ^ 32
  if capabilities.maxImageCount > 0 ∧ imageCount > capabilities.maxImageCount then
    capabilities.maxImageCount
  else imageCount

/-- Specification function: `x` clamped into the interval `[lo, hi]`. -/
def clampTo (lo hi x : Nat) : Nat :=
  if x < lo then lo else if hi < x then hi else x

/-- Specification predicate: extent `e` lies in `[lo, hi]` in width and in height. -/
def ExtentWithin (lo hi e : VkExtent2D) : Prop :=
  lo.width ≤ e.width ∧ e.width ≤ hi.width ∧ lo.height ≤ e.height ∧ e.height ≤ hi.height

instance (lo hi e : VkExtent2D) : Decidable (ExtentWithin lo hi e) := by
  unfold ExtentWithin; infer_instance

/-! ## What the driver reports about a physical device -/

/-- Enumerator `VK_QUEUE_GRAPHICS_BIT`. -/
def VK_QUEUE_GRAPHICS_BIT : Nat := 1

/-- One queue family of a device: its `VkQueueFamilyProperties` fields and the
answer of `vkGetPhysicalDeviceSurfaceSupportKHR` for it and the surface. -/
structure QueueFamily where
  queueFlags : Nat
  queueCount : Nat
  presentSupport : Bool
deriving DecidableEq, Repr

/-- Answers of the driver to the queries the application makes about one physical
device and the window surface. -/
structure PhysicalDeviceInfo where
  /-- Result of `vkGetPhysicalDeviceQueueFamilyProperties`, with surface support. -/
  queueFamilies : List QueueFamily
  /-- Names returned by `vkEnumerateDeviceExtensionProperties`. -/
  extensions : List String
  /-- Result of `vkGetPhysicalDeviceSurfaceCapabilitiesKHR`. -/
  capabilities : VkSurfaceCapabilitiesKHR
  /-- Formats enumerated by `vkGetPhysicalDeviceSurfaceFormatsKHR`. -/
  surfaceFormats : List VkSurfaceFormatKHR
  /-- Modes enumerated by `vkGetPhysicalDeviceSurfacePresentModesKHR`. -/
  presentModes : List Nat
  /-- Field `limits.framebufferColorSampleCounts` of the device properties. -/
  framebufferColorSampleCounts : Nat
  /-- Field `limits.framebufferDepthSampleCounts` of the device properties. -/
  framebufferDepthSampleCounts : Nat
deriving DecidableEq, Repr

/-- The second call of a Vulkan enumeration (`pData` non-null, `*pCount` equal to the
size of the buffer): the driver writes at most `buffer.length` of its items at the
front of the buffer and leaves the remaining slots as they were. -/
def enumerateInto {α : Type} (buffer items : List α) : List α :=
  items.take buffer.length ++ buffer.drop items.length

/-! ## Device suitability (`DemoApp::isDeviceSuitable` and its helpers) -/

/-- Struct `QueueFamilyIndices`. -/
structure QueueFamilyIndices where
  graphicsFamily : Option Nat
  presentFamily : Option Nat
deriving DecidableEq, Repr

/-- Embedding of `QueueFamilyIndices::isComplete`. -/
def QueueFamilyIndices.isComplete (indices : QueueFamilyIndices) : Bool :=
  indices.graphicsFamily.isSome && indices.presentFamily.isSome

/-- The range-`for` of `findQueueFamilies`, carrying `indices` and the counter `i`. -/
def findQueueFamiliesLoop (indices : QueueFamilyIndices) (i : Nat) :
    List QueueFamily → QueueFamilyIndices
  | [] => indices
  | qFamily :: rest =>
    let indices1 : QueueFamilyIndices :=
      if qFamily.queueCount > 0 && (qFamily.queueFlags &&& VK_QUEUE_GRAPHICS_BIT != 0) then
        { indices with graphicsFamily := some i }
      else indices
    let indices2 : QueueFamilyIndices :=
      if qFamily.queueCount > 0 && qFamily.presentSupport then
        { indices1 with presentFamily := some i }
      else indices1
    if indices2.isComplete then indices2
    else findQueueFamiliesLoop indices2 (i + 1) rest

/-- Embedding of `DemoApp::findQueueFamilies`. -/
def findQueueFamilies (device : PhysicalDeviceInfo) : QueueFamilyIndices :=
  findQueueFamiliesLoop ⟨none, none⟩ 0 device.queueFamilies

/-- The constant `deviceExtensions` of `DemoApp.h`
(`VK_KHR_SWAPCHAIN_EXTENSION_NAME`). -/
def deviceExtensions : List String := ["VK_KHR_swapchain"]

/-- The erase loop of `checkDeviceExtensionSupport`: every available name is erased
from the set of required names. -/
def eraseAvailable (requiredExtensions : List String) : List String → List String
  | [] => requiredExtensions
  | extensionName :: rest =>
    eraseAvailable (requiredExtensions.filter (fun r => r != extensionName)) rest

/-- Embedding of `DemoApp::checkDeviceExtensionSupport`; the `std::set` built from
`deviceExtensions` is the list without repetitions. -/
def checkDeviceExtensionSupport (device : PhysicalDeviceInfo) : Bool :=
  (eraseAvailable deviceExtensions.eraseDups device.extensions).isEmpty

/-- Struct `SwapChainSupportDetails`. -/
structure SwapChainSupportDetails where
  mCapabilities : VkSurfaceCapabilitiesKHR
  mFormats : List VkSurfaceFormatKHR
  mPresentModes : List Nat
deriving DecidableEq, Repr

/-- Embedding of `DemoApp::querySwapChainSupport`.  As in the source, the count used
to size `mPresentModes` is obtained with `vkGetPhysicalDeviceSurfaceFormatsKHR`, so it
is the number of surface formats; `resize` fills the vectors with zero-valued
entries before the second call of each enumeration overwrites them. -/
def querySwapChainSupport (device : PhysicalDeviceInfo) : SwapChainSupportDetails :=
  let formatCount := device.surfaceFormats.length
  let mFormats : List VkSurfaceFormatKHR :=
    if formatCount != 0 then
      enumerateInto (List.replicate formatCount ⟨0, 0⟩) device.surfaceFormats
    else []
  let presentModeCount := device.surfaceFormats.length
  let mPresentModes : List Nat :=
    if presentModeCount != 0 then
      enumerateInto (List.replicate presentModeCount 0) device.presentModes
    else []
  { mCapabilities := device.capabilities, mFormats := mFormats, mPresentModes := mPresentModes }

/-- Embedding of `DemoApp::isDeviceSuitable`. -/
def isDeviceSuitable (device : PhysicalDeviceInfo) : Bool :=
  let indices := findQueueFamilies device
  let extensionsSupported := checkDeviceExtensionSupport device
  let swapChainAdequate :=
    if extensionsSupported then
      let swapChainSupport := querySwapChainSupport device
      !swapChainSupport.mFormats.isEmpty && !swapChainSupport.mPresentModes.isEmpty
    else false
  indices.isComplete && extensionsSupported && swapChainAdequate

/-- Specification predicate, the four conditions of the device-acceptance rule:
(a) a queue family with at least one queue supports graphics, (b) a queue family
supports presentation to the surface, (c) every required extension is available,
(d) at least one surface format and at least one presentation mode are reported. -/
def DeviceAcceptable (device : PhysicalDeviceInfo) : Prop :=
  (∃ q, q ∈ device.queueFamilies ∧ 0 < q.queueCount ∧
      q.queueFlags &&& VK_QUEUE_GRAPHICS_BIT ≠ 0) ∧
  (∃ q, q ∈ device.queueFamilies ∧ q.presentSupport = true) ∧
  (∀ e, e ∈ deviceExtensions → e ∈ device.extensions) ∧
  (device.surfaceFormats ≠ [] ∧ device.presentModes ≠ [])

/-! ## Multisample level (`DemoApp::getMaxUsableSampleCount`) -/

/-- Embedding of `DemoApp::getMaxUsableSampleCount` for the device held in
`mPhysDevice`; `std::min` is the numeric minimum of the two masks. -/
def getMaxUsableSampleCount (device : PhysicalDeviceInfo) : Nat :=
  let counts := min device.framebufferColorSampleCounts device.framebufferDepthSampleCounts
  if counts &&& 64 != 0 then 64
  else if counts &&& 32 != 0 then 32
  else if counts &&& 16 != 0 then 16
  else if counts &&& 8 != 0 then 8
  else if counts &&& 4 != 0 then 4
  else if counts &&& 2 != 0 then 2
  else 1

/-- Specification function: the largest sample count among 64, 32, ..., 1 whose bit is
set in `mask`, and `0` when none of these bits is set. -/
def largestSampleCount (mask : Nat) : Nat :=
  (([64, 32, 16, 8, 4, 2, 1] : List Nat).filter (fun b => mask &&& b != 0)).foldl max 0

/-! ## Device selection (`DemoApp::pickPhysicalDevice`) -/

/-- Handle value `VK_NULL_HANDLE`. -/
def VK_NULL_HANDLE : Nat := 0

/-- The members of `DemoApp` written by `pickPhysicalDevice`. -/
structure DeviceSelection where
  mPhysDevice : Nat
  mMSAASamples : Nat
deriving DecidableEq, Repr

/-- The range-`for` of `pickPhysicalDevice` over the enumerated handles; `query`
gives what the driver reports for a handle. -/
def pickPhysicalDeviceLoop (query : Nat → PhysicalDeviceInfo) (app : DeviceSelection) :
    List Nat → DeviceSelection
  | [] => app
  | dev :: rest =>
    if isDeviceSuitable (query dev) then
      { mPhysDevice := dev, mMSAASamples := getMaxUsableSampleCount (query dev) }
    else pickPhysicalDeviceLoop query app rest

/-- Embedding of `DemoApp::pickPhysicalDevice`.  `app` holds the members as they are
when the function is entered: `mPhysDevice` is declared without an initialiser in
`DemoApp.h` and `DemoApp` has no constructor, so its entry value is whatever the
object storage held. -/
def pickPhysicalDevice (query : Nat → PhysicalDeviceInfo) (devices : List Nat)
    (app : DeviceSelection) : Except String DeviceSelection :=
  if devices.length == 0 then .error "No GPU with Vulkan support!"
  else
    let app1 := pickPhysicalDeviceLoop query app devices
    if app1.mPhysDevice == VK_NULL_HANDLE then .error "Failed to find a suitable GPU."
    else .ok app1

/-! ## Swapchain creation parameters (`DemoApp::createSwapChain`) -/

/-- The fields of `VkSwapchainCreateInfoKHR` that `createSwapChain` derives from the
surface support details (the remaining fields are constants or queue indices). -/
structure VkSwapchainCreateInfoKHR where
  minImageCount : Nat
  imageFormat : Nat
  imageColorSpace : Nat
  imageExtent : VkExtent2D
  preTransform : Nat
  presentMode : Nat
deriving DecidableEq, Repr

/-- Embedding of the part of `DemoApp::createSwapChain` that fills the create info
handed to `vkCreateSwapchainKHR`, for the selected device and the window framebuffer
size.  It is `none` exactly when `chooseSwapSurfaceFormat` reads out of bounds. -/
def createSwapChainInfo (device : PhysicalDeviceInfo) (fbWidth fbHeight : Int) :
    Option VkSwapchainCreateInfoKHR :=
  let swapChainSupport := querySwapChainSupport device
  match chooseSwapSurfaceFormat swapChainSupport.mFormats with
  | none => none
  | some surfaceFormat =>
    let presentMode := chooseSwapPresentMode swapChainSupport.mPresentModes
    let extent := chooseSwapExtent swapChainSupport.mCapabilities fbWidth fbHeight
    let imageCount := swapChainImageCount swapChainSupport.mCapabilities
    some { minImageCount := imageCount,
           imageFormat := surfaceFormat.format,
           imageColorSpace := surfaceFormat.colorSpace,
           imageExtent := extent,
           preTransform := swapChainSupport.mCapabilities.currentTransform,
           presentMode := presentMode }

/-! ## Concrete driver reports used in the evaluations below -/

/-- A device report with one graphics-and-present queue family, the swapchain
extension and one surface format; capabilities, present modes and sample counts are
the parameters. -/
def sampleDevice (capabilities : VkSurfaceCapabilitiesKHR) (presentModes : List Nat) :
    PhysicalDeviceInfo :=
  { queueFamilies := [⟨VK_QUEUE_GRAPHICS_BIT, 1, true⟩],
    extensions := ["VK_KHR_swapchain"],
    capabilities := capabilities,
    surfaceFormats := [⟨VK_FORMAT_B8G8R8A8_UNORM, VK_COLOR_SPACE_SRGB_NONLINEAR_KHR⟩],
    presentModes := presentModes,
    framebufferColorSampleCounts := 15,
    framebufferDepthSampleCounts := 15 }

/-- Capabilities whose current extent (800 x 600) is fixed by the surface and lies
above the reported maximum extent (640 x 480). -/
def capsCurrentAboveMax : VkSurfaceCapabilitiesKHR :=
  { minImageCount := 2, maxImageCount := 8, currentExtent := ⟨800, 600⟩,
    minImageExtent := ⟨1, 1⟩, maxImageExtent := ⟨640, 480⟩, currentTransform := 1 }

/-- Capabilities with the sentinel current extent and a minimum extent above the
maximum extent. -/
def capsMinAboveMax : VkSurfaceCapabilitiesKHR :=
  { minImageCount := 2, maxImageCount := 8, currentExtent := ⟨UINT32_MAX, UINT32_MAX⟩,
    minImageExtent := ⟨10, 10⟩, maxImageExtent := ⟨5, 5⟩, currentTransform := 1 }

/-- Capabilities with the sentinel current extent and extent bounds 1 .. 4096. -/
def capsSentinel : VkSurfaceCapabilitiesKHR :=
  { minImageCount := 2, maxImageCount := 8, currentExtent := ⟨UINT32_MAX, UINT32_MAX⟩,
    minImageExtent := ⟨1, 1⟩, maxImageExtent := ⟨4096, 4096⟩, currentTransform := 1 }

/-- Capabilities whose minimum image count is the largest `uint32_t` value and whose
maximum image count is 0 (no upper limit). -/
def capsMinCountWraps : VkSurfaceCapabilitiesKHR :=
  { minImageCount := UINT32_MAX, maxImageCount := 0, currentExtent := ⟨800, 600⟩,
    minImageExtent := ⟨1, 1⟩, maxImageExtent := ⟨4096, 4096⟩, currentTransform := 1 }

/-- A driver that reports, for every handle, a device with no queue family, no
extension, no surface format and no presentation mode. -/
def bareDeviceQuery : Nat → PhysicalDeviceInfo := fun _ =>
  { queueFamilies := [], extensions := [], capabilities := capsSentinel,
    surfaceFormats := [], presentModes := [],
    framebufferColorSampleCounts := 1, framebufferDepthSampleCounts := 1 }

/-! ## Image layout transitions (`DemoApp::transitionImageLayout`) -/

/-- Enumerator `VK_IMAGE_LAYOUT_UNDEFINED`. -/
def VK_IMAGE_LAYOUT_UNDEFINED : Nat := 0

/-- Enumerator `VK_IMAGE_LAYOUT_COLOR_ATTACHMENT_OPTIMAL`. -/
def VK_IMAGE_LAYOUT_COLOR_ATTACHMENT_OPTIMAL : Nat := 2

/-- Enumerator `VK_IMAGE_LAYOUT_DEPTH_STENCIL_ATTACHMENT_OPTIMAL`. -/
def VK_IMAGE_LAYOUT_DEPTH_STENCIL_ATTACHMENT_OPTIMAL : Nat := 3

/-- Enumerator `VK_IMAGE_LAYOUT_SHADER_READ_ONLY_OPTIMAL`. -/
def VK_IMAGE_LAYOUT_SHADER_READ_ONLY_OPTIMAL : Nat := 5

/-- Enumerator `VK_IMAGE_LAYOUT_TRANSFER_DST_OPTIMAL`. -/
def VK_IMAGE_LAYOUT_TRANSFER_DST_OPTIMAL : Nat := 7

/-- Flag `VK_ACCESS_SHADER_READ_BIT`. -/
def VK_ACCESS_SHADER_READ_BIT : Nat := 32

/-- Flag `VK_ACCESS_COLOR_ATTACHMENT_READ_BIT`. -/
def VK_ACCESS_COLOR_ATTACHMENT_READ_BIT : Nat := 128

/-- Flag `VK_ACCESS_COLOR_ATTACHMENT_WRITE_BIT`. -/
def VK_ACCESS_COLOR_ATTACHMENT_WRITE_BIT : Nat := 256

/-- Flag `VK_ACCESS_DEPTH_STENCIL_ATTACHMENT_READ_BIT`. -/
def VK_ACCESS_DEPTH_STENCIL_ATTACHMENT_READ_BIT : Nat := 512

/-- Flag `VK_ACCESS_DEPTH_STENCIL_ATTACHMENT_WRITE_BIT`. -/
def VK_ACCESS_DEPTH_STENCIL_ATTACHMENT_WRITE_BIT : Nat := 1024

/-- Flag `VK_ACCESS_TRANSFER_WRITE_BIT`. -/
def VK_ACCESS_TRANSFER_WRITE_BIT : Nat := 4096

/-- Flag `VK_PIPELINE_STAGE_TOP_OF_PIPE_BIT`. -/
def VK_PIPELINE_STAGE_TOP_OF_PIPE_BIT : Nat := 1

/-- Flag `VK_PIPELINE_STAGE_FRAGMENT_SHADER_BIT`. -/
def VK_PIPELINE_STAGE_FRAGMENT_SHADER_BIT : Nat := 128

/-- Flag `VK_PIPELINE_STAGE_EARLY_FRAGMENT_TESTS_BIT`. -/
def VK_PIPELINE_STAGE_EARLY_FRAGMENT_TESTS_BIT : Nat := 256

/-- Flag `VK_PIPELINE_STAGE_COLOR_ATTACHMENT_OUTPUT_BIT`. -/
def VK_PIPELINE_STAGE_COLOR_ATTACHMENT_OUTPUT_BIT : Nat := 1024

/-- Flag `VK_PIPELINE_STAGE_TRANSFER_BIT`. -/
def VK_PIPELINE_STAGE_TRANSFER_BIT : Nat := 4096

/-- Flag `VK_IMAGE_ASPECT_COLOR_BIT`. -/
def VK_IMAGE_ASPECT_COLOR_BIT : Nat := 1

/-- Flag `VK_IMAGE_ASPECT_DEPTH_BIT`. -/
def VK_IMAGE_ASPECT_DEPTH_BIT : Nat := 2

/-- Flag `VK_IMAGE_ASPECT_STENCIL_BIT`. -/
def VK_IMAGE_ASPECT_STENCIL_BIT : Nat := 4

/-- Enumerator `VK_FORMAT_D24_UNORM_S8_UINT`. -/
def VK_FORMAT_D24_UNORM_S8_UINT : Nat := 129

/-- Enumerator `VK_FORMAT_D32_SFLOAT_S8_UINT`. -/
def VK_FORMAT_D32_SFLOAT_S8_UINT : Nat := 130

/-- Embedding of `DemoApp::hasStencilComponent` (`DemoApp.h`). -/
def hasStencilComponent (format : Nat) : Bool :=
  format == VK_FORMAT_D32_SFLOAT_S8_UINT || format == VK_FORMAT_D24_UNORM_S8_UINT

/-- The fields of `VkImageMemoryBarrier` that depend on the arguments of
`transitionImageLayout` (queue family indices and the mip/layer range are constants). -/
structure VkImageMemoryBarrier where
  oldLayout : Nat
  newLayout : Nat
  image : Nat
  aspectMask : Nat
  srcAccessMask : Nat
  dstAccessMask : Nat
deriving DecidableEq, Repr

/-- One `vkCmdPipelineBarrier` command with a single image memory barrier. -/
structure PipelineBarrier where
  sourceStage : Nat
  destinationStage : Nat
  barrier : VkImageMemoryBarrier
deriving DecidableEq, Repr

/-- What a call of `transitionImageLayout` has done when it is left: the pipeline
barriers recorded into the one-time command buffer, whether that command buffer was
ended and submitted (`endSingleTimeCommands`), and the exception thrown, if any. -/
structure TransitionOutcome where
  recorded : List PipelineBarrier
  submitted : Bool
  error : Option String
deriving DecidableEq, Repr

/-- Embedding of `DemoApp::transitionImageLayout`. -/
def transitionImageLayout (image format oldLayout newLayout : Nat) : TransitionOutcome :=
  let aspectMask : Nat :=
    if newLayout == VK_IMAGE_LAYOUT_DEPTH_STENCIL_ATTACHMENT_OPTIMAL then
      if hasStencilComponent format then VK_IMAGE_ASPECT_DEPTH_BIT ||| VK_IMAGE_ASPECT_STENCIL_BIT
      else VK_IMAGE_ASPECT_DEPTH_BIT
    else VK_IMAGE_ASPECT_COLOR_BIT
  let barrier : VkImageMemoryBarrier :=
    { oldLayout := oldLayout, newLayout := newLayout, image := image,
      aspectMask := aspectMask, srcAccessMask := 0, dstAccessMask := 0 }
  if oldLayout == VK_IMAGE_LAYOUT_UNDEFINED &&
      newLayout == VK_IMAGE_LAYOUT_TRANSFER_DST_OPTIMAL then
    { recorded := [⟨VK_PIPELINE_STAGE_TOP_OF_PIPE_BIT, VK_PIPELINE_STAGE_TRANSFER_BIT,
        { barrier with srcAccessMask := 0, dstAccessMask := VK_ACCESS_TRANSFER_WRITE_BIT }⟩],
      submitted := true, error := none }
  else if oldLayout == VK_IMAGE_LAYOUT_TRANSFER_DST_OPTIMAL &&
      newLayout == VK_IMAGE_LAYOUT_SHADER_READ_ONLY_OPTIMAL then
    { recorded := [⟨VK_PIPELINE_STAGE_TRANSFER_BIT, VK_PIPELINE_STAGE_FRAGMENT_SHADER_BIT,
        { barrier with srcAccessMask := VK_ACCESS_TRANSFER_WRITE_BIT,
                       dstAccessMask := VK_ACCESS_SHADER_READ_BIT }⟩],
      submitted := true, error := none }
  else if oldLayout == VK_IMAGE_LAYOUT_UNDEFINED &&
      newLayout == VK_IMAGE_LAYOUT_DEPTH_STENCIL_ATTACHMENT_OPTIMAL then
    { recorded := [⟨VK_PIPELINE_STAGE_TOP_OF_PIPE_BIT,
        VK_PIPELINE_STAGE_EARLY_FRAGMENT_TESTS_BIT,
        { barrier with srcAccessMask := 0,
                       dstAccessMask := VK_ACCESS_DEPTH_STENCIL_ATTACHMENT_READ_BIT |||
                         VK_ACCESS_DEPTH_STENCIL_ATTACHMENT_WRITE_BIT }⟩],
      submitted := true, error := none }
  else if oldLayout == VK_IMAGE_LAYOUT_UNDEFINED &&
      newLayout == VK_IMAGE_LAYOUT_COLOR_ATTACHMENT_OPTIMAL then
    { recorded := [⟨VK_PIPELINE_STAGE_TOP_OF_PIPE_BIT,
        VK_PIPELINE_STAGE_COLOR_ATTACHMENT_OUTPUT_BIT,
        { barrier with srcAccessMask := 0,
                       dstAccessMask := VK_ACCESS_COLOR_ATTACHMENT_READ_BIT |||
                         VK_ACCESS_COLOR_ATTACHMENT_WRITE_BIT }⟩],
      submitted := true, error := none }
  else
    { recorded := [], submitted := false, error := some "unsupported layout transition!" }

/-- One row of the layout-transition table: access masks and pipeline stages. -/
structure TransitionRow where
  srcAccessMask : Nat
  dstAccessMask : Nat
  sourceStage : Nat
  destinationStage : Nat
deriving DecidableEq, Repr

/-- Specification table of the supported layout transitions, keyed by
`(oldLayout, newLayout)`. -/
def layoutTransitionTable : List ((Nat × Nat) × TransitionRow) :=
  [ ((VK_IMAGE_LAYOUT_UNDEFINED, VK_IMAGE_LAYOUT_TRANSFER_DST_OPTIMAL),
      ⟨0, VK_ACCESS_TRANSFER_WRITE_BIT,
       VK_PIPELINE_STAGE_TOP_OF_PIPE_BIT, VK_PIPELINE_STAGE_TRANSFER_BIT⟩),
    ((VK_IMAGE_LAYOUT_TRANSFER_DST_OPTIMAL, VK_IMAGE_LAYOUT_SHADER_READ_ONLY_OPTIMAL),
      ⟨VK_ACCESS_TRANSFER_WRITE_BIT, VK_ACCESS_SHADER_READ_BIT,
       VK_PIPELINE_STAGE_TRANSFER_BIT, VK_PIPELINE_STAGE_FRAGMENT_SHADER_BIT⟩),
    ((VK_IMAGE_LAYOUT_UNDEFINED, VK_IMAGE_LAYOUT_DEPTH_STENCIL_ATTACHMENT_OPTIMAL),
      ⟨0, VK_ACCESS_DEPTH_STENCIL_ATTACHMENT_READ_BIT |||
          VK_ACCESS_DEPTH_STENCIL_ATTACHMENT_WRITE_BIT,
       VK_PIPELINE_STAGE_TOP_OF_PIPE_BIT,
       VK_PIPELINE_STAGE_EARLY_FRAGMENT_TESTS_BIT⟩),
    ((VK_IMAGE_LAYOUT_UNDEFINED, VK_IMAGE_LAYOUT_COLOR_ATTACHMENT_OPTIMAL),
      ⟨0, VK_ACCESS_COLOR_ATTACHMENT_READ_BIT ||| VK_ACCESS_COLOR_ATTACHMENT_WRITE_BIT,
       VK_PIPELINE_STAGE_TOP_OF_PIPE_BIT,
       VK_PIPELINE_STAGE_COLOR_ATTACHMENT_OUTPUT_BIT⟩) ]

/-- Row of the specification table for `(oldLayout, newLayout)`, if there is one. -/
def lookupTransition (oldLayout newLayout : Nat) : Option TransitionRow :=
  (layoutTransitionTable.find? (fun e => e.1.1 == oldLayout && e.1.2 == newLayout)).map
    (fun e => e.2)

/-! ## The frame loop (`drawFrame`, `recreateSwapChain`, `gameLoop`, `run`)

The stateful part of `DemoApp` is embedded by explicit state passing.  The state
holds the two members the frame loop reads and writes, `mCurrentFrame` and
`framebufferResized`, and a log of the calls the application has made on the device
and the window, oldest first.  Everything the platform answers (result codes, image
indices, window sizes, whether the resize callback fired) is an input. -/

/-- The constant `MAX_FRAMES_IN_FLIGHT` of `DemoApp.h`. -/
def MAX_FRAMES_IN_FLIGHT : Nat := 2

/-- Result code `VK_SUCCESS`. -/
def VK_SUCCESS : Int := 0

/-- Result code `VK_SUBOPTIMAL_KHR`. -/
def VK_SUBOPTIMAL_KHR : Int := 1000001003

/-- Result code `VK_ERROR_OUT_OF_DATE_KHR`. -/
def VK_ERROR_OUT_OF_DATE_KHR : Int := -1000001004

/-- Result code `VK_ERROR_DEVICE_LOST`. -/
def VK_ERROR_DEVICE_LOST : Int := -4

/-- The member functions called, in this order, by `initVulkan`; `recreateSwapChain`
calls some of them again. -/
inductive Routine
  | createInstance
  | setupDebugManager
  | createSurface
  | pickPhysicalDevice
  | createLogicalDevice
  | createSwapChain
  | createImageViews
  | createRenderPass
  | createDescriptorSetLayout
  | createGraphicsPipeline
  | createCommandPool
  | createColorResources
  | createDepthResources
  | createFramebuffers
  | createTextureImage
  | createTextureImageView
  | createTextureSampler
  | loadModel
  | prepareInstanceData
  | createVertexBuffer
  | createIndexBuffer
  | createUniformBuffers
  | createDescriptorPool
  | createDescriptorSets
  | createCommandBuffers
  | createSyncObjects
deriving DecidableEq, Repr

/-- One logged call.  Fences, semaphores, command buffers and uniform buffers are
named by their index in `inFlightFences`, `mImageAvailableSemaphores` /
`mRenderFinishedSemaphores`, `mCommandBuffers` and `mUniformBuffersMemory`. -/
inductive Event
  /-- `vkWaitForFences` on `inFlightFences[fence]` with no timeout. -/
  | waitForFences (fence : Nat)
  /-- `vkAcquireNextImageKHR` signalling `mImageAvailableSemaphores[semaphore]`. -/
  | acquireNextImage (semaphore : Nat)
  /-- `updateUniformBuffer(currentImage)`: a host write to
  `mUniformBuffersMemory[currentImage]`. -/
  | updateUniformBuffer (currentImage : Nat)
  /-- `vkResetFences` on `inFlightFences[fence]`. -/
  | resetFences (fence : Nat)
  /-- A successful `vkQueueSubmit` of `mCommandBuffers[commandBuffer]` in `drawFrame`,
  waiting on `mImageAvailableSemaphores[waitSemaphore]`, signalling
  `mRenderFinishedSemaphores[signalSemaphore]` and `inFlightFences[fence]`. -/
  | queueSubmit (commandBuffer waitSemaphore signalSemaphore fence : Nat)
  /-- `vkQueuePresentKHR` of image `imageIndex`, waiting on
  `mRenderFinishedSemaphores[waitSemaphore]`. -/
  | queuePresent (waitSemaphore imageIndex : Nat)
  /-- One round of the polling loop of `recreateSwapChain`: `glfwGetFramebufferSize`
  answering `width`, `height`, followed by `glfwWaitEvents`. -/
  | getFramebufferSize (width height : Int)
  /-- `vkDeviceWaitIdle`. -/
  | deviceWaitIdle
  /-- `cleanupSwapChain()`. -/
  | cleanupSwapChain
  /-- A completed `createSwapChain()`, with the create info it passed to
  `vkCreateSwapchainKHR`. -/
  | createSwapChain (info : Option VkSwapchainCreateInfoKHR)
  /-- A completed call of one of the other member functions. -/
  | call (routine : Routine)
  /-- The part of `cleanApp()` that follows `cleanupSwapChain()`. -/
  | teardown
deriving DecidableEq, Repr

/-- State of the application seen by the frame loop. -/
structure App where
  mCurrentFrame : Nat
  framebufferResized : Bool
  trace : List Event
deriving DecidableEq, Repr

/-- Append one call to the log. -/
def App.log (app : App) (e : Event) : App :=
  { app with trace := app.trace ++ [e] }

/-- How a member function is left: it returns, it throws `std::runtime_error(what)`,
or it is still inside the polling loop of `recreateSwapChain` when the recorded
window answers end. -/
inductive Outcome
  | returned (app : App)
  | raised (what : String) (app : App)
  | waiting (app : App)
deriving DecidableEq, Repr

/-- The state at the point where the member function is left. -/
def Outcome.app : Outcome → App
  | .returned app => app
  | .raised _ app => app
  | .waiting app => app

/-- What `createSwapChain` is given by its surroundings: the driver report for the
selected device and the framebuffer size GLFW answers inside `chooseSwapExtent`. -/
structure SurfaceInput where
  device : PhysicalDeviceInfo
  fbWidth : Int
  fbHeight : Int
deriving DecidableEq, Repr

/-- The log entry of a completed routine. -/
def routineEvent (surface : SurfaceInput) : Routine → Event
  | .createSwapChain =>
    .createSwapChain (createSwapChainInfo surface.device surface.fbWidth surface.fbHeight)
  | routine => .call routine

/-- Run member functions in sequence; `routineError routine` is the message of the
exception `routine` throws, if the platform makes it fail. -/
def runRoutines (routineError : Routine → Option String) (surface : SurfaceInput) :
    List Routine → App → Outcome
  | [], app => .returned app
  | routine :: rest, app =>
    match routineError routine with
    | some what => .raised what app
    | none => runRoutines routineError surface rest (app.log (routineEvent surface routine))

/-- One answer of the window system inside the polling loop of `recreateSwapChain`:
the framebuffer size, and whether `glfwWaitEvents` ran `framebufferResizeCallback`. -/
structure Poll where
  width : Int
  height : Int
  resized : Bool
deriving DecidableEq, Repr

/-- Platform inputs of one `recreateSwapChain` call. -/
structure RebuildInput where
  polls : List Poll
  surface : SurfaceInput
  routineError : Routine → Option String

/-- The loop `while (width == 0 || height == 0)` of `recreateSwapChain`; `width` and
`height` start at 0, so the body runs at least once. -/
def recreatePollLoop : List Poll → App → Outcome
  | [], app => .waiting app
  | poll :: rest, app =>
    let app1 : App :=
      { app with framebufferResized := app.framebufferResized || poll.resized,
                 trace := app.trace ++ [.getFramebufferSize poll.width poll.height] }
    if poll.width == 0 || poll.height == 0 then recreatePollLoop rest app1
    else .returned app1

/-- The member functions `recreateSwapChain` calls after `cleanupSwapChain`, in source
order (`createColorResources` is called twice). -/
def recreateRoutines : List Routine :=
  [.createSwapChain, .createImageViews, .createRenderPass, .createGraphicsPipeline,
   .createColorResources, .createColorResources, .createDepthResources,
   .createFramebuffers, .createUniformBuffers, .createDescriptorPool,
   .createDescriptorSets, .createCommandBuffers]

/-- Embedding of `DemoApp::recreateSwapChain`. -/
def recreateSwapChain (input : RebuildInput) (app : App) : Outcome :=
  match recreatePollLoop input.polls app with
  | .returned app1 =>
    let app2 := app1.log .deviceWaitIdle
    let app3 := app2.log .cleanupSwapChain
    runRoutines input.routineError input.surface recreateRoutines app3
  | other => other

/-- Platform inputs of one `drawFrame` call. -/
structure FrameInput where
  /-- Result of `vkAcquireNextImageKHR`. -/
  acquireResult : Int
  /-- Image index stored by `vkAcquireNextImageKHR`. -/
  imageIndex : Nat
  /-- Result of `vkQueueSubmit`. -/
  submitResult : Int
  /-- Result of `vkQueuePresentKHR`. -/
  presentResult : Int
  /-- Inputs of the `recreateSwapChain` call, if the frame makes one. -/
  rebuild : RebuildInput

/-- Embedding of `DemoApp::drawFrame`. -/
def drawFrame (input : FrameInput) (app : App) : Outcome :=
  let app1 := app.log (.waitForFences app.mCurrentFrame)
  let app2 := app1.log (.acquireNextImage app.mCurrentFrame)
  if input.acquireResult == VK_ERROR_OUT_OF_DATE_KHR then
    recreateSwapChain input.rebuild app2
  else if input.acquireResult != VK_SUCCESS && input.acquireResult != VK_SUBOPTIMAL_KHR then
    .raised "failed to acquire swap chain image!" app2
  else
    let app3 := app2.log (.updateUniformBuffer input.imageIndex)
    let app4 := app3.log (.resetFences app.mCurrentFrame)
    if input.submitResult != VK_SUCCESS then
      .raised "failed to submit draw command buffer!" app4
    else
      let app5 := app4.log (.queueSubmit input.imageIndex app.mCurrentFrame
        app.mCurrentFrame app.mCurrentFrame)
      let app6 := app5.log (.queuePresent app.mCurrentFrame input.imageIndex)
      let afterPresent : Outcome :=
        if input.presentResult == VK_ERROR_OUT_OF_DATE_KHR ||
            input.presentResult == VK_SUBOPTIMAL_KHR || app6.framebufferResized then
          recreateSwapChain input.rebuild { app6 with framebufferResized := false }
        else if input.presentResult != VK_SUCCESS then
          .raised "failed to present swap chain image!" app6
        else .returned app6
      match afterPresent with
      | .returned app7 =>
        .returned { app7 with
          mCurrentFrame := (app7.mCurrentFrame + 1) % MAX_FRAMES_IN_FLIGHT }
      | other => other

/-- One iteration of the loop of `gameLoop`: whether `glfwPollEvents` ran
`framebufferResizeCallback`, and the inputs of the `drawFrame` call. -/
structure LoopIteration where
  resized : Bool
  frame : FrameInput

/-- The `while (!glfwWindowShouldClose(mWindow))` loop of `gameLoop`, for the
iterations made before the window is closed. -/
def gameLoopFrames : List LoopIteration → App → Outcome
  | [], app => .returned app
  | iteration :: rest, app =>
    match drawFrame iteration.frame
        { app with framebufferResized := app.framebufferResized || iteration.resized } with
    | .returned app1 => gameLoopFrames rest app1
    | other => other

/-- Embedding of `DemoApp::gameLoop`. -/
def gameLoop (iterations : List LoopIteration) (app : App) : Outcome :=
  match gameLoopFrames iterations app with
  | .returned app1 => .returned (app1.log .deviceWaitIdle)
  | other => other

/-- The member functions `initVulkan` calls, in source order. -/
def initRoutines : List Routine :=
  [.createInstance, .setupDebugManager, .createSurface, .pickPhysicalDevice,
   .createLogicalDevice, .createSwapChain, .createImageViews, .createRenderPass,
   .createDescriptorSetLayout, .createGraphicsPipeline, .createCommandPool,
   .createColorResources, .createDepthResources, .createFramebuffers,
   .createTextureImage, .createTextureImageView, .createTextureSampler, .loadModel,
   .prepareInstanceData, .createVertexBuffer, .createIndexBuffer, .createUniformBuffers,
   .createDescriptorPool, .createDescriptorSets, .createCommandBuffers,
   .createSyncObjects]

/-- Embedding of `DemoApp::initVulkan`. -/
def initVulkan (routineError : Routine → Option String) (surface : SurfaceInput)
    (app : App) : Outcome :=
  runRoutines routineError surface initRoutines app

/-- Embedding of `DemoApp::cleanApp`. -/
def cleanApp (app : App) : Outcome :=
  .returned ((app.log .cleanupSwapChain).log .teardown)

/-- The members of a freshly constructed `DemoApp` (`mCurrentFrame = 0`,
`framebufferResized = false`), with an empty log. -/
def initialApp : App :=
  { mCurrentFrame := 0, framebufferResized := false, trace := [] }

/-- Platform inputs of a whole run. -/
structure RunInput where
  initError : Routine → Option String
  initSurface : SurfaceInput
  iterations : List LoopIteration

/-- Embedding of `DemoApp::run` on a fresh object: `initApp(); initVulkan();
gameLoop(); cleanApp();`, an exception leaving it at once. -/
def run (input : RunInput) : Outcome :=
  match initVulkan input.initError input.initSurface initialApp with
  | .returned app1 =>
    match gameLoop input.iterations app1 with
    | .returned app2 => cleanApp app2
    | other => other
  | other => other

/-! ## Reading the log -/

/-- A frame submission that is in flight: the command buffer submitted and the fence
attached to the submission. -/
structure Submission where
  commandBuffer : Nat
  fence : Nat
deriving DecidableEq, Repr

/-- Effect of one logged call on the list of submissions in flight, that is, the
frame submissions whose fence the application has not yet observed signalled: a fence
wait retires the submissions attached to that fence, a device-idle wait retires all
of them, and a queue submission adds one. -/
def inFlightStep (pending : List Submission) : Event → List Submission
  | .waitForFences fence => pending.filter (fun s => s.fence != fence)
  | .deviceWaitIdle => []
  | .queueSubmit commandBuffer _ _ fence => pending ++ [⟨commandBuffer, fence⟩]
  | _ => pending

/-- The submissions in flight after the logged calls, starting from `pending`. -/
def inFlightFrom (pending : List Submission) (events : List Event) : List Submission :=
  events.foldl inFlightStep pending

/-- The submissions in flight at the end of a log that starts with no submission. -/
def inFlight (trace : List Event) : List Submission :=
  inFlightFrom [] trace

/-- The uniform buffer read by a submission: command buffer `i` binds descriptor set
`i`, which refers to `mUniformBuffers[i]` (`createCommandBuffers`,
`createDescriptorSets`). -/
def Submission.uniformBuffer (s : Submission) : Nat := s.commandBuffer

/-- Calls made by the polling loop of `recreateSwapChain`. -/
def Event.isPoll : Event → Bool
  | .getFramebufferSize _ _ => true
  | _ => false

/-- Calls made by `recreateSwapChain`: polls, the device-idle wait, the clean-up and
the creation routines.  Fence waits and resets, image acquisition, uniform writes,
frame submissions and presentations are not among them. -/
def Event.isRebuild : Event → Bool
  | .getFramebufferSize _ _ => true
  | .deviceWaitIdle => true
  | .cleanupSwapChain => true
  | .createSwapChain _ => true
  | .call _ => true
  | _ => false

/-- Frame submissions. -/
def Event.isSubmit : Event → Bool
  | .queueSubmit _ _ _ _ => true
  | _ => false

/-- Presentations. -/
def Event.isPresent : Event → Bool
  | .queuePresent _ _ => true
  | _ => false

/-- Every fence and semaphore index named by the call is `slot`. -/
def Event.slotsAre (slot : Nat) : Event → Bool
  | .waitForFences fence => fence == slot
  | .acquireNextImage semaphore => semaphore == slot
  | .resetFences fence => fence == slot
  | .queueSubmit _ waitSemaphore signalSemaphore fence =>
    waitSemaphore == slot && signalSemaphore == slot && fence == slot
  | .queuePresent waitSemaphore _ => waitSemaphore == slot
  | _ => true

/-- A poll answer with zero width or zero height. -/
def Poll.degenerate (poll : Poll) : Bool :=
  poll.width == 0 || poll.height == 0

/-- The log entry of one round of the polling loop. -/
def pollEvent (poll : Poll) : Event :=
  .getFramebufferSize poll.width poll.height

/-- The state of `drawFrame` after the fence wait and the acquire call. -/
def App.afterAcquire (app : App) : App :=
  (app.log (.waitForFences app.mCurrentFrame)).log (.acquireNextImage app.mCurrentFrame)

/-- The state of `drawFrame` after `vkResetFences`, for acquired image `imageIndex`. -/
def App.afterReset (app : App) (imageIndex : Nat) : App :=
  (app.afterAcquire.log (.updateUniformBuffer imageIndex)).log
    (.resetFences app.mCurrentFrame)

/-- The state of `drawFrame` after `vkQueuePresentKHR`, for acquired image
`imageIndex`. -/
def App.afterPresent (app : App) (imageIndex : Nat) : App :=
  ((app.afterReset imageIndex).log (.queueSubmit imageIndex app.mCurrentFrame
      app.mCurrentFrame app.mCurrentFrame)).log
    (.queuePresent app.mCurrentFrame imageIndex)

/-- The last statement of `drawFrame`, applied to the outcome of the present step. -/
def advanceFrame : Outcome → Outcome
  | .returned app =>
    .returned { app with mCurrentFrame := (app.mCurrentFrame + 1) % MAX_FRAMES_IN_FLIGHT }
  | other => other

/-- The two calls every `drawFrame` starts with, for frame slot `slot`. -/
def frameHead (slot : Nat) : List Event :=
  [.waitForFences slot, .acquireNextImage slot]

/-- The calls of a `drawFrame` that reaches presentation, for frame slot `slot` and
acquired image `imageIndex`. -/
def frameBody (slot imageIndex : Nat) : List Event :=
  [.waitForFences slot, .acquireNextImage slot, .updateUniformBuffer imageIndex,
   .resetFences slot, .queueSubmit imageIndex slot slot slot,
   .queuePresent slot imageIndex]

/-- Whether the member function returned. -/
def Outcome.isReturned : Outcome → Bool
  | .returned _ => true
  | _ => false

/-! ## Concrete platform inputs used in the evaluations below -/

/-- No creation routine fails. -/
def noRoutineError : Routine → Option String := fun _ => none

/-- A surface whose capabilities carry the sentinel extent, with an 800 x 600 window. -/
def sampleSurface : SurfaceInput :=
  { device := sampleDevice capsSentinel [2], fbWidth := 800, fbHeight := 600 }

/-- A rebuild during which the window is first minimised (0 x 0) and then restored. -/
def sampleRebuild : RebuildInput :=
  { polls := [⟨0, 0, false⟩, ⟨800, 600, false⟩], surface := sampleSurface,
    routineError := noRoutineError }

/-- A `drawFrame` input with the given acquire result, image index and present
result, a successful submit and `sampleRebuild` as rebuild input. -/
def sampleFrame (acquireResult : Int) (imageIndex : Nat) (presentResult : Int) : FrameInput :=
  { acquireResult := acquireResult, imageIndex := imageIndex, submitResult := VK_SUCCESS,
    presentResult := presentResult, rebuild := sampleRebuild }

/-- Three loop iterations with successful frames acquiring images 0, 1 and 2. -/
def threeFrames : List LoopIteration :=
  [⟨false, sampleFrame VK_SUCCESS 0 VK_SUCCESS⟩, ⟨false, sampleFrame VK_SUCCESS 1 VK_SUCCESS⟩,
   ⟨false, sampleFrame VK_SUCCESS 2 VK_SUCCESS⟩]

/-- The check made on one logged call against the submissions in flight before it: a
fence that is reset, or attached to a new submission, is not the fence of a submission
still in flight. -/
def fenceStepOk (pending : List Submission) : Event → Bool
  | .resetFences fence => pending.all (fun s => s.fence != fence)
  | .queueSubmit _ _ _ fence => pending.all (fun s => s.fence != fence)
  | _ => true

/-- The fence discipline of a log, checked call by call from `pending`: at every
moment at most `MAX_FRAMES_IN_FLIGHT` submissions are in flight, and every call passes
`fenceStepOk`. -/
def fenceDisciplineFrom (pending : List Submission) : List Event → Bool
  | [] => decide (pending.length ≤ MAX_FRAMES_IN_FLIGHT)
  | e :: es =>
    decide (pending.length ≤ MAX_FRAMES_IN_FLIGHT) && fenceStepOk pending e &&
      fenceDisciplineFrom (inFlightStep pending e) es

/-- Invariant of the submissions in flight: their fences are pairwise distinct slots
below `MAX_FRAMES_IN_FLIGHT`. -/
def SlotsDistinct (pending : List Submission) : Prop :=
  (pending.map (fun s => s.fence)).Nodup ∧
    ∀ s, s ∈ pending → s.fence < MAX_FRAMES_IN_FLIGHT

/-- The application after a successful `initVulkan` on `sampleSurface`. -/
def readyApp : App :=
  (initVulkan noRoutineError sampleSurface initialApp).app

/-- Two loop iterations with successful frames that both acquire image 0. -/
def sameImageFrames : List LoopIteration :=
  [⟨false, sampleFrame VK_SUCCESS 0 VK_SUCCESS⟩, ⟨false, sampleFrame VK_SUCCESS 0 VK_SUCCESS⟩]

/-- Capabilities of a surface whose window is minimised: current, minimum and maximum
extent are all 0 x 0. -/
def capsZeroExtent : VkSurfaceCapabilitiesKHR :=
  { minImageCount := 2, maxImageCount := 8, currentExtent := ⟨0, 0⟩,
    minImageExtent := ⟨0, 0⟩, maxImageExtent := ⟨0, 0⟩, currentTransform := 1 }

/-- The surface of a minimised window at start-up. -/
def minimisedSurface : SurfaceInput :=
  { device := sampleDevice capsZeroExtent [2], fbWidth := 0, fbHeight := 0 }

/-- A rebuild whose first poll answers 800 x 600 while the surface capabilities still
report a 0 x 0 current extent. -/
def lateCapsRebuild : RebuildInput :=
  { polls := [⟨800, 600, false⟩],
    surface := { device := sampleDevice capsZeroExtent [2], fbWidth := 800, fbHeight := 600 },
    routineError := noRoutineError }

/-- A run with one frame whose acquisition is stale, after which the window is
closed. -/
def sampleRun : RunInput :=
  { initError := noRoutineError, initSurface := sampleSurface,
    iterations := [⟨false, sampleFrame VK_ERROR_OUT_OF_DATE_KHR 0 VK_SUCCESS⟩] }

/-- Check that every `cleanupSwapChain` in a log directly follows a `vkDeviceWaitIdle`;
`afterIdle` tells whether the call before the log was a device-idle wait. -/
def cleanupGuardedFrom (afterIdle : Bool) : List Event → Bool
  | [] => true
  | e :: es =>
    (e != .cleanupSwapChain || afterIdle) && cleanupGuardedFrom (e == .deviceWaitIdle) es

/-! ## Further driver reports and platform inputs used in the evaluations below -/

/-- A device report whose colour attachments support 1 and 4 samples (mask `1 | 4`)
and whose depth attachments support 1 and 2 samples (mask `1 | 2`). -/
def mixedSampleDevice : PhysicalDeviceInfo :=
  { sampleDevice capsSentinel [VK_PRESENT_MODE_FIFO_KHR] with
    framebufferColorSampleCounts := 5, framebufferDepthSampleCounts := 3 }

/-- A device report with two surface formats (`VK_FORMAT_B8G8R8A8_UNORM` and
`VK_FORMAT_B8G8R8A8_SRGB`, value 50) and the single presentation mode FIFO. -/
def twoFormatDevice : PhysicalDeviceInfo :=
  { sampleDevice capsSentinel [VK_PRESENT_MODE_FIFO_KHR] with
    surfaceFormats := [⟨VK_FORMAT_B8G8R8A8_UNORM, VK_COLOR_SPACE_SRGB_NONLINEAR_KHR⟩,
                       ⟨50, VK_COLOR_SPACE_SRGB_NONLINEAR_KHR⟩] }

/-- A run whose first frame is drawn and presented and whose second frame fails in
`vkAcquireNextImageKHR` with `VK_ERROR_DEVICE_LOST`. -/
def lostDeviceRun : RunInput :=
  { initError := noRoutineError, initSurface := sampleSurface,
    iterations := [⟨false, sampleFrame VK_SUCCESS 0 VK_SUCCESS⟩,
                   ⟨false, sampleFrame VK_ERROR_DEVICE_LOST 0 VK_SUCCESS⟩] }

/-- A run whose `createTextureImage` throws during `initVulkan`. -/
def failedInitRun : RunInput :=
  { initError := fun r =>
      if r = .createTextureImage then some "Failed to load texture image!" else none,
    initSurface := sampleSurface, iterations := [] }

/-- One stale acquisition followed by a successful frame. -/
def staleThenDrawn : List LoopIteration :=
  [⟨false, sampleFrame VK_ERROR_OUT_OF_DATE_KHR 0 VK_SUCCESS⟩,
   ⟨false, sampleFrame VK_SUCCESS 0 VK_SUCCESS⟩]

/-! ## The process around `run` (`main`) -/

/-- Exit status `EXIT_SUCCESS`. -/
def EXIT_SUCCESS : Nat := 0

/-- Exit status `EXIT_FAILURE`. -/
def EXIT_FAILURE : Nat := 1

/-- How the process ends: the status `main` returns and the calls made up to then. -/
structure ProcessExit where
  status : Nat
  trace : List Event
deriving DecidableEq, Repr

/-- Embedding of `main`: `app.run()` inside `try`; the handler of `std::exception`
prints `e.what()` and returns `EXIT_FAILURE`, making no call on the application
object; `DemoApp` has no destructor.  The result is `none` when `run` never comes back
(the window stays minimised inside `recreateSwapChain`). -/
def main (input : RunInput) : Option ProcessExit :=
  match run input with
  | .returned app => some ⟨EXIT_SUCCESS, app.trace⟩
  | .raised _ app => some ⟨EXIT_FAILURE, app.trace⟩
  | .waiting _ => none

/-! ## Fence state read from the log -/

/-- Effect of one logged call on whether fence `inFlightFences[fence]` is armed, that
is, signalled or attached to a submitted batch that signals it on completion:
`createSyncObjects` creates the fences of the `MAX_FRAMES_IN_FLIGHT` slots with
`VK_FENCE_CREATE_SIGNALED_BIT`, `vkResetFences` leaves the fence unsignalled with no
batch attached, and the queue submission of `drawFrame` attaches a batch to its fence.
A fence wait leaves an armed fence armed. -/
def fenceArmedStep (fence : Nat) (armed : Bool) : Event → Bool
  | .call .createSyncObjects => decide (fence < MAX_FRAMES_IN_FLIGHT)
  | .resetFences f => if f == fence then false else armed
  | .queueSubmit _ _ _ f => if f == fence then true else armed
  | _ => armed

/-- Whether fence `fence` is armed after the logged calls, starting from `armed`. -/
def fenceArmedFrom (fence : Nat) (armed : Bool) (events : List Event) : Bool :=
  events.foldl (fenceArmedStep fence) armed

/-- Whether fence `fence` is armed at the end of a log that starts before the fences
exist. -/
def fenceArmed (trace : List Event) (fence : Nat) : Bool :=
  fenceArmedFrom fence false trace

/-- What a log shows when teardown has not happened: `cleanApp` has not run (no
`teardown` entry), and the last call made is not a device-idle wait. -/
def NoTeardown (trace : List Event) : Prop :=
  Event.teardown ∉ trace ∧ trace.getLast? ≠ some Event.deviceWaitIdle

/-! ## Buffer and image allocation (`createBuffer`, `createImage`, `createVertexBuffer`)

The objects of the logical device are kept in a record of the buffers, images and
memory allocations that are alive.  What the driver answers to the calls of one
allocation routine is an input. -/

/-- A live `VkBuffer`: its handle and the `size` and `usage` it was created with. -/
structure BufferObject where
  handle : Nat
  size : Nat
  usage : Nat
deriving DecidableEq, Repr

/-- A live `VkImage`: its handle and the extent and usage it was created with. -/
structure ImageObject where
  handle : Nat
  width : Nat
  height : Nat
  usage : Nat
deriving DecidableEq, Repr

/-- A live `VkDeviceMemory`: its handle, the `allocationSize` and `memoryTypeIndex` of
its `VkMemoryAllocateInfo`, and the buffer or image handle bound to it. -/
structure MemoryObject where
  handle : Nat
  allocationSize : Nat
  memoryTypeIndex : Nat
  boundTo : Nat
deriving DecidableEq, Repr

/-- The buffers, images and memory allocations of the device that are alive;
`nextHandle` is the value of the next handle the driver hands out. -/
structure DeviceHeap where
  nextHandle : Nat
  buffers : List BufferObject
  images : List ImageObject
  memories : List MemoryObject
deriving DecidableEq, Repr

/-- Record `VkMemoryRequirements` (the alignment is not read by the embedded code). -/
structure VkMemoryRequirements where
  size : Nat
  memoryTypeBits : Nat
deriving DecidableEq, Repr

/-- What the driver answers during one `createBuffer` or `createImage` call: the
result of `vkCreateBuffer` / `vkCreateImage`, the memory requirements of the new
object, the memory properties of the physical device read by `findMemoryType`, and
the result of `vkAllocateMemory`. -/
structure AllocationAnswers where
  createResult : Int
  memRequirements : VkMemoryRequirements
  memProperties : VkPhysicalDeviceMemoryProperties
  allocateResult : Int
deriving DecidableEq, Repr

/-- How `createBuffer` or `createImage` is left: the device objects alive at that
point, the handles held by the reference parameters (`VK_NULL_HANDLE` when the
routine has not written them), and the message of the exception, if one is thrown. -/
structure AllocationResult where
  heap : DeviceHeap
  object : Nat
  memory : Nat
  error : Option String
deriving DecidableEq, Repr

/-- Embedding of `DemoApp::createBuffer`.  The routine contains no `vkDestroyBuffer`
and no `vkFreeMemory`: each `throw` leaves the objects created before it as they
are. -/
def createBuffer (size usage properties : Nat) (driver : AllocationAnswers)
    (heap : DeviceHeap) : AllocationResult :=
  if driver.createResult != VK_SUCCESS then
    { heap := heap, object := VK_NULL_HANDLE, memory := VK_NULL_HANDLE,
      error := some "failed to create vertex buffer!" }
  else
    let buffer := heap.nextHandle
    let heap1 : DeviceHeap :=
      { heap with nextHandle := heap.nextHandle + 1,
                  buffers := heap.buffers ++ [⟨buffer, size, usage⟩] }
    match findMemoryType driver.memRequirements.memoryTypeBits properties
        driver.memProperties with
    | .error what =>
      { heap := heap1, object := buffer, memory := VK_NULL_HANDLE, error := some what }
    | .ok memoryTypeIndex =>
      if driver.allocateResult != VK_SUCCESS then
        { heap := heap1, object := buffer, memory := VK_NULL_HANDLE,
          error := some "failed to allocate vertex buffer memory!" }
      else
        let bufferMemory := heap1.nextHandle
        { heap :=
            { heap1 with
              nextHandle := heap1.nextHandle + 1,
              memories := heap1.memories ++
                [⟨bufferMemory, driver.memRequirements.size, memoryTypeIndex, buffer⟩] },
          object := buffer, memory := bufferMemory, error := none }

/-- Embedding of `DemoApp::createImage` (the test on `vkCreateImage` is on a non-zero
result).  As in `createBuffer`, no `throw` is preceded by a destroy call. -/
def createImage (width height usage properties : Nat) (driver : AllocationAnswers)
    (heap : DeviceHeap) : AllocationResult :=
  if driver.createResult != 0 then
    { heap := heap, object := VK_NULL_HANDLE, memory := VK_NULL_HANDLE,
      error := some "Failed to create image!" }
  else
    let image := heap.nextHandle
    let heap1 : DeviceHeap :=
      { heap with nextHandle := heap.nextHandle + 1,
                  images := heap.images ++ [⟨image, width, height, usage⟩] }
    match findMemoryType driver.memRequirements.memoryTypeBits properties
        driver.memProperties with
    | .error what =>
      { heap := heap1, object := image, memory := VK_NULL_HANDLE, error := some what }
    | .ok memoryTypeIndex =>
      if driver.allocateResult != VK_SUCCESS then
        { heap := heap1, object := image, memory := VK_NULL_HANDLE,
          error := some "Failed to allocate image memory." }
      else
        let imageMemory := heap1.nextHandle
        { heap :=
            { heap1 with
              nextHandle := heap1.nextHandle + 1,
              memories := heap1.memories ++
                [⟨imageMemory, driver.memRequirements.size, memoryTypeIndex, image⟩] },
          object := image, memory := imageMemory, error := none }

/-- Value of `sizeof(Vertex)`: three `glm::vec3` and one `glm::vec2` of `float`. -/
def sizeofVertex : Nat := 44

/-- Flag `VK_BUFFER_USAGE_TRANSFER_SRC_BIT`. -/
def VK_BUFFER_USAGE_TRANSFER_SRC_BIT : Nat := 1

/-- Flag `VK_BUFFER_USAGE_TRANSFER_DST_BIT`. -/
def VK_BUFFER_USAGE_TRANSFER_DST_BIT : Nat := 2

/-- Flag `VK_BUFFER_USAGE_VERTEX_BUFFER_BIT`. -/
def VK_BUFFER_USAGE_VERTEX_BUFFER_BIT : Nat := 128

/-- Flag `VK_MEMORY_PROPERTY_DEVICE_LOCAL_BIT`. -/
def VK_MEMORY_PROPERTY_DEVICE_LOCAL_BIT : Nat := 1

/-- Flag `VK_MEMORY_PROPERTY_HOST_VISIBLE_BIT`. -/
def VK_MEMORY_PROPERTY_HOST_VISIBLE_BIT : Nat := 2

/-- Flag `VK_MEMORY_PROPERTY_HOST_COHERENT_BIT`. -/
def VK_MEMORY_PROPERTY_HOST_COHERENT_BIT : Nat := 4

/-- How `createVertexBuffer` is left: the device objects alive, the members
`mVertexBuffer` and `mVertexBufferMemory`, the number of bytes copied into the staging
memory, and the message of the exception, if one is thrown. -/
structure UploadResult where
  heap : DeviceHeap
  mVertexBuffer : Nat
  mVertexBufferMemory : Nat
  bytesCopied : Nat
  error : Option String
deriving DecidableEq, Repr

/-- Embedding of `DemoApp::createVertexBuffer` for a mesh of `vertexCount` vertices:
`bufferSize = sizeof(mVertices[0]) * mVertices.size()` (in `size_t`, 64 bits), a
staging buffer filled through `vkMapMemory` / `memcpy`, the device-local buffer,
`copyBuffer`, and the release of the staging buffer and its memory.  `staging` and
`target` are the driver answers during the two `createBuffer` calls. -/
def createVertexBuffer (vertexCount : Nat) (staging target : AllocationAnswers)
    (heap : DeviceHeap) : UploadResult :=
  let bufferSize := (sizeofVertex * vertexCount) % 2 ^ 64
  let r1 := createBuffer bufferSize VK_BUFFER_USAGE_TRANSFER_SRC_BIT
    (VK_MEMORY_PROPERTY_HOST_VISIBLE_BIT ||| VK_MEMORY_PROPERTY_HOST_COHERENT_BIT)
    staging heap
  match r1.error with
  | some what =>
    { heap := r1.heap, mVertexBuffer := VK_NULL_HANDLE,
      mVertexBufferMemory := VK_NULL_HANDLE, bytesCopied := 0, error := some what }
  | none =>
    let r2 := createBuffer bufferSize
      (VK_BUFFER_USAGE_TRANSFER_DST_BIT ||| VK_BUFFER_USAGE_VERTEX_BUFFER_BIT)
      VK_MEMORY_PROPERTY_DEVICE_LOCAL_BIT target r1.heap
    match r2.error with
    | some what =>
      { heap := r2.heap, mVertexBuffer := r2.object, mVertexBufferMemory := r2.memory,
        bytesCopied := bufferSize, error := some what }
    | none =>
      { heap :=
          { r2.heap with
            buffers := r2.heap.buffers.filter (fun b => b.handle != r1.object),
            memories := r2.heap.memories.filter (fun m => m.handle != r1.memory) },
        mVertexBuffer := r2.object, mVertexBufferMemory := r2.memory,
        bytesCopied := bufferSize, error := none }

/-- A device with no live object; handles start at 1. -/
def emptyHeap : DeviceHeap :=
  { nextHandle := 1, buffers := [], images := [], memories := [] }

/-- Memory properties with two memory types: type 0 is device-local, type 1 is
host-visible and host-coherent. -/
def sampleMemProperties : VkPhysicalDeviceMemoryProperties :=
  { memoryTypeCount := 2, memoryTypes := [⟨1, 0⟩, ⟨6, 1⟩] }

/-- A driver that answers `VK_SUCCESS` to both calls and reports requirements of
`size` bytes allowing both memory types. -/
def acceptingDriver (size : Nat) : AllocationAnswers :=
  { createResult := VK_SUCCESS, memRequirements := ⟨size, 3⟩,
    memProperties := sampleMemProperties, allocateResult := VK_SUCCESS }

/-- A driver that creates the object and reports requirements whose type bitmask has
no bit of an available memory type (only bit 2 is set, the device has types 0 and 1). -/
def noTypeDriver : AllocationAnswers :=
  { createResult := VK_SUCCESS, memRequirements := ⟨256, 4⟩,
    memProperties := sampleMemProperties, allocateResult := VK_SUCCESS }

/-! ## Vertex de-duplication (`DemoApp::loadModel`)

Components of `glm::vec2` / `glm::vec3` are `float` values.  A float value other than
NaN is named here by an integer, the two zeros by one name, with 0 naming `0.0f` and 1
naming `1.0f`: equal names are values that compare equal with `==`.  The embedded code
compares components for equality and forms `1.f - v`; that float operation, with its
rounding, is the input function `oneMinus` on names.  NaN is left out. -/

/-- Type `glm::vec2`. -/
structure Vec2 where
  x : Int
  y : Int
deriving DecidableEq, Repr

/-- Type `glm::vec3`. -/
structure Vec3 where
  x : Int
  y : Int
  z : Int
deriving DecidableEq, Repr

/-- Struct `Vertex` of `DemoApp.h`. -/
structure Vertex where
  pos : Vec3
  color : Vec3
  texCoord : Vec2
  normal : Vec3
deriving DecidableEq, Repr

/-- Embedding of `Vertex::operator==`: position, colour and texture coordinate are
compared; `normal` is not.  `std::hash<Vertex>` combines the same three fields, so
vertices that compare equal hash equal and `std::unordered_map<Vertex, uint32_t>`
treats them as one key. -/
def Vertex.equals (a b : Vertex) : Bool :=
  a.pos == b.pos && a.color == b.color && a.texCoord == b.texCoord

/-- The arrays of `tinyobj::attrib_t` read by `loadModel`. -/
structure Attrib where
  vertices : List Int
  normals : List Int
  texcoords : List Int
deriving DecidableEq, Repr

/-- Struct `tinyobj::index_t`; its fields are `int`. -/
structure Index where
  vertex_index : Int
  normal_index : Int
  texcoord_index : Int
deriving DecidableEq, Repr

/-- Read of `array[i]` for an index expression `i` computed in `int`: the element, or
`none` when the read is undefined in the source (the expression is negative or does
not fit `int`, or it is not below the size of the vector). -/
def readComponent (array : List Int) (i : Int) : Option Int :=
  if 0 ≤ i ∧ i < 2 ^ 31 then array.get? i.toNat else none

/-- The local `vertex` built by one iteration of the inner loop of `loadModel` from
`index`: the vertex read from the model, `none` when one of the reads is undefined.
`Vertex vertex = {}` zero-initialises the texture coordinate, which is left unset when
the model has no texture coordinates. -/
def readVertex (oneMinus : Int → Int) (attrib : Attrib) (index : Index) : Option Vertex :=
  (readComponent attrib.vertices (3 * index.vertex_index + 0)).bind fun px =>
  (readComponent attrib.vertices (3 * index.vertex_index + 1)).bind fun py =>
  (readComponent attrib.vertices (3 * index.vertex_index + 2)).bind fun pz =>
  (if attrib.texcoords.length > 0 then
      (readComponent attrib.texcoords (2 * index.texcoord_index + 0)).bind fun u =>
      (readComponent attrib.texcoords (2 * index.texcoord_index + 1)).bind fun v =>
      some (⟨u, oneMinus v⟩ : Vec2)
    else some ⟨0, 0⟩).bind fun texCoord =>
  (readComponent attrib.normals (3 * index.normal_index + 0)).bind fun nx =>
  (readComponent attrib.normals (3 * index.normal_index + 1)).bind fun ny =>
  (readComponent attrib.normals (3 * index.normal_index + 2)).bind fun nz =>
  some { pos := ⟨px, py, pz⟩, texCoord := texCoord, normal := ⟨nx, ny, nz⟩,
         color := ⟨1, 1, 1⟩ }

/-- The members `mVertices` and `mIndices` and the local map `uniqueVertices` of
`loadModel`; the map is the list of its entries in insertion order. -/
structure Mesh where
  mVertices : List Vertex
  mIndices : List Nat
  uniqueVertices : List (Vertex × Nat)
deriving DecidableEq, Repr

/-- Lookup in `uniqueVertices`: the value stored under a key that compares equal to
`vertex` with `operator==`, if there is one. -/
def uniqueVerticesFind (uniqueVertices : List (Vertex × Nat)) (vertex : Vertex) :
    Option Nat :=
  (uniqueVertices.find? (fun entry => entry.1.equals vertex)).map (fun entry => entry.2)

/-- The part of one iteration of the inner loop of `loadModel` that follows the
construction of `vertex`. -/
def storeVertex (mesh : Mesh) (vertex : Vertex) : Mesh :=
  match uniqueVerticesFind mesh.uniqueVertices vertex with
  | none =>
    let slot := mesh.mVertices.length % 2 ^ 32
    { mVertices := mesh.mVertices ++ [vertex],
      mIndices := mesh.mIndices ++ [slot],
      uniqueVertices := mesh.uniqueVertices ++ [(vertex, slot)] }
  | some slot => { mesh with mIndices := mesh.mIndices ++ [slot] }

/-- One iteration of the inner loop of `loadModel`; `none` when a read of the
iteration is undefined. -/
def loadModelStep (oneMinus : Int → Int) (attrib : Attrib) (mesh : Mesh) (index : Index) :
    Option Mesh :=
  (readVertex oneMinus attrib index).map (storeVertex mesh)

/-- The inner loop of `loadModel` over the indices of one shape. -/
def loadShape (oneMinus : Int → Int) (attrib : Attrib) : Mesh → List Index → Option Mesh
  | mesh, [] => some mesh
  | mesh, index :: rest =>
    (loadModelStep oneMinus attrib mesh index).bind
      (fun mesh1 => loadShape oneMinus attrib mesh1 rest)

/-- The outer loop of `loadModel` over the shapes. -/
def loadShapes (oneMinus : Int → Int) (attrib : Attrib) :
    Mesh → List (List Index) → Option Mesh
  | mesh, [] => some mesh
  | mesh, shape :: rest =>
    (loadShape oneMinus attrib mesh shape).bind
      (fun mesh1 => loadShapes oneMinus attrib mesh1 rest)

/-- Embedding of `DemoApp::loadModel` on a file that `tinyobj::LoadObj` has parsed into
`attrib` and the index lists of its shapes; `mVertices` and `mIndices` are empty when
it is called.  The result is `none` when the loop makes an undefined read. -/
def loadModel (oneMinus : Int → Int) (attrib : Attrib) (shapes : List (List Index)) :
    Option Mesh :=
  loadShapes oneMinus attrib ⟨[], [], []⟩ shapes

/-- The indices of all shapes in the order `loadModel` visits them. -/
def modelIndices (shapes : List (List Index)) : List Index :=
  shapes.flatten

/-- A model with one position, one texture coordinate and two normals (a corner on a
hard edge). -/
def hardEdgeAttrib : Attrib :=
  { vertices := [0, 0, 0], normals := [0, 0, 1, 1, 0, 0], texcoords := [0, 0] }

/-- One shape naming the corner of `hardEdgeAttrib` twice, once with each normal. -/
def hardEdgeShapes : List (List Index) :=
  [[⟨0, 0, 0⟩, ⟨0, 1, 0⟩]]

/-- Invariant of the loop of `loadModel` after the input indices `done`: every map
entry names the position of its key in `mVertices`, every stored vertex is a key of
the map, no two stored vertices compare equal, and each stored index names a stored
vertex that compares equal to the vertex read for the input index at the same
place. -/
def LoadInvariant (oneMinus : Int → Int) (attrib : Attrib) (mesh : Mesh)
    (done : List Index) : Prop :=
  (∀ entry, entry ∈ mesh.uniqueVertices → mesh.mVertices.get? entry.2 = some entry.1) ∧
  (∀ v, v ∈ mesh.mVertices → ∃ slot, (v, slot) ∈ mesh.uniqueVertices) ∧
  mesh.mVertices.Pairwise (fun a b => a.equals b = false) ∧
  List.Forall₂
    (fun slot index => ∃ v read, mesh.mVertices.get? slot = some v ∧
      readVertex oneMinus attrib index = some read ∧ v.equals read = true)
    mesh.mIndices done ∧
  mesh.mVertices.length ≤ done.length

/-! ## Objects that depend on the swapchain (`cleanupSwapChain`, the creation routines)

The device objects that `cleanupSwapChain` destroys and the creation routines rebuild
are kept in a second state record: the members of `DemoApp` holding them, and the set
of handles that are alive.  Handles are numbered in creation order, so a handle names
one object for good.  Objects the rebuild does not touch (instance, device, command
pool, descriptor set layout, texture, mesh buffers, synchronisation objects) are left
out, and so are the references to them.  Every routine is embedded on the path on
which all its Vulkan calls succeed. -/

/-- A `VkImageView` and the image its create info names. -/
structure ImageView where
  handle : Nat
  image : Nat
deriving DecidableEq, Repr

/-- A `VkPipeline` with the `layout` and `renderPass` of its create info. -/
structure Pipeline where
  handle : Nat
  layout : Nat
  renderPass : Nat
deriving DecidableEq, Repr

/-- A `VkFramebuffer` with the `renderPass` and `pAttachments` of its create info. -/
structure Framebuffer where
  handle : Nat
  renderPass : Nat
  attachments : List Nat
deriving DecidableEq, Repr

/-- A `VkDescriptorSet` with the pool it is allocated from and the uniform buffer
written to its binding 0. -/
structure DescriptorSet where
  handle : Nat
  pool : Nat
  buffer : Nat
deriving DecidableEq, Repr

/-- A recorded `VkCommandBuffer` with the objects its commands name. -/
structure CommandBuffer where
  handle : Nat
  renderPass : Nat
  framebuffer : Nat
  pipeline : Nat
  pipelineLayout : Nat
  descriptorSet : Nat
deriving DecidableEq, Repr

/-- An image created by `createColorResources` or `createDepthResources`, with its
memory and its view. -/
structure RenderTarget where
  image : Nat
  memory : Nat
  view : Nat
deriving DecidableEq, Repr

/-- The swapchain-dependent members of `DemoApp`, the handles alive on the device
(`live`), the next handle the driver hands out, and the colour and depth targets
created so far. -/
structure Resources where
  nextHandle : Nat
  live : List Nat
  mSwapChain : Nat
  mSwapChainImages : List Nat
  mSwapChainImageViews : List ImageView
  mRenderPass : Nat
  mPipelineLayout : Nat
  mGraphicsPipeline : Pipeline
  mColorImage : Nat
  mColorImageMemory : Nat
  mColorImageView : ImageView
  mDepthImage : Nat
  depthImageMemory : Nat
  mDepthImageView : ImageView
  mSwapChainFramebuffers : List Framebuffer
  mUniformBuffers : List Nat
  mUniformBuffersMemory : List Nat
  mDescriptorPool : Nat
  mDescriptorSets : List DescriptorSet
  mCommandBuffers : List CommandBuffer
  colorTargets : List RenderTarget
  depthTargets : List RenderTarget
deriving DecidableEq, Repr

namespace Resources

/-- The members before `initVulkan`: no object is alive, the vectors are empty and the
handles are null; the driver numbers handles from 1. -/
def initial : Resources :=
  { nextHandle := 1, live := [], mSwapChain := VK_NULL_HANDLE, mSwapChainImages := [],
    mSwapChainImageViews := [], mRenderPass := VK_NULL_HANDLE,
    mPipelineLayout := VK_NULL_HANDLE, mGraphicsPipeline := ⟨VK_NULL_HANDLE, 0, 0⟩,
    mColorImage := VK_NULL_HANDLE, mColorImageMemory := VK_NULL_HANDLE,
    mColorImageView := ⟨VK_NULL_HANDLE, 0⟩, mDepthImage := VK_NULL_HANDLE,
    depthImageMemory := VK_NULL_HANDLE, mDepthImageView := ⟨VK_NULL_HANDLE, 0⟩,
    mSwapChainFramebuffers := [], mUniformBuffers := [], mUniformBuffersMemory := [],
    mDescriptorPool := VK_NULL_HANDLE, mDescriptorSets := [], mCommandBuffers := [],
    colorTargets := [], depthTargets := [] }

/-- The driver creates `count` objects: they get the next `count` handles and are
alive. -/
def create (r : Resources) (count : Nat) : Resources :=
  { r with nextHandle := r.nextHandle + count,
           live := r.live ++ List.range' r.nextHandle count }

/-- The end of `createSwapChain`: `vkCreateSwapchainKHR` stores the new swapchain in
`mSwapChain`; the driver reports `imageCount` images, `mSwapChainImages` is resized to
that count and filled with their handles. -/
def createSwapChain (imageCount : Nat) (r : Resources) : Resources :=
  { r.create (1 + imageCount) with
    mSwapChain := r.nextHandle,
    mSwapChainImages := (List.range imageCount).map (fun i => r.nextHandle + 1 + i) }

/-- Embedding of `createImageViews`: the vector is resized to
`mSwapChainImages.size()` and entry `i` becomes a new view of `mSwapChainImages[i]`. -/
def createImageViews (r : Resources) : Resources :=
  { r.create r.mSwapChainImages.length with
    mSwapChainImageViews := (List.range r.mSwapChainImages.length).map
      (fun i => ⟨r.nextHandle + i, r.mSwapChainImages.getD i VK_NULL_HANDLE⟩) }

/-- Embedding of `createRenderPass`. -/
def createRenderPass (r : Resources) : Resources :=
  { r.create 1 with mRenderPass := r.nextHandle }

/-- Embedding of `createGraphicsPipeline`: the pipeline layout, then the pipeline with
`layout = mPipelineLayout` and `renderPass = mRenderPass` (the shader modules are
created and destroyed inside the routine). -/
def createGraphicsPipeline (r : Resources) : Resources :=
  { r.create 2 with
    mPipelineLayout := r.nextHandle,
    mGraphicsPipeline := ⟨r.nextHandle + 1, r.nextHandle, r.mRenderPass⟩ }

/-- Embedding of `createColorResources`: `createImage` stores a new image and its
memory in `mColorImage` and `mColorImageMemory`, `createImageView` a new view of it in
`mColorImageView`.  The previous values of the three members are overwritten; the
routine makes no destroy call. -/
def createColorResources (r : Resources) : Resources :=
  { r.create 3 with
    mColorImage := r.nextHandle,
    mColorImageMemory := r.nextHandle + 1,
    mColorImageView := ⟨r.nextHandle + 2, r.nextHandle⟩,
    colorTargets := r.colorTargets ++ [⟨r.nextHandle, r.nextHandle + 1, r.nextHandle + 2⟩] }

/-- Embedding of `createDepthResources`, with `mDepthImage`, `depthImageMemory` and
`mDepthImageView`. -/
def createDepthResources (r : Resources) : Resources :=
  { r.create 3 with
    mDepthImage := r.nextHandle,
    depthImageMemory := r.nextHandle + 1,
    mDepthImageView := ⟨r.nextHandle + 2, r.nextHandle⟩,
    depthTargets := r.depthTargets ++ [⟨r.nextHandle, r.nextHandle + 1, r.nextHandle + 2⟩] }

/-- Embedding of `createFramebuffers`: the vector is resized to
`mSwapChainImageViews.size()` and entry `i` becomes a new framebuffer for `mRenderPass`
with the attachments `mColorImageView`, `mDepthImageView`, `mSwapChainImageViews[i]`. -/
def createFramebuffers (r : Resources) : Resources :=
  { r.create r.mSwapChainImageViews.length with
    mSwapChainFramebuffers := (List.range r.mSwapChainImageViews.length).map
      (fun i => ⟨r.nextHandle + i, r.mRenderPass,
        [r.mColorImageView.handle, r.mDepthImageView.handle,
         (r.mSwapChainImageViews.getD i ⟨VK_NULL_HANDLE, 0⟩).handle]⟩) }

/-- Embedding of `createUniformBuffers`: both vectors are resized to
`mSwapChainImages.size()`, and `createBuffer` stores a new buffer and a new memory
allocation in entry `i` of each. -/
def createUniformBuffers (r : Resources) : Resources :=
  { r.create (2 * r.mSwapChainImages.length) with
    mUniformBuffers := (List.range r.mSwapChainImages.length).map
      (fun i => r.nextHandle + 2 * i),
    mUniformBuffersMemory := (List.range r.mSwapChainImages.length).map
      (fun i => r.nextHandle + 2 * i + 1) }

/-- Embedding of `createDescriptorPool`. -/
def createDescriptorPool (r : Resources) : Resources :=
  { r.create 1 with mDescriptorPool := r.nextHandle }

/-- Embedding of `createDescriptorSets`: the vector is resized to
`mSwapChainImages.size()`, that many sets are allocated from `mDescriptorPool`, and
set `i` is written with `mUniformBuffers[i]`. -/
def createDescriptorSets (r : Resources) : Resources :=
  { r.create r.mSwapChainImages.length with
    mDescriptorSets := (List.range r.mSwapChainImages.length).map
      (fun i => ⟨r.nextHandle + i, r.mDescriptorPool,
        r.mUniformBuffers.getD i VK_NULL_HANDLE⟩) }

/-- Embedding of `createCommandBuffers`: the vector is resized to
`mSwapChainFramebuffers.size()`, that many command buffers are allocated, and command
buffer `i` is recorded with `mRenderPass`, `mSwapChainFramebuffers[i]`,
`mGraphicsPipeline`, `mPipelineLayout` and `mDescriptorSets[i]`. -/
def createCommandBuffers (r : Resources) : Resources :=
  { r.create r.mSwapChainFramebuffers.length with
    mCommandBuffers := (List.range r.mSwapChainFramebuffers.length).map
      (fun i => ⟨r.nextHandle + i, r.mRenderPass,
        (r.mSwapChainFramebuffers.getD i ⟨VK_NULL_HANDLE, 0, []⟩).handle,
        r.mGraphicsPipeline.handle, r.mPipelineLayout,
        (r.mDescriptorSets.getD i ⟨VK_NULL_HANDLE, 0, 0⟩).handle⟩) }

/-- The handles `cleanupSwapChain` destroys, in source order: the colour view, image
and memory held in the members, the depth view, image and memory, every framebuffer,
every command buffer, the pipeline, its layout, the render pass, every swapchain image
view, the swapchain (and with it its images), the uniform buffer and memory of every
index below `mSwapChainImages.size()`, and the descriptor pool (and with it its
sets). -/
def destroyedByCleanup (r : Resources) : List Nat :=
  [r.mColorImageView.handle, r.mColorImage, r.mColorImageMemory,
   r.mDepthImageView.handle, r.mDepthImage, r.depthImageMemory] ++
  r.mSwapChainFramebuffers.map (fun f => f.handle) ++
  r.mCommandBuffers.map (fun c => c.handle) ++
  [r.mGraphicsPipeline.handle, r.mPipelineLayout, r.mRenderPass] ++
  r.mSwapChainImageViews.map (fun v => v.handle) ++
  (r.mSwapChain :: r.mSwapChainImages) ++
  (List.range r.mSwapChainImages.length).flatMap
    (fun i => [r.mUniformBuffers.getD i VK_NULL_HANDLE,
               r.mUniformBuffersMemory.getD i VK_NULL_HANDLE]) ++
  (r.mDescriptorPool :: r.mDescriptorSets.map (fun s => s.handle))

/-- Embedding of `cleanupSwapChain`: the handles it destroys are no longer alive; the
members keep their values. -/
def cleanupSwapChain (r : Resources) : Resources :=
  { r with live := r.live.filter (fun h => !(r.destroyedByCleanup.contains h)) }

/-- The effect of one member function on the swapchain-dependent objects;
`imageCount` is the number of images the driver reports for a new swapchain. -/
def runRoutine (imageCount : Nat) (r : Resources) : Routine → Resources
  | .createSwapChain => r.createSwapChain imageCount
  | .createImageViews => r.createImageViews
  | .createRenderPass => r.createRenderPass
  | .createGraphicsPipeline => r.createGraphicsPipeline
  | .createColorResources => r.createColorResources
  | .createDepthResources => r.createDepthResources
  | .createFramebuffers => r.createFramebuffers
  | .createUniformBuffers => r.createUniformBuffers
  | .createDescriptorPool => r.createDescriptorPool
  | .createDescriptorSets => r.createDescriptorSets
  | .createCommandBuffers => r.createCommandBuffers
  | _ => r

/-- The swapchain-dependent objects after a completed `initVulkan`. -/
def initVulkan (imageCount : Nat) : Resources :=
  initRoutines.foldl (runRoutine imageCount) initial

/-- The effect of a completed `recreateSwapChain` (wait for a non-zero window size,
`vkDeviceWaitIdle`, `cleanupSwapChain`, then the routines of `recreateRoutines`). -/
def recreateSwapChain (imageCount : Nat) (r : Resources) : Resources :=
  recreateRoutines.foldl (runRoutine imageCount) r.cleanupSwapChain

/-- Every handle named by an image view, framebuffer, descriptor set or recorded
command buffer held in the members. -/
def referenced (r : Resources) : List Nat :=
  [r.mColorImageView.image, r.mDepthImageView.image] ++
  r.mSwapChainImageViews.map (fun v => v.image) ++
  r.mSwapChainFramebuffers.flatMap (fun f => f.renderPass :: f.attachments) ++
  r.mDescriptorSets.flatMap (fun s => [s.pool, s.buffer]) ++
  r.mCommandBuffers.flatMap
    (fun c => [c.renderPass, c.framebuffer, c.pipeline, c.pipelineLayout, c.descriptorSet])

/-- The handles stored in the per-image vectors. -/
def perImageEntries (r : Resources) : List Nat :=
  r.mSwapChainImages ++ r.mSwapChainImageViews.map (fun v => v.handle) ++
  r.mSwapChainFramebuffers.map (fun f => f.handle) ++
  r.mUniformBuffers ++ r.mUniformBuffersMemory ++
  r.mDescriptorSets.map (fun s => s.handle) ++
  r.mCommandBuffers.map (fun c => c.handle)

/-- The per-image vectors all have as many entries as there are swapchain images. -/
def SizesAgree (r : Resources) : Prop :=
  r.mSwapChainImageViews.length = r.mSwapChainImages.length ∧
  r.mSwapChainFramebuffers.length = r.mSwapChainImages.length ∧
  r.mCommandBuffers.length = r.mSwapChainImages.length ∧
  r.mUniformBuffers.length = r.mSwapChainImages.length ∧
  r.mUniformBuffersMemory.length = r.mSwapChainImages.length ∧
  r.mDescriptorSets.length = r.mSwapChainImages.length

/-- Whether any of the three objects of a render target is alive. -/
def targetAlive (r : Resources) (t : RenderTarget) : Bool :=
  r.live.contains t.image || r.live.contains t.memory || r.live.contains t.view

/-- The colour targets created so far of which some object is alive. -/
def liveColorTargets (r : Resources) : List RenderTarget :=
  r.colorTargets.filter r.targetAlive

/-- The depth targets created so far of which some object is alive. -/
def liveDepthTargets (r : Resources) : List RenderTarget :=
  r.depthTargets.filter r.targetAlive

/-- The colour target held in the members. -/
def heldColorTarget (r : Resources) : RenderTarget :=
  ⟨r.mColorImage, r.mColorImageMemory, r.mColorImageView.handle⟩

/-- The depth target held in the members. -/
def heldDepthTarget (r : Resources) : RenderTarget :=
  ⟨r.mDepthImage, r.depthImageMemory, r.mDepthImageView.handle⟩

end Resources

/-! ## The most recent submission and what is in flight when a buffer is used again -/

/-- Effect of one logged call on the most recent frame submission. -/
def lastSubmissionStep (last : Option Submission) : Event → Option Submission
  | .queueSubmit commandBuffer _ _ fence => some ⟨commandBuffer, fence⟩
  | _ => last

/-- The most recent frame submission after the logged calls, starting from `last`. -/
def lastSubmissionFrom (last : Option Submission) (events : List Event) :
    Option Submission :=
  events.foldl lastSubmissionStep last

/-- The most recent frame submission of a log, `none` if it has none. -/
def lastSubmission (trace : List Event) : Option Submission :=
  lastSubmissionFrom none trace

/-- Effect of one logged call on the number of frames started since the most recent
frame submission: every `drawFrame` call starts with its `vkWaitForFences`, and a
submission sets the count back to 0. -/
def framesSinceStep (since : Nat) : Event → Nat
  | .queueSubmit _ _ _ _ => 0
  | .waitForFences _ => since + 1
  | _ => since

/-- The number of frames started since the most recent frame submission after the
logged calls, starting from `since`. -/
def framesSinceFrom (since : Nat) (events : List Event) : Nat :=
  events.foldl framesSinceStep since

/-- The number of `drawFrame` calls started in a log after its most recent frame
submission (after its beginning, if it has none).  It is 1 inside the frame that
directly follows the frame of that submission. -/
def framesSinceSubmission (trace : List Event) : Nat :=
  framesSinceFrom 0 trace

/-- The check made on one logged call against the submissions in flight before it, the
most recent submission before it and the number of frames started since: when a
command buffer is submitted or a uniform buffer is written, every submission still in
flight is the most recent one, and it was made by the immediately preceding frame. -/
def reuseStepOk (pending : List Submission) (last : Option Submission) (since : Nat) :
    Event → Bool
  | .queueSubmit _ _ _ _ => pending.all (fun s => last == some s && since == 1)
  | .updateUniformBuffer _ => pending.all (fun s => last == some s && since == 1)
  | _ => true

/-- The check `reuseStepOk` made call by call along a log, from the submissions in
flight `pending`, the most recent submission `last` and the frame count `since`. -/
def reuseDisciplineFrom (pending : List Submission) (last : Option Submission)
    (since : Nat) : List Event → Bool
  | [] => true
  | e :: es =>
    reuseStepOk pending last since e &&
      reuseDisciplineFrom (inFlightStep pending e) (lastSubmissionStep last e)
        (framesSinceStep since e) es

/-- Invariant at the start of a frame on slot `slot`: every submission in flight that
is not attached to the fence of `slot` is the most recent submission, and no frame has
started since it was made. -/
def OnlyLastOnOtherSlot (pending : List Submission) (last : Option Submission)
    (since slot : Nat) : Prop :=
  ∀ s, s ∈ pending → s.fence ≠ slot → last = some s ∧ since = 0

/-- Three loop iterations with successful frames that all acquire image 0. -/
def threeSameImageFrames : List LoopIteration :=
  [⟨false, sampleFrame VK_SUCCESS 0 VK_SUCCESS⟩, ⟨false, sampleFrame VK_SUCCESS 0 VK_SUCCESS⟩,
   ⟨false, sampleFrame VK_SUCCESS 0 VK_SUCCESS⟩]

/-! ## Lemmas on the memory-type search -/

theorem and_two_pow_ne_zero_iff (n i : Nat) : n &&& 2 ^ i ≠ 0 ↔ n.testBit i = true := by
  constructor
  · intro h
    by_contra hb
    apply h
    apply Nat.eq_of_testBit_eq
    intro j
    rw [Nat.testBit_and, Nat.testBit_two_pow, Nat.zero_testBit]
    by_cases hij : i = j
    · subst hij; simp [hb]
    · simp [hij]
  · intro hb h0
    have h1 : (n &&& 2 ^ i).testBit i = true := by
      rw [Nat.testBit_and, Nat.testBit_two_pow_self, hb]; rfl
    rw [h0, Nat.zero_testBit] at h1
    exact Bool.noConfusion h1

theorem memoryTypeMatches_iff (typeFilter properties : Nat)
    (mem : VkPhysicalDeviceMemoryProperties) (i : Nat) (hi : i < 32) :
    memoryTypeMatches typeFilter properties mem i = true ↔
      MemoryTypeSuitable typeFilter properties mem i := by
  have hlt : 2 ^ i < 2 ^ 32 := Nat.pow_lt_pow_right (by decide) hi
  unfold memoryTypeMatches MemoryTypeSuitable
  rw [Nat.one_shiftLeft, Nat.mod_eq_of_lt hlt]
  simp only [Bool.and_eq_true, bne_iff_ne, beq_iff_eq]
  rw [and_two_pow_ne_zero_iff]

theorem findMemoryTypeLoop_some (typeFilter properties : Nat)
    (mem : VkPhysicalDeviceMemoryProperties) (remaining i r : Nat) :
    findMemoryTypeLoop typeFilter properties mem remaining i = some r ↔
      (i ≤ r ∧ r < i + remaining ∧ memoryTypeMatches typeFilter properties mem r = true ∧
        ∀ j, i ≤ j → j < r → memoryTypeMatches typeFilter properties mem j = false) := by
  induction remaining generalizing i with
  | zero =>
    simp only [findMemoryTypeLoop, Nat.add_zero]
    constructor
    · intro h; exact Option.noConfusion h
    · rintro ⟨h1, h2, _⟩; omega
  | succ n ih =>
    unfold findMemoryTypeLoop
    by_cases hm : memoryTypeMatches typeFilter properties mem i = true
    · rw [if_pos hm]
      constructor
      · intro h
        have hir : i = r := Option.some.inj h
        subst hir
        exact ⟨le_refl _, by omega, hm, fun j h1 h2 => by omega⟩
      · rintro ⟨h1, _, _, h4⟩
        rcases Nat.eq_or_lt_of_le h1 with h | h
        · rw [h]
        · have := h4 i (le_refl _) h
          rw [hm] at this
          exact Bool.noConfusion this
    · rw [if_neg hm, ih]
      have hm' : memoryTypeMatches typeFilter properties mem i = false := by
        simpa using hm
      constructor
      · rintro ⟨h1, h2, h3, h4⟩
        refine ⟨by omega, by omega, h3, fun j hj1 hj2 => ?_⟩
        rcases Nat.eq_or_lt_of_le hj1 with h | h
        · rw [← h]; exact hm'
        · exact h4 j h hj2
      · rintro ⟨h1, h2, h3, h4⟩
        have hne : i ≠ r := by
          intro h; rw [h] at hm; exact hm h3
        refine ⟨by omega, by omega, h3, fun j hj1 hj2 => h4 j (by omega) hj2⟩

theorem findMemoryTypeLoop_none (typeFilter properties : Nat)
    (mem : VkPhysicalDeviceMemoryProperties) (remaining i : Nat) :
    findMemoryTypeLoop typeFilter properties mem remaining i = none ↔
      ∀ j, i ≤ j → j < i + remaining →
        memoryTypeMatches typeFilter properties mem j = false := by
  induction remaining generalizing i with
  | zero =>
    simp only [findMemoryTypeLoop, Nat.add_zero, true_iff]
    intro j h1 h2; omega
  | succ n ih =>
    unfold findMemoryTypeLoop
    by_cases hm : memoryTypeMatches typeFilter properties mem i = true
    · rw [if_pos hm]
      constructor
      · intro h; exact Option.noConfusion h
      · intro h
        have := h i (le_refl _) (by omega)
        rw [hm] at this
        exact Bool.noConfusion this
    · rw [if_neg hm, ih]
      have hm' : memoryTypeMatches typeFilter properties mem i = false := by
        simpa using hm
      constructor
      · intro h j hj1 hj2
        rcases Nat.eq_or_lt_of_le hj1 with h' | h'
        · rw [← h']; exact hm'
        · exact h j h' (by omega)
      · intro h j hj1 hj2
        exact h j (by omega) (by omega)

/-! ## Properties of the memory-type search -/

/-- C1: for a memory table with at most `VK_MAX_MEMORY_TYPES` types,
`findMemoryType` returns `i` exactly when `i` is the lowest index below
`memoryTypeCount` whose bit is set in the type filter and whose property flags
contain every requested flag, and it fails with an error exactly when no index
below `memoryTypeCount` qualifies. -/
theorem findMemoryType_lowest_match (typeFilter properties : Nat)
    (mem : VkPhysicalDeviceMemoryProperties)
    (hcount : mem.memoryTypeCount ≤ VK_MAX_MEMORY_TYPES) :
    (∀ i, findMemoryType typeFilter properties mem = .ok i ↔
        (i < mem.memoryTypeCount ∧ MemoryTypeSuitable typeFilter properties mem i ∧
          ∀ j, j < i → ¬ MemoryTypeSuitable typeFilter properties mem j)) ∧
    ((∃ msg, findMemoryType typeFilter properties mem = .error msg) ↔
        ¬ ∃ i, i < mem.memoryTypeCount ∧ MemoryTypeSuitable typeFilter properties mem i) := by
  have h32 : mem.memoryTypeCount ≤ 32 := hcount
  constructor
  · intro i
    unfold findMemoryType
    constructor
    · intro h
      cases hl : findMemoryTypeLoop typeFilter properties mem mem.memoryTypeCount 0 with
      | none => rw [hl] at h; exact Except.noConfusion h
      | some r =>
        rw [hl] at h
        have hri : r = i := by injection h
        subst hri
        obtain ⟨_, h2, h3, h4⟩ := (findMemoryTypeLoop_some _ _ _ _ _ _).mp hl
        have hr : r < mem.memoryTypeCount := by omega
        refine ⟨hr, (memoryTypeMatches_iff _ _ _ _ (by omega)).mp h3, fun j hj hs => ?_⟩
        have := h4 j (Nat.zero_le _) hj
        rw [(memoryTypeMatches_iff _ _ _ _ (by omega)).mpr hs] at this
        exact Bool.noConfusion this
    · rintro ⟨h1, h2, h3⟩
      have hl : findMemoryTypeLoop typeFilter properties mem mem.memoryTypeCount 0 = some i := by
        rw [findMemoryTypeLoop_some]
        refine ⟨Nat.zero_le _, by omega, (memoryTypeMatches_iff _ _ _ _ (by omega)).mpr h2,
          fun j _ hj => ?_⟩
        cases hb : memoryTypeMatches typeFilter properties mem j with
        | false => rfl
        | true => exact absurd ((memoryTypeMatches_iff _ _ _ _ (by omega)).mp hb) (h3 j hj)
      rw [hl]
  · unfold findMemoryType
    constructor
    · rintro ⟨msg, h⟩ ⟨i, hi, hs⟩
      cases hl : findMemoryTypeLoop typeFilter properties mem mem.memoryTypeCount 0 with
      | some r => rw [hl] at h; exact Except.noConfusion h
      | none =>
        have := (findMemoryTypeLoop_none _ _ _ _ _).mp hl i (Nat.zero_le _) (by omega)
        rw [(memoryTypeMatches_iff _ _ _ _ (by omega)).mpr hs] at this
        exact Bool.noConfusion this
    · intro h
      have hl : findMemoryTypeLoop typeFilter properties mem mem.memoryTypeCount 0 = none := by
        rw [findMemoryTypeLoop_none]
        intro j _ hj
        cases hb : memoryTypeMatches typeFilter properties mem j with
        | false => rfl
        | true =>
          exact absurd ⟨j, by omega, (memoryTypeMatches_iff _ _ _ _ (by omega)).mp hb⟩ h
      rw [hl]
      exact ⟨_, rfl⟩

/-- Witness for C1: a two-entry table where only index 1 carries the requested flags. -/
theorem findMemoryType_lowest_match_witness :
    findMemoryType 3 6 ⟨2, [⟨1, 0⟩, ⟨6, 0⟩]⟩ = .ok 1 ∧
      (1 < 2 ∧ MemoryTypeSuitable 3 6 ⟨2, [⟨1, 0⟩, ⟨6, 0⟩]⟩ 1 ∧
        ∀ j, j < 1 → ¬ MemoryTypeSuitable 3 6 ⟨2, [⟨1, 0⟩, ⟨6, 0⟩]⟩ j) :=
  ⟨rfl, ((findMemoryType_lowest_match 3 6 ⟨2, [⟨1, 0⟩, ⟨6, 0⟩]⟩ (by decide)).1 1).mp rfl⟩

/-! ## Properties of the surface-format selection -/

theorem chooseSwapSurfaceFormatLoop_some (l : List VkSurfaceFormatKHR)
    (h : ∃ f, f ∈ l ∧ isPreferredSurfaceFormat f = true) :
    chooseSwapSurfaceFormatLoop l =
      some ⟨VK_FORMAT_B8G8R8A8_UNORM, VK_COLOR_SPACE_SRGB_NONLINEAR_KHR⟩ := by
  induction l with
  | nil => obtain ⟨f, hf, _⟩ := h; cases hf
  | cons a rest ih =>
    unfold chooseSwapSurfaceFormatLoop
    by_cases ha : isPreferredSurfaceFormat a = true
    · rw [if_pos ha]
      have ha' := ha
      simp only [isPreferredSurfaceFormat, Bool.and_eq_true, beq_iff_eq] at ha'
      cases a with
      | mk fmt cs =>
        simp only at ha'
        rw [ha'.1, ha'.2]
    · rw [if_neg ha]
      apply ih
      obtain ⟨f, hf, hp⟩ := h
      rcases List.mem_cons.mp hf with h1 | h1
      · rw [h1] at hp; exact absurd hp ha
      · exact ⟨f, h1, hp⟩

theorem chooseSwapSurfaceFormatLoop_none (l : List VkSurfaceFormatKHR)
    (h : ¬ ∃ f, f ∈ l ∧ isPreferredSurfaceFormat f = true) :
    chooseSwapSurfaceFormatLoop l = none := by
  induction l with
  | nil => rfl
  | cons a rest ih =>
    unfold chooseSwapSurfaceFormatLoop
    have ha : ¬ isPreferredSurfaceFormat a = true :=
      fun ha => h ⟨a, List.mem_cons_self _ _, ha⟩
    rw [if_neg ha]
    exact ih (fun ⟨f, hf, hp⟩ => h ⟨f, List.mem_cons_of_mem _ hf, hp⟩)

theorem isSingleUndefinedFormat_iff (l : List VkSurfaceFormatKHR) :
    isSingleUndefinedFormat l = true ↔ ∃ cs, l = [⟨VK_FORMAT_UNDEFINED, cs⟩] := by
  constructor
  · intro h
    match l, h with
    | [f], h =>
      simp only [isSingleUndefinedFormat, beq_iff_eq] at h
      cases f with
      | mk fmt cs => simp only at h; exact ⟨cs, by rw [h]⟩
  · rintro ⟨cs, rfl⟩
    rfl

/-- C2 (counterexample): on the one-entry list whose entry has format
`VK_FORMAT_UNDEFINED` the list is non-empty and holds no
`B8G8R8A8_UNORM`/`SRGB_NONLINEAR` entry, yet `chooseSwapSurfaceFormat` does not return
the first entry: it returns the `B8G8R8A8_UNORM`/`SRGB_NONLINEAR` pair, which is not
in the list. -/
theorem chooseSwapSurfaceFormat_not_first_entry :
    [(⟨VK_FORMAT_UNDEFINED, VK_COLOR_SPACE_SRGB_NONLINEAR_KHR⟩ : VkSurfaceFormatKHR)] ≠ [] ∧
    (¬ ∃ f, f ∈ [(⟨VK_FORMAT_UNDEFINED, VK_COLOR_SPACE_SRGB_NONLINEAR_KHR⟩ :
          VkSurfaceFormatKHR)] ∧ isPreferredSurfaceFormat f = true) ∧
    chooseSwapSurfaceFormat [⟨VK_FORMAT_UNDEFINED, VK_COLOR_SPACE_SRGB_NONLINEAR_KHR⟩] =
      some ⟨VK_FORMAT_B8G8R8A8_UNORM, VK_COLOR_SPACE_SRGB_NONLINEAR_KHR⟩ ∧
    chooseSwapSurfaceFormat [⟨VK_FORMAT_UNDEFINED, VK_COLOR_SPACE_SRGB_NONLINEAR_KHR⟩] ≠
      List.head? [(⟨VK_FORMAT_UNDEFINED, VK_COLOR_SPACE_SRGB_NONLINEAR_KHR⟩ :
          VkSurfaceFormatKHR)] := by
  refine ⟨by decide, ?_, rfl, by decide⟩
  rintro ⟨f, hf, hp⟩
  rw [List.mem_singleton] at hf
  rw [hf] at hp
  exact absurd hp (by decide)

/-- C2 (amended): for every non-empty list of supported surface formats,
`chooseSwapSurfaceFormat` returns the `B8G8R8A8_UNORM`/`SRGB_NONLINEAR` format when
the list contains such an entry or when the list is a single entry of format
`VK_FORMAT_UNDEFINED`; in every other case it returns the first entry of the
list. -/
theorem chooseSwapSurfaceFormat_policy (l : List VkSurfaceFormatKHR) (hne : l ≠ []) :
    (((∃ f, f ∈ l ∧ isPreferredSurfaceFormat f = true) ∨
        (∃ cs, l = [⟨VK_FORMAT_UNDEFINED, cs⟩])) →
      chooseSwapSurfaceFormat l =
        some ⟨VK_FORMAT_B8G8R8A8_UNORM, VK_COLOR_SPACE_SRGB_NONLINEAR_KHR⟩) ∧
    ((¬ ∃ f, f ∈ l ∧ isPreferredSurfaceFormat f = true) →
      (¬ ∃ cs, l = [⟨VK_FORMAT_UNDEFINED, cs⟩]) →
      chooseSwapSurfaceFormat l = some (l.head hne)) := by
  constructor
  · intro h
    unfold chooseSwapSurfaceFormat
    by_cases hs : isSingleUndefinedFormat l = true
    · rw [if_pos hs]
    · rw [if_neg hs]
      rcases h with h | h
      · rw [chooseSwapSurfaceFormatLoop_some l h]
      · exact absurd ((isSingleUndefinedFormat_iff l).mpr h) hs
  · intro h1 h2
    unfold chooseSwapSurfaceFormat
    have hs : ¬ isSingleUndefinedFormat l = true :=
      fun hs => h2 ((isSingleUndefinedFormat_iff l).mp hs)
    rw [if_neg hs, chooseSwapSurfaceFormatLoop_none l h1]
    exact List.head?_eq_head hne

/-- Witness for C2 (amended): a list whose second entry is the preferred one. -/
theorem chooseSwapSurfaceFormat_policy_witness :
    chooseSwapSurfaceFormat [⟨50, 0⟩, ⟨44, 0⟩] =
      some ⟨VK_FORMAT_B8G8R8A8_UNORM, VK_COLOR_SPACE_SRGB_NONLINEAR_KHR⟩ :=
  (chooseSwapSurfaceFormat_policy [⟨50, 0⟩, ⟨44, 0⟩] (by decide)).1
    (Or.inl ⟨⟨44, 0⟩, by decide, rfl⟩)

/-! ## Properties of the presentation-mode selection -/

theorem chooseSwapPresentModeLoop_eq (bestMode : Nat) (l : List Nat) :
    chooseSwapPresentModeLoop bestMode l =
      if VK_PRESENT_MODE_MAILBOX_KHR ∈ l then VK_PRESENT_MODE_MAILBOX_KHR
      else if VK_PRESENT_MODE_IMMEDIATE_KHR ∈ l then VK_PRESENT_MODE_IMMEDIATE_KHR
      else bestMode := by
  induction l generalizing bestMode with
  | nil => simp [chooseSwapPresentModeLoop]
  | cons m rest ih =>
    unfold chooseSwapPresentModeLoop
    by_cases h1 : m = VK_PRESENT_MODE_MAILBOX_KHR
    · simp [h1]
    · by_cases h2 : m = VK_PRESENT_MODE_IMMEDIATE_KHR
      · have hne : VK_PRESENT_MODE_MAILBOX_KHR ≠ VK_PRESENT_MODE_IMMEDIATE_KHR := by decide
        rw [if_neg (by simpa using h1), if_pos (by simpa using h2), ih, h2]
        simp [hne]
      · rw [if_neg (by simpa using h1), if_neg (by simpa using h2), ih]
        simp [Ne.symm h1, Ne.symm h2]

/-- C3: for every list of available presentation modes, in any order,
`chooseSwapPresentMode` returns MAILBOX if the list contains MAILBOX, otherwise
IMMEDIATE if the list contains IMMEDIATE, otherwise FIFO. -/
theorem chooseSwapPresentMode_policy (availablePresentModes : List Nat) :
    chooseSwapPresentMode availablePresentModes =
      if VK_PRESENT_MODE_MAILBOX_KHR ∈ availablePresentModes then VK_PRESENT_MODE_MAILBOX_KHR
      else if VK_PRESENT_MODE_IMMEDIATE_KHR ∈ availablePresentModes then
        VK_PRESENT_MODE_IMMEDIATE_KHR
      else VK_PRESENT_MODE_FIFO_KHR :=
  chooseSwapPresentModeLoop_eq VK_PRESENT_MODE_FIFO_KHR availablePresentModes

/-! ## Properties of the extent selection -/

theorem toUint32_of_nonneg (x : Int) (h0 : 0 ≤ x) (h1 : x < 4294967296) :
    toUint32 x = x.toNat := by
  unfold toUint32
  rw [Int.emod_eq_of_lt h0 h1]

theorem max_min_eq_clampTo (lo hi x : Nat) (h : lo ≤ hi) :
    max lo (min hi x) = clampTo lo hi x := by
  unfold clampTo
  split_ifs <;> omega

theorem clampTo_within (lo hi x : Nat) (h : lo ≤ hi) :
    lo ≤ clampTo lo hi x ∧ clampTo lo hi x ≤ hi := by
  unfold clampTo
  split_ifs <;> omega

theorem chooseSwapExtent_of_defined (capabilities : VkSurfaceCapabilitiesKHR)
    (fbWidth fbHeight : Int) (h : capabilities.currentExtent.width ≠ UINT32_MAX) :
    chooseSwapExtent capabilities fbWidth fbHeight = capabilities.currentExtent := by
  unfold chooseSwapExtent
  rw [if_pos (by simpa using h)]

theorem chooseSwapExtent_of_sentinel (capabilities : VkSurfaceCapabilitiesKHR)
    (fbWidth fbHeight : Int) (h : capabilities.currentExtent.width = UINT32_MAX) :
    chooseSwapExtent capabilities fbWidth fbHeight =
      { width := max capabilities.minImageExtent.width
          (min capabilities.maxImageExtent.width (toUint32 fbWidth)),
        height := max capabilities.minImageExtent.height
          (min capabilities.maxImageExtent.height (toUint32 fbHeight)) } := by
  unfold chooseSwapExtent
  rw [if_neg (by simpa using h)]

/-- C4: `chooseSwapExtent` returns the surface's current extent unchanged whenever its
width is not the sentinel `0xFFFFFFFF`; otherwise, given
`minImageExtent <= maxImageExtent` componentwise, it returns the window framebuffer
size (as converted to `uint32_t`, the identity on non-negative sizes) with width and
height each clamped into `[minImageExtent, maxImageExtent]`. -/
theorem chooseSwapExtent_policy (capabilities : VkSurfaceCapabilitiesKHR)
    (fbWidth fbHeight : Int) :
    (capabilities.currentExtent.width ≠ UINT32_MAX →
      chooseSwapExtent capabilities fbWidth fbHeight = capabilities.currentExtent) ∧
    (capabilities.currentExtent.width = UINT32_MAX →
      capabilities.minImageExtent.width ≤ capabilities.maxImageExtent.width →
      capabilities.minImageExtent.height ≤ capabilities.maxImageExtent.height →
      chooseSwapExtent capabilities fbWidth fbHeight =
        { width := clampTo capabilities.minImageExtent.width
            capabilities.maxImageExtent.width (toUint32 fbWidth),
          height := clampTo capabilities.minImageExtent.height
            capabilities.maxImageExtent.height (toUint32 fbHeight) }) ∧
    (0 ≤ fbWidth → 0 ≤ fbHeight → fbWidth < 2147483648 → fbHeight < 2147483648 →
      toUint32 fbWidth = fbWidth.toNat ∧ toUint32 fbHeight = fbHeight.toNat) := by
  refine ⟨chooseSwapExtent_of_defined capabilities fbWidth fbHeight, ?_, ?_⟩
  · intro hs hw hh
    rw [chooseSwapExtent_of_sentinel capabilities fbWidth fbHeight hs,
      max_min_eq_clampTo _ _ _ hw, max_min_eq_clampTo _ _ _ hh]
  · intro h1 h2 h3 h4
    exact ⟨toUint32_of_nonneg _ h1 (by omega), toUint32_of_nonneg _ h2 (by omega)⟩

/-- Witness for C4: sentinel current extent, bounds 1 .. 4096, window 5000 x 600. -/
theorem chooseSwapExtent_policy_witness :
    chooseSwapExtent capsSentinel 5000 600 = ⟨4096, 600⟩ ∧
      chooseSwapExtent capsCurrentAboveMax 5000 600 = ⟨800, 600⟩ ∧
      toUint32 5000 = 5000 :=
  ⟨(chooseSwapExtent_policy capsSentinel 5000 600).2.1 rfl (by decide) (by decide),
   (chooseSwapExtent_policy capsCurrentAboveMax 5000 600).1 (by decide),
   ((chooseSwapExtent_policy capsSentinel 5000 600).2.2
      (by decide) (by decide) (by decide) (by decide)).1⟩

/-! ## Properties of the swapchain creation parameters -/

theorem enumerateInto_replicate {α : Type} (z : α) (items : List α) :
    enumerateInto (List.replicate items.length z) items = items := by
  unfold enumerateInto
  simp

theorem querySwapChainSupport_mFormats (device : PhysicalDeviceInfo) :
    (querySwapChainSupport device).mFormats = device.surfaceFormats := by
  unfold querySwapChainSupport
  simp only
  by_cases h : device.surfaceFormats.length = 0
  · rw [if_neg (by simpa using h)]
    exact (List.length_eq_zero.mp h).symm
  · rw [if_pos (by simpa using h), enumerateInto_replicate]

theorem querySwapChainSupport_mCapabilities (device : PhysicalDeviceInfo) :
    (querySwapChainSupport device).mCapabilities = device.capabilities := rfl

theorem chooseSwapSurfaceFormat_isSome (l : List VkSurfaceFormatKHR) (hne : l ≠ []) :
    ∃ f, chooseSwapSurfaceFormat l = some f := by
  unfold chooseSwapSurfaceFormat
  split_ifs
  · exact ⟨_, rfl⟩
  · cases hl : chooseSwapSurfaceFormatLoop l with
    | some f => exact ⟨f, rfl⟩
    | none => exact ⟨l.head hne, List.head?_eq_head hne⟩

/-- For a device reporting at least one surface format, `createSwapChain` reaches
`vkCreateSwapchainKHR` with the image count of `swapChainImageCount` and the extent
of `chooseSwapExtent`. -/
theorem createSwapChainInfo_fields (device : PhysicalDeviceInfo) (fbWidth fbHeight : Int)
    (hfmt : device.surfaceFormats ≠ []) :
    ∃ info, createSwapChainInfo device fbWidth fbHeight = some info ∧
      info.minImageCount = swapChainImageCount device.capabilities ∧
      info.imageExtent = chooseSwapExtent device.capabilities fbWidth fbHeight := by
  obtain ⟨f, hf⟩ := chooseSwapSurfaceFormat_isSome device.surfaceFormats hfmt
  unfold createSwapChainInfo
  simp only [querySwapChainSupport_mFormats, querySwapChainSupport_mCapabilities, hf]
  exact ⟨_, rfl, rfl, rfl⟩

/-- C5 (counterexample): two capability reports for which the extent handed to the
swapchain is outside `[minImageExtent, maxImageExtent]`: a fixed current extent of
800 x 600 with maximum 640 x 480 is passed through unchanged, and with the sentinel
current extent and bounds min 10 > max 5 the clamped window size is 10. -/
theorem createSwapChain_extent_outside_bounds :
    (∃ info, createSwapChainInfo (sampleDevice capsCurrentAboveMax [2]) 800 600 = some info ∧
      info.imageExtent = ⟨800, 600⟩ ∧
      ¬ ExtentWithin capsCurrentAboveMax.minImageExtent capsCurrentAboveMax.maxImageExtent
          info.imageExtent) ∧
    (∃ info, createSwapChainInfo (sampleDevice capsMinAboveMax [2]) 7 7 = some info ∧
      info.imageExtent = ⟨10, 10⟩ ∧
      ¬ ExtentWithin capsMinAboveMax.minImageExtent capsMinAboveMax.maxImageExtent
          info.imageExtent) :=
  ⟨⟨_, rfl, rfl, by decide⟩, ⟨_, rfl, rfl, by decide⟩⟩

/-- C5 (amended): for surface capabilities with `minImageExtent <= maxImageExtent`
componentwise whose current extent, when its width is not the sentinel, itself lies
within `[minImageExtent, maxImageExtent]`, and for every window size, `createSwapChain`
(on a device reporting at least one surface format) gives the swapchain the extent of
`chooseSwapExtent`, and that extent lies within `[minImageExtent, maxImageExtent]` in
width and height. -/
theorem createSwapChain_extent_within_bounds (device : PhysicalDeviceInfo)
    (fbWidth fbHeight : Int) (hfmt : device.surfaceFormats ≠ [])
    (hw : device.capabilities.minImageExtent.width ≤ device.capabilities.maxImageExtent.width)
    (hh : device.capabilities.minImageExtent.height ≤ device.capabilities.maxImageExtent.height)
    (hcur : device.capabilities.currentExtent.width ≠ UINT32_MAX →
      ExtentWithin device.capabilities.minImageExtent device.capabilities.maxImageExtent
        device.capabilities.currentExtent) :
    ∃ info, createSwapChainInfo device fbWidth fbHeight = some info ∧
      info.imageExtent = chooseSwapExtent device.capabilities fbWidth fbHeight ∧
      ExtentWithin device.capabilities.minImageExtent device.capabilities.maxImageExtent
        info.imageExtent := by
  obtain ⟨info, h1, _, h3⟩ := createSwapChainInfo_fields device fbWidth fbHeight hfmt
  refine ⟨info, h1, h3, ?_⟩
  rw [h3]
  by_cases hs : device.capabilities.currentExtent.width = UINT32_MAX
  · rw [chooseSwapExtent_of_sentinel _ _ _ hs, max_min_eq_clampTo _ _ _ hw,
      max_min_eq_clampTo _ _ _ hh]
    exact ⟨(clampTo_within _ _ _ hw).1, (clampTo_within _ _ _ hw).2,
      (clampTo_within _ _ _ hh).1, (clampTo_within _ _ _ hh).2⟩
  · rw [chooseSwapExtent_of_defined _ _ _ hs]
    exact hcur hs

/-- Witness for C5 (amended): sentinel current extent, bounds 1 .. 4096, window
5000 x 600. -/
theorem createSwapChain_extent_within_bounds_witness :
    ∃ info, createSwapChainInfo (sampleDevice capsSentinel [2]) 5000 600 = some info ∧
      info.imageExtent = chooseSwapExtent capsSentinel 5000 600 ∧
      ExtentWithin capsSentinel.minImageExtent capsSentinel.maxImageExtent info.imageExtent :=
  createSwapChain_extent_within_bounds (sampleDevice capsSentinel [2]) 5000 600
    (by decide) (by decide) (by decide) (fun h => absurd rfl h)

/-- C6 (counterexample): with `minImageCount = 0xFFFFFFFF` and `maxImageCount = 0` no
upper clamp applies, and the count requested by `createSwapChain` is `0`, not
`minImageCount + 1`: the `uint32_t` sum has wrapped.  With the same `minImageCount`
and `maxImageCount = 8` the wrapped sum `0` does not exceed the maximum, and the
request is again `0`, neither `minImageCount + 1` nor `maxImageCount`. -/
theorem createSwapChain_imageCount_wraps :
    capsMinCountWraps.maxImageCount = 0 ∧
    capsMinCountWraps.minImageCount + 1 = 4294967296 ∧
    (∃ info, createSwapChainInfo (sampleDevice capsMinCountWraps [2]) 800 600 = some info ∧
      info.minImageCount = 0 ∧
      info.minImageCount ≠ capsMinCountWraps.minImageCount + 1) ∧
    (∃ info, createSwapChainInfo
        (sampleDevice { capsMinCountWraps with maxImageCount := 8 } [2]) 800 600 = some info ∧
      info.minImageCount = 0 ∧
      info.minImageCount ≠ capsMinCountWraps.minImageCount + 1 ∧
      info.minImageCount ≠ 8) :=
  ⟨rfl, by decide, ⟨_, rfl, rfl, by decide⟩, ⟨_, rfl, rfl, by decide, by decide⟩⟩

/-- C6 (amended): for surface capabilities whose `minImageCount` is below the largest
`uint32_t` value, `createSwapChain` requests `minImageCount + 1` images, except that
when `maxImageCount` is nonzero and `minImageCount + 1` exceeds it, it requests exactly
`maxImageCount`; when `maxImageCount` is zero no upper clamp is applied.  When
`minImageCount` is the largest `uint32_t` value, the sum wraps and it requests 0
images, whatever `maxImageCount` is. -/
theorem createSwapChain_imageCount_policy (device : PhysicalDeviceInfo)
    (fbWidth fbHeight : Int) (hfmt : device.surfaceFormats ≠ []) :
    ∃ info, createSwapChainInfo device fbWidth fbHeight = some info ∧
      (device.capabilities.minImageCount < UINT32_MAX →
        (device.capabilities.maxImageCount = 0 →
          info.minImageCount = device.capabilities.minImageCount + 1) ∧
        (device.capabilities.maxImageCount ≠ 0 →
          device.capabilities.maxImageCount < device.capabilities.minImageCount + 1 →
          info.minImageCount = device.capabilities.maxImageCount) ∧
        (device.capabilities.maxImageCount ≠ 0 →
          device.capabilities.minImageCount + 1 ≤ device.capabilities.maxImageCount →
          info.minImageCount = device.capabilities.minImageCount + 1)) ∧
      (device.capabilities.minImageCount = UINT32_MAX → info.minImageCount = 0) := by
  obtain ⟨info, h1, h2, _⟩ := createSwapChainInfo_fields device fbWidth fbHeight hfmt
  refine ⟨info, h1, ?_, ?_⟩
  · intro hmin
    have hmod : (device.capabilities.minImageCount + 1) % 2 ^ 32 =
        device.capabilities.minImageCount + 1 := by
      unfold UINT32_MAX at hmin
      exact Nat.mod_eq_of_lt (by omega)
    have hN : info.minImageCount =
        if device.capabilities.maxImageCount > 0 ∧
            device.capabilities.minImageCount + 1 > device.capabilities.maxImageCount then
          device.capabilities.maxImageCount
        else device.capabilities.minImageCount + 1 := by
      rw [h2]; unfold swapChainImageCount
      simp only
      rw [hmod]
    refine ⟨?_, ?_, ?_⟩
    · intro h0
      rw [hN, if_neg (by omega)]
    · intro h0 hlt
      rw [hN, if_pos ⟨by omega, hlt⟩]
    · intro h0 hle
      rw [hN, if_neg (by omega)]
  · intro hmax
    have hmod : (device.capabilities.minImageCount + 1) % 2 ^ 32 = 0 := by
      rw [hmax]; rfl
    rw [h2]; unfold swapChainImageCount
    simp only
    rw [hmod, if_neg (by omega)]

/-- Witness for C6 (amended): minimum 2 and maximum 8 give 3 images. -/
theorem createSwapChain_imageCount_policy_witness :
    ∃ info, createSwapChainInfo (sampleDevice capsSentinel [2]) 800 600 = some info ∧
      info.minImageCount = 3 := by
  obtain ⟨info, h1, h2, _⟩ :=
    createSwapChain_imageCount_policy (sampleDevice capsSentinel [2]) 800 600 (by decide)
  exact ⟨info, h1, (h2 (by decide)).2.2 (by decide) (by decide)⟩

/-- C7 (counterexample): with `minImageCount = 0xFFFFFFFF` and `maxImageCount = 0`
(so the side condition on the two counts holds and both fit in 32 bits) the count
requested by `createSwapChain` is `0`, which is below `minImageCount`. -/
theorem createSwapChain_imageCount_below_min :
    capsMinCountWraps.minImageCount < 2 ^ 32 ∧ capsMinCountWraps.maxImageCount < 2 ^ 32 ∧
    (capsMinCountWraps.maxImageCount ≠ 0 →
      capsMinCountWraps.minImageCount ≤ capsMinCountWraps.maxImageCount) ∧
    (∃ info, createSwapChainInfo (sampleDevice capsMinCountWraps [2]) 800 600 = some info ∧
      info.minImageCount = 0 ∧
      ¬ capsMinCountWraps.minImageCount ≤ info.minImageCount) :=
  ⟨by decide, by decide, by decide, ⟨_, rfl, rfl, by decide⟩⟩

/-- C7 (amended): for all surface capabilities whose `minImageCount` is below the
largest `uint32_t` value (so `minImageCount + 1` does not wrap), with
`minImageCount <= maxImageCount` whenever `maxImageCount` is nonzero, the image count
`N` requested by `createSwapChain` is never below `minImageCount`, is never above
`maxImageCount` when that is nonzero, and equals `minImageCount + 1` clamped into
`[minImageCount, maxImageCount]` (with no upper bound when `maxImageCount` is zero). -/
theorem createSwapChain_imageCount_clamped (device : PhysicalDeviceInfo)
    (fbWidth fbHeight : Int) (hfmt : device.surfaceFormats ≠ [])
    (hmin : device.capabilities.minImageCount < UINT32_MAX)
    (hle : device.capabilities.maxImageCount ≠ 0 →
      device.capabilities.minImageCount ≤ device.capabilities.maxImageCount) :
    ∃ info, createSwapChainInfo device fbWidth fbHeight = some info ∧
      device.capabilities.minImageCount ≤ info.minImageCount ∧
      (device.capabilities.maxImageCount ≠ 0 →
        info.minImageCount ≤ device.capabilities.maxImageCount ∧
        info.minImageCount = clampTo device.capabilities.minImageCount
          device.capabilities.maxImageCount (device.capabilities.minImageCount + 1)) ∧
      (device.capabilities.maxImageCount = 0 →
        info.minImageCount = device.capabilities.minImageCount + 1) := by
  obtain ⟨info, h1, h2, _⟩ := createSwapChainInfo_fields device fbWidth fbHeight hfmt
  have hmod : (device.capabilities.minImageCount + 1) % 2 ^ 32 =
      device.capabilities.minImageCount + 1 := by
    unfold UINT32_MAX at hmin
    exact Nat.mod_eq_of_lt (by omega)
  have hN : info.minImageCount =
      if device.capabilities.maxImageCount > 0 ∧
          device.capabilities.minImageCount + 1 > device.capabilities.maxImageCount then
        device.capabilities.maxImageCount
      else device.capabilities.minImageCount + 1 := by
    rw [h2]; unfold swapChainImageCount
    simp only
    rw [hmod]
  refine ⟨info, h1, ?_, ?_, ?_⟩
  · rw [hN]
    split_ifs with hc
    · exact hle (by omega)
    · omega
  · intro h0
    have := hle h0
    rw [hN]
    unfold clampTo
    split_ifs <;> omega
  · intro h0
    rw [hN, if_neg (by omega)]

/-- Witness for C7 (amended): minimum 2 and maximum 8 give a count between 2 and 8. -/
theorem createSwapChain_imageCount_clamped_witness :
    ∃ info, createSwapChainInfo (sampleDevice capsSentinel [2]) 800 600 = some info ∧
      2 ≤ info.minImageCount ∧ info.minImageCount ≤ 8 := by
  obtain ⟨info, h1, h2, h3, _⟩ :=
    createSwapChain_imageCount_clamped (sampleDevice capsSentinel [2]) 800 600
      (by decide) (by decide) (fun _ => by decide)
  exact ⟨info, h1, h2, (h3 (by decide)).1⟩

/-! ## Device suitability and selection -/

theorem findQueueFamiliesLoop_isComplete (indices : QueueFamilyIndices) (i : Nat)
    (l : List QueueFamily) :
    (findQueueFamiliesLoop indices i l).isComplete = true ↔
      (indices.graphicsFamily.isSome = true ∨
        ∃ q, q ∈ l ∧ 0 < q.queueCount ∧ q.queueFlags &&& VK_QUEUE_GRAPHICS_BIT ≠ 0) ∧
      (indices.presentFamily.isSome = true ∨
        ∃ q, q ∈ l ∧ 0 < q.queueCount ∧ q.presentSupport = true) := by
  induction l generalizing indices i with
  | nil => simp [findQueueFamiliesLoop, QueueFamilyIndices.isComplete]
  | cons q rest ih =>
    unfold findQueueFamiliesLoop
    simp only
    by_cases hg : 0 < q.queueCount ∧ q.queueFlags &&& VK_QUEUE_GRAPHICS_BIT ≠ 0 <;>
    by_cases hp : 0 < q.queueCount ∧ q.presentSupport = true <;>
    split_ifs with h1 h2 h3 <;>
    simp_all [QueueFamilyIndices.isComplete]
    have hg1 : ¬ (0 < q.queueCount ∧ ¬ q.queueFlags &&& VK_QUEUE_GRAPHICS_BIT = 0) :=
      fun h => h.2 (hg h.1)
    have hp1 : ¬ (0 < q.queueCount ∧ q.presentSupport = true) := by
      intro h
      rw [hp h.1] at h
      exact Bool.false_ne_true h.2
    simp only [hg1, hp1, false_or]

theorem eraseAvailable_eq_nil (requiredExtensions available : List String) :
    eraseAvailable requiredExtensions available = [] ↔
      ∀ e, e ∈ requiredExtensions → e ∈ available := by
  induction available generalizing requiredExtensions with
  | nil =>
    simp only [eraseAvailable, List.not_mem_nil]
    constructor
    · intro h e he; rw [h] at he; cases he
    · intro h
      cases requiredExtensions with
      | nil => rfl
      | cons a rest => exact absurd (List.mem_cons_self a rest) (h a)
  | cons a rest ih =>
    simp only [eraseAvailable]
    rw [ih]
    constructor
    · intro h e he
      by_cases hea : e = a
      · rw [hea]; exact List.mem_cons_self _ _
      · exact List.mem_cons_of_mem _ (h e (List.mem_filter.mpr ⟨he, by simpa using hea⟩))
    · intro h e he
      obtain ⟨h1, h2⟩ := List.mem_filter.mp he
      have hea : e ≠ a := by simpa using h2
      rcases List.mem_cons.mp (h e h1) with h3 | h3
      · exact absurd h3 hea
      · exact h3

theorem checkDeviceExtensionSupport_iff (device : PhysicalDeviceInfo) :
    checkDeviceExtensionSupport device = true ↔
      ∀ e, e ∈ deviceExtensions → e ∈ device.extensions := by
  unfold checkDeviceExtensionSupport
  rw [List.isEmpty_iff, eraseAvailable_eq_nil]
  have hd : deviceExtensions.eraseDups = deviceExtensions := by rfl
  rw [hd]

theorem enumerateInto_length {α : Type} (buffer items : List α) :
    (enumerateInto buffer items).length = buffer.length := by
  unfold enumerateInto
  rw [List.length_append, List.length_take, List.length_drop]
  omega

theorem querySwapChainSupport_mPresentModes_length (device : PhysicalDeviceInfo) :
    (querySwapChainSupport device).mPresentModes.length = device.surfaceFormats.length := by
  unfold querySwapChainSupport
  simp only
  by_cases h : device.surfaceFormats.length = 0
  · rw [if_neg (by simpa using h), h]; rfl
  · rw [if_pos (by simpa using h), enumerateInto_length, List.length_replicate]

/-- What `isDeviceSuitable` decides: a queue family with a queue supports graphics, a
queue family with a queue supports presentation, every required extension is
available, and at least one surface format is reported.  The presentation modes of
the device do not enter the decision. -/
theorem isDeviceSuitable_iff (device : PhysicalDeviceInfo) :
    isDeviceSuitable device = true ↔
      (∃ q, q ∈ device.queueFamilies ∧ 0 < q.queueCount ∧
          q.queueFlags &&& VK_QUEUE_GRAPHICS_BIT ≠ 0) ∧
      (∃ q, q ∈ device.queueFamilies ∧ 0 < q.queueCount ∧ q.presentSupport = true) ∧
      (∀ e, e ∈ deviceExtensions → e ∈ device.extensions) ∧
      device.surfaceFormats ≠ [] := by
  have hq := findQueueFamiliesLoop_isComplete ⟨none, none⟩ 0 device.queueFamilies
  simp only [Option.isSome_none, Bool.false_eq_true, false_or] at hq
  have he := checkDeviceExtensionSupport_iff device
  have hlen := querySwapChainSupport_mPresentModes_length device
  have hfm := querySwapChainSupport_mFormats device
  unfold isDeviceSuitable findQueueFamilies
  simp only [Bool.and_eq_true, hq, he, hfm]
  constructor
  · rintro ⟨⟨⟨h1, h2⟩, h3⟩, h4⟩
    refine ⟨h1, h2, h3, ?_⟩
    rw [if_pos h3] at h4
    intro hnil
    rw [hnil] at h4
    simp at h4
  · rintro ⟨h1, h2, h3, h4⟩
    refine ⟨⟨⟨h1, h2⟩, h3⟩, ?_⟩
    rw [if_pos h3]
    have hm : (querySwapChainSupport device).mPresentModes ≠ [] := by
      intro hnil
      rw [hnil] at hlen
      exact h4 (List.length_eq_zero.mp hlen.symm)
    simp [h4, hm]

/-- C8 (evaluation at the failing input): a device with a graphics-and-present queue
family, the required extension and one surface format, but with no presentation mode
at all, is accepted by `isDeviceSuitable`; `querySwapChainSupport` hands back a
one-entry `mPresentModes` (sized by the format count and zero-filled) for it, and the
four-part acceptance rule does not hold of it. -/
theorem isDeviceSuitable_accepts_without_present_mode :
    (sampleDevice capsSentinel []).presentModes = [] ∧
    (querySwapChainSupport (sampleDevice capsSentinel [])).mPresentModes = [0] ∧
    isDeviceSuitable (sampleDevice capsSentinel []) = true ∧
    ¬ DeviceAcceptable (sampleDevice capsSentinel []) :=
  ⟨rfl, rfl, rfl, fun h => h.2.2.2.2 rfl⟩

/-- C9 (evaluation at the failing input): one device is enumerated and it is not
suitable, `mPhysDevice` enters with a non-null value (it has no initialiser; the value
used here is the `0xCC` fill pattern of a debug build), and `pickPhysicalDevice`
returns normally, leaving `mPhysDevice` at that value. -/
theorem pickPhysicalDevice_returns_without_suitable_device :
    isDeviceSuitable (bareDeviceQuery 7) = false ∧
    pickPhysicalDevice bareDeviceQuery [7] ⟨14757395258967641292, 1⟩ =
      .ok ⟨14757395258967641292, 1⟩ :=
  ⟨rfl, rfl⟩

/-- The part of the selection rule that the code does implement: the first enumerated
handle whose device is suitable is the one stored (with its sample count), whatever
`mPhysDevice` held on entry, provided that handle is not the null handle. -/
theorem pickPhysicalDevice_first_suitable (query : Nat → PhysicalDeviceInfo)
    (before after : List Nat) (dev : Nat) (app : DeviceSelection)
    (hbefore : ∀ d, d ∈ before → isDeviceSuitable (query d) = false)
    (hdev : isDeviceSuitable (query dev) = true) (hnull : dev ≠ VK_NULL_HANDLE) :
    pickPhysicalDevice query (before ++ dev :: after) app =
      .ok { mPhysDevice := dev, mMSAASamples := getMaxUsableSampleCount (query dev) } := by
  have hloop : pickPhysicalDeviceLoop query app (before ++ dev :: after) =
      { mPhysDevice := dev, mMSAASamples := getMaxUsableSampleCount (query dev) } := by
    induction before with
    | nil =>
      simp only [List.nil_append, pickPhysicalDeviceLoop]
      rw [if_pos hdev]
    | cons b rest ih =>
      simp only [List.cons_append, pickPhysicalDeviceLoop]
      have hb : ¬ isDeviceSuitable (query b) = true := by
        rw [hbefore b (List.mem_cons_self _ _)]; exact Bool.false_ne_true
      rw [if_neg hb]
      exact ih (fun d hd => hbefore d (List.mem_cons_of_mem _ hd))
  unfold pickPhysicalDevice
  have hlen : ¬ ((before ++ dev :: after).length == 0) = true := by simp
  rw [if_neg hlen]
  simp only [hloop]
  rw [if_neg (by simpa using hnull)]

/-- When no enumerated device is suitable, `pickPhysicalDevice` fails exactly when
there is no device at all or `mPhysDevice` happened to be null on entry. -/
theorem pickPhysicalDevice_none_suitable (query : Nat → PhysicalDeviceInfo)
    (devices : List Nat) (app : DeviceSelection)
    (hnone : ∀ d, d ∈ devices → isDeviceSuitable (query d) = false) :
    pickPhysicalDevice query devices app =
      if devices.length == 0 then .error "No GPU with Vulkan support!"
      else if app.mPhysDevice == VK_NULL_HANDLE then .error "Failed to find a suitable GPU."
      else .ok app := by
  have hloop : pickPhysicalDeviceLoop query app devices = app := by
    induction devices with
    | nil => rfl
    | cons b rest ih =>
      simp only [pickPhysicalDeviceLoop]
      have hb : ¬ isDeviceSuitable (query b) = true := by
        rw [hnone b (List.mem_cons_self _ _)]; exact Bool.false_ne_true
      rw [if_neg hb]
      exact ih (fun d hd => hnone d (List.mem_cons_of_mem _ hd))
  unfold pickPhysicalDevice
  simp only [hloop]

/-! ## Properties of the multisample level -/

theorem largestSampleCount_step :
    ∀ n, n < 127 → largestSampleCount n ≤ largestSampleCount (n + 1) := by
  decide

theorem largestSampleCount_mono (c d : Nat) (hd : d < 128) (hcd : c ≤ d) :
    largestSampleCount c ≤ largestSampleCount d := by
  induction d with
  | zero =>
    have hc : c = 0 := Nat.le_zero.mp hcd
    rw [hc]
  | succ k ih =>
    rcases Nat.eq_or_lt_of_le hcd with h | h
    · rw [h]
    · exact le_trans (ih (by omega) (by omega)) (largestSampleCount_step k (by omega))

theorem sampleCount_chain_eq_largest :
    ∀ n, n < 128 →
      (if n &&& 64 != 0 then 64 else if n &&& 32 != 0 then 32 else if n &&& 16 != 0 then 16
       else if n &&& 8 != 0 then 8 else if n &&& 4 != 0 then 4 else if n &&& 2 != 0 then 2
       else 1) =
      (if largestSampleCount n &&& 126 != 0 then largestSampleCount n else 1) := by
  decide

/-- C10: for colour and depth sample-count masks over the bits 1, 2, 4, ..., 64,
`getMaxUsableSampleCount` returns the minimum `m` of the largest colour-attachment
sample count and the largest depth-attachment sample count when `m` has a bit among
2..64, and returns 1 when it has none. -/
theorem getMaxUsableSampleCount_min_of_largest (device : PhysicalDeviceInfo)
    (hcolor : device.framebufferColorSampleCounts < 128)
    (hdepth : device.framebufferDepthSampleCounts < 128) :
    getMaxUsableSampleCount device =
      if (min (largestSampleCount device.framebufferColorSampleCounts)
            (largestSampleCount device.framebufferDepthSampleCounts)) &&& 126 != 0 then
        min (largestSampleCount device.framebufferColorSampleCounts)
          (largestSampleCount device.framebufferDepthSampleCounts)
      else 1 := by
  unfold getMaxUsableSampleCount
  simp only
  rcases le_total device.framebufferColorSampleCounts device.framebufferDepthSampleCounts
    with hle | hle
  · rw [min_eq_left hle, min_eq_left (largestSampleCount_mono _ _ hdepth hle)]
    exact sampleCount_chain_eq_largest _ hcolor
  · rw [min_eq_right hle, min_eq_right (largestSampleCount_mono _ _ hcolor hle)]
    exact sampleCount_chain_eq_largest _ hdepth

/-- Witness for C10: colour mask 1|2|4|8 and depth mask 1|2|4 give 4 samples. -/
theorem getMaxUsableSampleCount_min_of_largest_witness :
    getMaxUsableSampleCount
      { sampleDevice capsSentinel [2] with
        framebufferColorSampleCounts := 15, framebufferDepthSampleCounts := 7 } = 4 :=
  (getMaxUsableSampleCount_min_of_largest
    { sampleDevice capsSentinel [2] with
      framebufferColorSampleCounts := 15, framebufferDepthSampleCounts := 7 }
    (by decide) (by decide)).trans (by decide)

/-! ## Properties of the image layout transitions -/

theorem layout_key_ne (a b oldLayout newLayout : Nat)
    (h : ¬ (oldLayout = a ∧ newLayout = b)) : (a == oldLayout && b == newLayout) = false := by
  cases hb : (a == oldLayout && b == newLayout) with
  | false => rfl
  | true =>
    rw [Bool.and_eq_true] at hb
    exact absurd ⟨(beq_iff_eq.mp hb.1).symm, (beq_iff_eq.mp hb.2).symm⟩ h

/-- C11: `transitionImageLayout` throws the unsupported-transition error, with no
pipeline barrier recorded and nothing submitted, exactly when `(oldLayout, newLayout)`
is not a key of the four-entry transition table; for each of the four keys it records
exactly one barrier, for the given image and layouts, whose access masks and pipeline
stages are those of the table row, and submits it without error. -/
theorem transitionImageLayout_table (image format oldLayout newLayout : Nat) :
    ((transitionImageLayout image format oldLayout newLayout).error =
        some "unsupported layout transition!" ↔
      lookupTransition oldLayout newLayout = none) ∧
    ((transitionImageLayout image format oldLayout newLayout).error ≠ none →
      (transitionImageLayout image format oldLayout newLayout).recorded = [] ∧
      (transitionImageLayout image format oldLayout newLayout).submitted = false) ∧
    (∀ row, lookupTransition oldLayout newLayout = some row →
      (transitionImageLayout image format oldLayout newLayout).error = none ∧
      (transitionImageLayout image format oldLayout newLayout).submitted = true ∧
      ∃ b, (transitionImageLayout image format oldLayout newLayout).recorded = [b] ∧
        b.barrier.image = image ∧ b.barrier.oldLayout = oldLayout ∧
        b.barrier.newLayout = newLayout ∧
        b.barrier.srcAccessMask = row.srcAccessMask ∧
        b.barrier.dstAccessMask = row.dstAccessMask ∧
        b.sourceStage = row.sourceStage ∧ b.destinationStage = row.destinationStage) ∧
    (lookupTransition oldLayout newLayout = none ↔
      (oldLayout, newLayout) ∉
        [(VK_IMAGE_LAYOUT_UNDEFINED, VK_IMAGE_LAYOUT_TRANSFER_DST_OPTIMAL),
         (VK_IMAGE_LAYOUT_TRANSFER_DST_OPTIMAL, VK_IMAGE_LAYOUT_SHADER_READ_ONLY_OPTIMAL),
         (VK_IMAGE_LAYOUT_UNDEFINED, VK_IMAGE_LAYOUT_DEPTH_STENCIL_ATTACHMENT_OPTIMAL),
         (VK_IMAGE_LAYOUT_UNDEFINED, VK_IMAGE_LAYOUT_COLOR_ATTACHMENT_OPTIMAL)]) := by
  by_cases h1 : oldLayout = 0 ∧ newLayout = 7
  · obtain ⟨rfl, rfl⟩ := h1
    simp [transitionImageLayout, lookupTransition, layoutTransitionTable, List.find?,
      VK_IMAGE_LAYOUT_UNDEFINED, VK_IMAGE_LAYOUT_TRANSFER_DST_OPTIMAL,
      VK_IMAGE_LAYOUT_SHADER_READ_ONLY_OPTIMAL,
      VK_IMAGE_LAYOUT_DEPTH_STENCIL_ATTACHMENT_OPTIMAL,
      VK_IMAGE_LAYOUT_COLOR_ATTACHMENT_OPTIMAL]
  by_cases h2 : oldLayout = 7 ∧ newLayout = 5
  · obtain ⟨rfl, rfl⟩ := h2
    simp [transitionImageLayout, lookupTransition, layoutTransitionTable, List.find?,
      VK_IMAGE_LAYOUT_UNDEFINED, VK_IMAGE_LAYOUT_TRANSFER_DST_OPTIMAL,
      VK_IMAGE_LAYOUT_SHADER_READ_ONLY_OPTIMAL,
      VK_IMAGE_LAYOUT_DEPTH_STENCIL_ATTACHMENT_OPTIMAL,
      VK_IMAGE_LAYOUT_COLOR_ATTACHMENT_OPTIMAL]
  by_cases h3 : oldLayout = 0 ∧ newLayout = 3
  · obtain ⟨rfl, rfl⟩ := h3
    simp [transitionImageLayout, lookupTransition, layoutTransitionTable, List.find?,
      VK_IMAGE_LAYOUT_UNDEFINED, VK_IMAGE_LAYOUT_TRANSFER_DST_OPTIMAL,
      VK_IMAGE_LAYOUT_SHADER_READ_ONLY_OPTIMAL,
      VK_IMAGE_LAYOUT_DEPTH_STENCIL_ATTACHMENT_OPTIMAL,
      VK_IMAGE_LAYOUT_COLOR_ATTACHMENT_OPTIMAL]
  by_cases h4 : oldLayout = 0 ∧ newLayout = 2
  · obtain ⟨rfl, rfl⟩ := h4
    simp [transitionImageLayout, lookupTransition, layoutTransitionTable, List.find?,
      VK_IMAGE_LAYOUT_UNDEFINED, VK_IMAGE_LAYOUT_TRANSFER_DST_OPTIMAL,
      VK_IMAGE_LAYOUT_SHADER_READ_ONLY_OPTIMAL,
      VK_IMAGE_LAYOUT_DEPTH_STENCIL_ATTACHMENT_OPTIMAL,
      VK_IMAGE_LAYOUT_COLOR_ATTACHMENT_OPTIMAL]
  · have e1 := layout_key_ne 0 7 oldLayout newLayout h1
    have e2 := layout_key_ne 7 5 oldLayout newLayout h2
    have e3 := layout_key_ne 0 3 oldLayout newLayout h3
    have e4 := layout_key_ne 0 2 oldLayout newLayout h4
    simp [transitionImageLayout, lookupTransition, layoutTransitionTable, List.find?,
      VK_IMAGE_LAYOUT_UNDEFINED, VK_IMAGE_LAYOUT_TRANSFER_DST_OPTIMAL,
      VK_IMAGE_LAYOUT_SHADER_READ_ONLY_OPTIMAL,
      VK_IMAGE_LAYOUT_DEPTH_STENCIL_ATTACHMENT_OPTIMAL,
      VK_IMAGE_LAYOUT_COLOR_ATTACHMENT_OPTIMAL, h1, h2, h3, h4, e1, e2, e3, e4]

/-- Witness for C11: the texture upload transition `UNDEFINED -> TRANSFER_DST_OPTIMAL`
records its table row, and the reverse pair `SHADER_READ_ONLY_OPTIMAL -> UNDEFINED`
is refused with nothing recorded. -/
theorem transitionImageLayout_table_witness :
    ((transitionImageLayout 5 44 VK_IMAGE_LAYOUT_UNDEFINED
          VK_IMAGE_LAYOUT_TRANSFER_DST_OPTIMAL).error = none ∧
      (transitionImageLayout 5 44 VK_IMAGE_LAYOUT_UNDEFINED
          VK_IMAGE_LAYOUT_TRANSFER_DST_OPTIMAL).submitted = true ∧
      ∃ b, (transitionImageLayout 5 44 VK_IMAGE_LAYOUT_UNDEFINED
            VK_IMAGE_LAYOUT_TRANSFER_DST_OPTIMAL).recorded = [b] ∧
        b.barrier.image = 5 ∧ b.barrier.oldLayout = VK_IMAGE_LAYOUT_UNDEFINED ∧
        b.barrier.newLayout = VK_IMAGE_LAYOUT_TRANSFER_DST_OPTIMAL ∧
        b.barrier.srcAccessMask = 0 ∧ b.barrier.dstAccessMask = 4096 ∧
        b.sourceStage = 1 ∧ b.destinationStage = 4096) ∧
    ((transitionImageLayout 5 44 VK_IMAGE_LAYOUT_SHADER_READ_ONLY_OPTIMAL
          VK_IMAGE_LAYOUT_UNDEFINED).recorded = [] ∧
      (transitionImageLayout 5 44 VK_IMAGE_LAYOUT_SHADER_READ_ONLY_OPTIMAL
          VK_IMAGE_LAYOUT_UNDEFINED).submitted = false) :=
  ⟨(transitionImageLayout_table 5 44 VK_IMAGE_LAYOUT_UNDEFINED
      VK_IMAGE_LAYOUT_TRANSFER_DST_OPTIMAL).2.2.1 ⟨0, 4096, 1, 4096⟩ rfl,
   (transitionImageLayout_table 5 44 VK_IMAGE_LAYOUT_SHADER_READ_ONLY_OPTIMAL
      VK_IMAGE_LAYOUT_UNDEFINED).2.1 (by decide)⟩

/-! ## Shape of the log written by the frame loop -/

theorem runRoutines_trace (routineError : Routine → Option String) (surface : SurfaceInput)
    (routines : List Routine) (app : App) :
    ∃ completed rest, routines = completed ++ rest ∧
      (runRoutines routineError surface routines app).app.trace =
        app.trace ++ completed.map (routineEvent surface) ∧
      (runRoutines routineError surface routines app).app.mCurrentFrame =
        app.mCurrentFrame ∧
      (runRoutines routineError surface routines app).app.framebufferResized =
        app.framebufferResized ∧
      (∀ app1, runRoutines routineError surface routines app = .returned app1 → rest = []) ∧
      (∀ app1, runRoutines routineError surface routines app ≠ .waiting app1) ∧
      ((∀ r, r ∈ routines → routineError r = none) →
        ∃ app1, runRoutines routineError surface routines app = .returned app1) := by
  induction routines generalizing app with
  | nil =>
    exact ⟨[], [], rfl, by simp [runRoutines, Outcome.app], rfl, rfl,
      fun _ _ => rfl, fun _ h => by simp [runRoutines] at h, fun _ => ⟨app, rfl⟩⟩
  | cons r rs ih =>
    cases he : routineError r with
    | some what =>
      refine ⟨[], r :: rs, rfl, by simp [runRoutines, he, Outcome.app],
        by simp [runRoutines, he, Outcome.app], by simp [runRoutines, he, Outcome.app],
        fun _ h => by simp [runRoutines, he] at h, fun _ h => by simp [runRoutines, he] at h,
        fun h => ?_⟩
      have := h r (List.mem_cons_self _ _)
      rw [he] at this
      exact Option.noConfusion this
    | none =>
      obtain ⟨completed, rest, h1, h2, h3, h4, h5, h6, h7⟩ :=
        ih (app.log (routineEvent surface r))
      have hrun : runRoutines routineError surface (r :: rs) app =
          runRoutines routineError surface rs (app.log (routineEvent surface r)) := by
        simp [runRoutines, he]
      refine ⟨r :: completed, rest, by rw [h1]; rfl, ?_, ?_, ?_, ?_, ?_, ?_⟩
      · rw [hrun, h2]; simp [App.log]
      · rw [hrun, h3]; rfl
      · rw [hrun, h4]; rfl
      · intro app1 h; rw [hrun] at h; exact h5 app1 h
      · intro app1 h; rw [hrun] at h; exact h6 app1 h
      · intro h; rw [hrun]
        exact h7 (fun x hx => h x (List.mem_cons_of_mem _ hx))

theorem recreatePollLoop_spec (polls : List Poll) (app : App) :
    (∃ app1 pre p rest, recreatePollLoop polls app = .returned app1 ∧
        polls = pre ++ p :: rest ∧ (∀ q, q ∈ pre → q.degenerate = true) ∧
        p.degenerate = false ∧
        app1.trace = app.trace ++ (pre ++ [p]).map pollEvent ∧
        app1.mCurrentFrame = app.mCurrentFrame) ∨
    (∃ app1, recreatePollLoop polls app = .waiting app1 ∧
        (∀ q, q ∈ polls → q.degenerate = true) ∧
        app1.trace = app.trace ++ polls.map pollEvent ∧
        app1.mCurrentFrame = app.mCurrentFrame) := by
  induction polls generalizing app with
  | nil =>
    right
    exact ⟨app, rfl, fun q hq => absurd hq (List.not_mem_nil q), by simp, rfl⟩
  | cons a as ih =>
    by_cases hd : a.degenerate = true
    · have hstep : recreatePollLoop (a :: as) app =
          recreatePollLoop as
            { app with framebufferResized := app.framebufferResized || a.resized,
                       trace := app.trace ++ [.getFramebufferSize a.width a.height] } := by
        simp only [recreatePollLoop]
        rw [if_pos (by simpa [Poll.degenerate] using hd)]
      rcases ih { app with framebufferResized := app.framebufferResized || a.resized,
                           trace := app.trace ++ [.getFramebufferSize a.width a.height] }
        with ⟨app1, pre, p, rest, h1, h2, h3, h4, h5, h6⟩ | ⟨app1, h1, h2, h3, h4⟩
      · left
        refine ⟨app1, a :: pre, p, rest, by rw [hstep, h1], by rw [h2]; rfl, ?_, h4, ?_, h6⟩
        · intro q hq
          rcases List.mem_cons.mp hq with h | h
          · rw [h]; exact hd
          · exact h3 q h
        · rw [h5]; simp [pollEvent]
      · right
        refine ⟨app1, by rw [hstep, h1], ?_, ?_, h4⟩
        · intro q hq
          rcases List.mem_cons.mp hq with h | h
          · rw [h]; exact hd
          · exact h2 q h
        · rw [h3]; simp [pollEvent]
    · left
      have hd1 : a.degenerate = false := by simpa using hd
      refine ⟨{ app with framebufferResized := app.framebufferResized || a.resized,
                         trace := app.trace ++ [.getFramebufferSize a.width a.height] },
        [], a, as, ?_, rfl, fun q hq => absurd hq (List.not_mem_nil q), hd1,
        by simp [pollEvent], rfl⟩
      simp only [recreatePollLoop]
      rw [if_neg (by simpa [Poll.degenerate] using hd)]

/-- The log written by `recreateSwapChain`: either the window never reports a
non-degenerate size and only polls are logged, or the polls end with the first
non-degenerate answer and are followed by the device-idle wait, the clean-up and the
creation routines completed before an exception, all of them if it returns. -/
theorem recreateSwapChain_spec (input : RebuildInput) (app : App) :
    (∃ app1, recreateSwapChain input app = .waiting app1 ∧
        (∀ q, q ∈ input.polls → q.degenerate = true) ∧
        app1.trace = app.trace ++ input.polls.map pollEvent ∧
        app1.mCurrentFrame = app.mCurrentFrame) ∨
    (∃ pre p rest completed remaining,
        input.polls = pre ++ p :: rest ∧ (∀ q, q ∈ pre → q.degenerate = true) ∧
        p.degenerate = false ∧ recreateRoutines = completed ++ remaining ∧
        (recreateSwapChain input app).app.trace =
          app.trace ++ ((pre ++ [p]).map pollEvent ++
            ([Event.deviceWaitIdle, Event.cleanupSwapChain] ++
              completed.map (routineEvent input.surface))) ∧
        (recreateSwapChain input app).app.mCurrentFrame = app.mCurrentFrame ∧
        (∀ app1, recreateSwapChain input app = .returned app1 → remaining = []) ∧
        (∀ app1, recreateSwapChain input app ≠ .waiting app1) ∧
        ((∀ r, r ∈ recreateRoutines → input.routineError r = none) →
          ∃ app1, recreateSwapChain input app = .returned app1)) := by
  rcases recreatePollLoop_spec input.polls app
    with ⟨app1, pre, p, rest, h1, h2, h3, h4, h5, h6⟩ | ⟨app1, h1, h2, h3, h4⟩
  · right
    have hrec : recreateSwapChain input app =
        runRoutines input.routineError input.surface recreateRoutines
          ((app1.log .deviceWaitIdle).log .cleanupSwapChain) := by
      simp only [recreateSwapChain, h1]
    obtain ⟨completed, remaining, g1, g2, g3, _, g5, g6, g7⟩ :=
      runRoutines_trace input.routineError input.surface recreateRoutines
        ((app1.log .deviceWaitIdle).log .cleanupSwapChain)
    refine ⟨pre, p, rest, completed, remaining, h2, h3, h4, g1, ?_, ?_, ?_, ?_, ?_⟩
    · rw [hrec, g2]; simp [App.log, h5]
    · rw [hrec, g3]; simp [App.log, h6]
    · intro a ha; rw [hrec] at ha; exact g5 a ha
    · intro a ha; rw [hrec] at ha; exact g6 a ha
    · intro hall; rw [hrec]; exact g7 hall
  · left
    refine ⟨app1, ?_, h2, h3, h4⟩
    simp only [recreateSwapChain, h1]

/-! ## The branches of `drawFrame` -/

theorem drawFrame_of_stale_acquire (input : FrameInput) (app : App)
    (h : input.acquireResult = VK_ERROR_OUT_OF_DATE_KHR) :
    drawFrame input app = recreateSwapChain input.rebuild app.afterAcquire := by
  simp [drawFrame, h, App.afterAcquire]

theorem drawFrame_of_acquire_error (input : FrameInput) (app : App)
    (h1 : input.acquireResult ≠ VK_ERROR_OUT_OF_DATE_KHR)
    (h2 : input.acquireResult ≠ VK_SUCCESS) (h3 : input.acquireResult ≠ VK_SUBOPTIMAL_KHR) :
    drawFrame input app = .raised "failed to acquire swap chain image!" app.afterAcquire := by
  simp [drawFrame, h1, h2, h3, App.afterAcquire]

theorem drawFrame_of_submit_error (input : FrameInput) (app : App)
    (hacq : input.acquireResult = VK_SUCCESS ∨ input.acquireResult = VK_SUBOPTIMAL_KHR)
    (hs : input.submitResult ≠ VK_SUCCESS) :
    drawFrame input app =
      .raised "failed to submit draw command buffer!" (app.afterReset input.imageIndex) := by
  have h1 : input.acquireResult ≠ VK_ERROR_OUT_OF_DATE_KHR := by
    rcases hacq with h | h <;> rw [h] <;> decide
  have c1 : VK_SUCCESS ≠ VK_ERROR_OUT_OF_DATE_KHR := by decide
  have c2 : VK_SUBOPTIMAL_KHR ≠ VK_ERROR_OUT_OF_DATE_KHR := by decide
  rcases hacq with h | h <;>
    simp [drawFrame, h, hs, c1, c2, App.afterAcquire, App.afterReset]

theorem drawFrame_of_submitted (input : FrameInput) (app : App)
    (hacq : input.acquireResult = VK_SUCCESS ∨ input.acquireResult = VK_SUBOPTIMAL_KHR)
    (hs : input.submitResult = VK_SUCCESS) :
    drawFrame input app =
      advanceFrame
        (if input.presentResult == VK_ERROR_OUT_OF_DATE_KHR ||
            input.presentResult == VK_SUBOPTIMAL_KHR || app.framebufferResized then
          recreateSwapChain input.rebuild
            { app.afterPresent input.imageIndex with framebufferResized := false }
        else if input.presentResult != VK_SUCCESS then
          .raised "failed to present swap chain image!" (app.afterPresent input.imageIndex)
        else .returned (app.afterPresent input.imageIndex)) := by
  have h1 : input.acquireResult ≠ VK_ERROR_OUT_OF_DATE_KHR := by
    rcases hacq with h | h <;> rw [h] <;> decide
  have h2 : (input.acquireResult != VK_SUCCESS && input.acquireResult != VK_SUBOPTIMAL_KHR)
      = false := by
    rcases hacq with h | h <;> simp [h]
  unfold drawFrame
  simp only [h1, h2, hs, beq_iff_eq, if_false, bne_self_eq_false, Bool.false_eq_true]
  unfold advanceFrame App.afterPresent App.afterReset App.afterAcquire App.log
  simp only

theorem routineEvent_isRebuild (surface : SurfaceInput) (r : Routine) :
    (routineEvent surface r).isRebuild = true := by
  cases r <;> rfl

theorem recreateSwapChain_tail (input : RebuildInput) (app : App) :
    ∃ tail, (recreateSwapChain input app).app.trace = app.trace ++ tail ∧
      (∀ e, e ∈ tail → e.isRebuild = true) ∧
      (recreateSwapChain input app).app.mCurrentFrame = app.mCurrentFrame := by
  rcases recreateSwapChain_spec input app with
    ⟨app1, h1, _, h3, h4⟩ | ⟨pre, p, rest, completed, remaining, _, _, _, _, h5, h6, _⟩
  · refine ⟨input.polls.map pollEvent, by rw [h1]; exact h3, ?_, by rw [h1]; exact h4⟩
    intro e he
    obtain ⟨q, _, rfl⟩ := List.mem_map.mp he
    rfl
  · refine ⟨_, h5, ?_, h6⟩
    intro e he
    rcases List.mem_append.mp he with h | h
    · obtain ⟨q, _, rfl⟩ := List.mem_map.mp h
      rfl
    · rcases List.mem_append.mp h with h | h
      · rcases List.mem_cons.mp h with h | h
        · rw [h]; rfl
        · rw [List.mem_singleton.mp h]; rfl
      · obtain ⟨r, _, rfl⟩ := List.mem_map.mp h
        exact routineEvent_isRebuild _ r

theorem advanceFrame_trace (o : Outcome) : (advanceFrame o).app.trace = o.app.trace := by
  cases o <;> rfl

theorem advanceFrame_isReturned (o : Outcome) :
    (advanceFrame o).isReturned = o.isReturned := by
  cases o <;> rfl

theorem advanceFrame_mCurrentFrame (o : Outcome) :
    (advanceFrame o).app.mCurrentFrame =
      if o.isReturned then (o.app.mCurrentFrame + 1) % MAX_FRAMES_IN_FLIGHT
      else o.app.mCurrentFrame := by
  cases o <;> rfl

theorem afterAcquire_trace (app : App) :
    app.afterAcquire.trace = app.trace ++ frameHead app.mCurrentFrame := by
  simp [App.afterAcquire, App.log, frameHead]

theorem afterReset_trace (app : App) (i : Nat) :
    (app.afterReset i).trace = app.trace ++ (frameHead app.mCurrentFrame ++
      [.updateUniformBuffer i, .resetFences app.mCurrentFrame]) := by
  simp [App.afterReset, App.afterAcquire, App.log, frameHead]

theorem afterPresent_trace (app : App) (i : Nat) :
    (app.afterPresent i).trace = app.trace ++ frameBody app.mCurrentFrame i := by
  simp [App.afterPresent, App.afterReset, App.afterAcquire, App.log, frameBody]

/-- The log written by one `drawFrame` call, in each of the three ways it can go:
the frame stops after acquisition (rebuild or acquire error), it stops after the fence
reset (submit error), or it reaches presentation (possibly followed by a rebuild).
The frame counter advances exactly when a frame that reached presentation returns. -/
theorem drawFrame_shape (input : FrameInput) (app : App) :
    (∃ tail, (drawFrame input app).app.trace =
          app.trace ++ (frameHead app.mCurrentFrame ++ tail) ∧
        (∀ e, e ∈ tail → e.isRebuild = true) ∧
        (drawFrame input app).app.mCurrentFrame = app.mCurrentFrame ∧
        ¬ (input.acquireResult = VK_SUCCESS ∨ input.acquireResult = VK_SUBOPTIMAL_KHR)) ∨
    ((drawFrame input app).app.trace =
          app.trace ++ (frameHead app.mCurrentFrame ++
            [.updateUniformBuffer input.imageIndex, .resetFences app.mCurrentFrame]) ∧
        (drawFrame input app).app.mCurrentFrame = app.mCurrentFrame ∧
        (drawFrame input app).isReturned = false ∧
        (input.acquireResult = VK_SUCCESS ∨ input.acquireResult = VK_SUBOPTIMAL_KHR) ∧
        input.submitResult ≠ VK_SUCCESS) ∨
    (∃ tail, (drawFrame input app).app.trace =
          app.trace ++ (frameBody app.mCurrentFrame input.imageIndex ++ tail) ∧
        (∀ e, e ∈ tail → e.isRebuild = true) ∧
        (drawFrame input app).app.mCurrentFrame =
          (if (drawFrame input app).isReturned then
            (app.mCurrentFrame + 1) % MAX_FRAMES_IN_FLIGHT
          else app.mCurrentFrame) ∧
        (input.acquireResult = VK_SUCCESS ∨ input.acquireResult = VK_SUBOPTIMAL_KHR) ∧
        input.submitResult = VK_SUCCESS) := by
  by_cases hacq : input.acquireResult = VK_SUCCESS ∨ input.acquireResult = VK_SUBOPTIMAL_KHR
  · by_cases hs : input.submitResult = VK_SUCCESS
    · right; right
      rw [drawFrame_of_submitted input app hacq hs]
      by_cases h1 : (input.presentResult == VK_ERROR_OUT_OF_DATE_KHR ||
          input.presentResult == VK_SUBOPTIMAL_KHR || app.framebufferResized) = true
      · rw [if_pos h1]
        obtain ⟨tail, t1, t2, t3⟩ := recreateSwapChain_tail input.rebuild
          { app.afterPresent input.imageIndex with framebufferResized := false }
        refine ⟨tail, ?_, t2, ?_, hacq, hs⟩
        · rw [advanceFrame_trace, t1]
          show (app.afterPresent input.imageIndex).trace ++ tail = _
          rw [afterPresent_trace, List.append_assoc]
        · rw [advanceFrame_mCurrentFrame, advanceFrame_isReturned, t3]
          rfl
      · rw [if_neg h1]
        by_cases h2 : (input.presentResult != VK_SUCCESS) = true
        · rw [if_pos h2]
          exact ⟨[], by simp [advanceFrame, Outcome.app, afterPresent_trace],
            fun e he => absurd he (List.not_mem_nil e), rfl, hacq, hs⟩
        · rw [if_neg h2]
          exact ⟨[], by simp [advanceFrame, Outcome.app, afterPresent_trace],
            fun e he => absurd he (List.not_mem_nil e), rfl, hacq, hs⟩
    · right; left
      rw [drawFrame_of_submit_error input app hacq hs]
      exact ⟨afterReset_trace app input.imageIndex, rfl, rfl, hacq, hs⟩
  · left
    have h2 : input.acquireResult ≠ VK_SUCCESS := fun h => hacq (Or.inl h)
    have h3 : input.acquireResult ≠ VK_SUBOPTIMAL_KHR := fun h => hacq (Or.inr h)
    by_cases h1 : input.acquireResult = VK_ERROR_OUT_OF_DATE_KHR
    · rw [drawFrame_of_stale_acquire input app h1]
      obtain ⟨tail, t1, t2, t3⟩ := recreateSwapChain_tail input.rebuild app.afterAcquire
      refine ⟨tail, ?_, t2, ?_, hacq⟩
      · rw [t1, afterAcquire_trace, List.append_assoc]
      · rw [t3]; rfl
    · rw [drawFrame_of_acquire_error input app h1 h2 h3]
      exact ⟨[], by simp [Outcome.app, afterAcquire_trace],
        fun e he => absurd he (List.not_mem_nil e), rfl, hacq⟩

theorem drawFrame_head (input : FrameInput) (app : App) :
    ∃ more, (drawFrame input app).app.trace =
      app.trace ++ (frameHead app.mCurrentFrame ++ more) := by
  rcases drawFrame_shape input app with ⟨tail, h, _⟩ | ⟨h, _⟩ | ⟨tail, h, _⟩
  · exact ⟨tail, h⟩
  · exact ⟨_, h⟩
  · exact ⟨[.updateUniformBuffer input.imageIndex, .resetFences app.mCurrentFrame,
      .queueSubmit input.imageIndex app.mCurrentFrame app.mCurrentFrame app.mCurrentFrame,
      .queuePresent app.mCurrentFrame input.imageIndex] ++ tail, by rw [h]; rfl⟩

theorem isRebuild_not_frame_op (e : Event) (h : e.isRebuild = true) :
    e.isSubmit = false ∧ e.isPresent = false ∧ ∀ fence, e ≠ .resetFences fence := by
  cases e <;> first
    | exact Bool.noConfusion h
    | exact ⟨rfl, rfl, fun _ hne => Event.noConfusion hne⟩

/-! ## Stale surfaces and platform errors in `drawFrame` -/

/-- C12: when image acquisition reports `VK_ERROR_OUT_OF_DATE_KHR`, `drawFrame` makes,
after its fence wait and the acquire call, only the calls of `recreateSwapChain`: no
fence is reset, nothing is submitted and nothing is presented; `mCurrentFrame` is
left unchanged, so the next `drawFrame` starts on the same slot.  If the call returns,
the rebuild was carried out in full (polls, device-idle wait, clean-up, every creation
routine), and it does return once a poll reports a non-degenerate size and no creation
routine fails. -/
theorem drawFrame_stale_acquire_rebuilds (input : FrameInput) (app : App)
    (hstale : input.acquireResult = VK_ERROR_OUT_OF_DATE_KHR) :
    (∃ tail, (drawFrame input app).app.trace =
          app.trace ++ (frameHead app.mCurrentFrame ++ tail) ∧
        (∀ e, e ∈ frameHead app.mCurrentFrame ++ tail →
          e.isSubmit = false ∧ e.isPresent = false ∧ ∀ fence, e ≠ .resetFences fence) ∧
        (∀ app1, drawFrame input app = .returned app1 →
          ∃ polled, (∀ e, e ∈ polled → e.isPoll = true) ∧
            tail = polled ++ ([Event.deviceWaitIdle, Event.cleanupSwapChain] ++
              recreateRoutines.map (routineEvent input.rebuild.surface)))) ∧
    (drawFrame input app).app.mCurrentFrame = app.mCurrentFrame ∧
    (∀ next, ∃ more, (drawFrame next (drawFrame input app).app).app.trace =
      (drawFrame input app).app.trace ++ (frameHead app.mCurrentFrame ++ more)) ∧
    ((∃ q, q ∈ input.rebuild.polls ∧ q.degenerate = false) →
      (∀ r, r ∈ recreateRoutines → input.rebuild.routineError r = none) →
      ∃ app1, drawFrame input app = .returned app1) := by
  have hframe : (drawFrame input app).app.mCurrentFrame = app.mCurrentFrame := by
    rw [drawFrame_of_stale_acquire input app hstale]
    obtain ⟨_, _, _, t3⟩ := recreateSwapChain_tail input.rebuild app.afterAcquire
    rw [t3]; rfl
  have hhead : ∀ e, e ∈ frameHead app.mCurrentFrame →
      e.isSubmit = false ∧ e.isPresent = false ∧ ∀ fence, e ≠ .resetFences fence := by
    intro e he
    simp only [frameHead, List.mem_cons, List.mem_singleton, List.not_mem_nil, or_false] at he
    rcases he with h | h <;> subst h <;>
      exact ⟨rfl, rfl, fun _ hne => Event.noConfusion hne⟩
  refine ⟨?_, hframe, ?_, ?_⟩
  · rw [drawFrame_of_stale_acquire input app hstale]
    rcases recreateSwapChain_spec input.rebuild app.afterAcquire with
      ⟨app1, h1, _, h3, _⟩ |
      ⟨pre, p, rest, completed, remaining, _, _, _, g4, g5, _, g7, _, _⟩
    · refine ⟨input.rebuild.polls.map pollEvent, ?_, ?_, ?_⟩
      · rw [h1]
        show app1.trace = _
        rw [h3, afterAcquire_trace, List.append_assoc]
      · intro e he
        rcases List.mem_append.mp he with h | h
        · exact hhead e h
        · obtain ⟨q, _, rfl⟩ := List.mem_map.mp h
          exact isRebuild_not_frame_op _ rfl
      · intro app2 h2
        rw [h1] at h2
        exact Outcome.noConfusion h2
    · refine ⟨(pre ++ [p]).map pollEvent ++
          ([Event.deviceWaitIdle, Event.cleanupSwapChain] ++
            completed.map (routineEvent input.rebuild.surface)), ?_, ?_, ?_⟩
      · rw [g5, afterAcquire_trace, List.append_assoc]
      · intro e he
        rcases List.mem_append.mp he with h | h
        · exact hhead e h
        · apply isRebuild_not_frame_op
          rcases List.mem_append.mp h with h | h
          · obtain ⟨q, _, rfl⟩ := List.mem_map.mp h
            rfl
          · rcases List.mem_append.mp h with h | h
            · rcases List.mem_cons.mp h with h | h
              · rw [h]; rfl
              · rw [List.mem_singleton.mp h]; rfl
            · obtain ⟨r, _, rfl⟩ := List.mem_map.mp h
              exact routineEvent_isRebuild _ r
      · intro app2 h2
        have hrem := g7 app2 h2
        rw [hrem, List.append_nil] at g4
        refine ⟨(pre ++ [p]).map pollEvent, ?_, by rw [g4]⟩
        intro e he
        obtain ⟨q, _, rfl⟩ := List.mem_map.mp he
        rfl
  · intro next
    obtain ⟨more, hm⟩ := drawFrame_head next (drawFrame input app).app
    rw [hframe] at hm
    exact ⟨more, hm⟩
  · rintro ⟨q, hq, hqd⟩ hall
    rw [drawFrame_of_stale_acquire input app hstale]
    rcases recreateSwapChain_spec input.rebuild app.afterAcquire with
      ⟨app1, _, h2, _, _⟩ | ⟨_, _, _, _, _, _, _, _, _, _, _, _, _, g9⟩
    · rw [h2 q hq] at hqd
      exact Bool.noConfusion hqd
    · exact g9 hall

/-- Witness for C12: a stale acquisition on a fresh application, with the window
minimised for one poll; the frame counter stays at slot 0. -/
theorem drawFrame_stale_acquire_rebuilds_witness :
    (drawFrame (sampleFrame VK_ERROR_OUT_OF_DATE_KHR 0 VK_SUCCESS) initialApp).app.mCurrentFrame
        = 0 ∧
      (drawFrame (sampleFrame VK_ERROR_OUT_OF_DATE_KHR 0 VK_SUCCESS) initialApp).isReturned
        = true :=
  ⟨(drawFrame_stale_acquire_rebuilds (sampleFrame VK_ERROR_OUT_OF_DATE_KHR 0 VK_SUCCESS)
      initialApp rfl).2.1, by decide⟩

/-- C13 (counterexample): with acquire result `VK_SUBOPTIMAL_KHR` (and successful
submit and present) `drawFrame` is not diverted into a rebuild: it submits command
buffer 1 and presents, the log holding exactly the six calls of a normal frame, and
no clean-up of the swapchain. -/
theorem drawFrame_suboptimal_acquire_submits :
    drawFrame (sampleFrame VK_SUBOPTIMAL_KHR 1 VK_SUCCESS) initialApp =
      .returned { mCurrentFrame := 1, framebufferResized := false, trace := frameBody 0 1 } ∧
    Event.queueSubmit 1 0 0 0 ∈ frameBody 0 1 ∧
    Event.cleanupSwapChain ∉ frameBody 0 1 := by
  decide

/-- C13 (amended): for every result of the acquire call, `drawFrame` rebuilds the
swapchain instead of submitting when the result is `VK_ERROR_OUT_OF_DATE_KHR`, goes on
to the uniform update, fence reset and submission when the result is `VK_SUCCESS` or
`VK_SUBOPTIMAL_KHR`, and fails with the acquire error on every other result; a frame
submission is logged exactly when the acquire result is one of those two and the
submit call succeeds. -/
theorem drawFrame_acquire_policy (input : FrameInput) (app : App) :
    (input.acquireResult = VK_ERROR_OUT_OF_DATE_KHR →
      drawFrame input app = recreateSwapChain input.rebuild app.afterAcquire) ∧
    (input.acquireResult ≠ VK_ERROR_OUT_OF_DATE_KHR →
      input.acquireResult ≠ VK_SUCCESS → input.acquireResult ≠ VK_SUBOPTIMAL_KHR →
      drawFrame input app =
        .raised "failed to acquire swap chain image!" app.afterAcquire) ∧
    (input.acquireResult = VK_SUCCESS ∨ input.acquireResult = VK_SUBOPTIMAL_KHR →
      (input.submitResult = VK_SUCCESS →
        ∃ tail, (drawFrame input app).app.trace =
          app.trace ++ (frameBody app.mCurrentFrame input.imageIndex ++ tail)) ∧
      (input.submitResult ≠ VK_SUCCESS →
        drawFrame input app = .raised "failed to submit draw command buffer!"
          (app.afterReset input.imageIndex))) ∧
    (((drawFrame input app).app.trace.drop app.trace.length).any Event.isSubmit = true ↔
      (input.acquireResult = VK_SUCCESS ∨ input.acquireResult = VK_SUBOPTIMAL_KHR) ∧
        input.submitResult = VK_SUCCESS) := by
  refine ⟨drawFrame_of_stale_acquire input app, drawFrame_of_acquire_error input app,
    fun hacq => ⟨fun hs => ?_, drawFrame_of_submit_error input app hacq⟩, ?_⟩
  · rcases drawFrame_shape input app with ⟨_, _, _, _, h⟩ | ⟨_, _, _, _, h⟩ | ⟨tail, h, _⟩
    · exact absurd hacq h
    · exact absurd hs h
    · exact ⟨tail, h⟩
  · rcases drawFrame_shape input app with
      ⟨tail, h1, h2, _, h4⟩ | ⟨h1, _, _, _, h5⟩ | ⟨tail, h1, _, _, h4, h5⟩
    · rw [h1, List.drop_left]
      constructor
      · intro hany
        rw [List.any_eq_true] at hany
        obtain ⟨e, he, hsub⟩ := hany
        rcases List.mem_append.mp he with h | h
        · simp only [frameHead, List.mem_cons, List.mem_singleton, List.not_mem_nil,
            or_false] at h
          rcases h with h | h <;> subst h <;> exact Bool.noConfusion hsub
        · rw [(isRebuild_not_frame_op e (h2 e h)).1] at hsub
          exact Bool.noConfusion hsub
      · intro h; exact absurd h.1 h4
    · rw [h1, List.drop_left]
      constructor
      · intro hany
        exact absurd hany (by simp [frameHead, Event.isSubmit])
      · intro h; exact absurd h.2 h5
    · rw [h1, List.drop_left]
      constructor
      · intro _; exact ⟨h4, h5⟩
      · intro _
        rw [List.any_eq_true]
        exact ⟨.queueSubmit input.imageIndex app.mCurrentFrame app.mCurrentFrame
          app.mCurrentFrame, by simp [frameBody], rfl⟩

/-- Witness for C13 (amended): a device-lost acquisition raises the acquire error. -/
theorem drawFrame_acquire_policy_witness :
    drawFrame (sampleFrame VK_ERROR_DEVICE_LOST 0 VK_SUCCESS) initialApp =
      .raised "failed to acquire swap chain image!" initialApp.afterAcquire :=
  (drawFrame_acquire_policy (sampleFrame VK_ERROR_DEVICE_LOST 0 VK_SUCCESS) initialApp).2.1
    (by decide) (by decide) (by decide)

/-- C14 (counterexample): the present call reports `VK_ERROR_DEVICE_LOST`, which is
none of success, out-of-date or suboptimal, while the pending-resize flag is set:
`drawFrame` raises nothing, clears the flag, rebuilds the swapchain and returns with
the frame counter advanced. -/
theorem drawFrame_present_error_swallowed :
    VK_ERROR_DEVICE_LOST ≠ VK_SUCCESS ∧ VK_ERROR_DEVICE_LOST ≠ VK_ERROR_OUT_OF_DATE_KHR ∧
    VK_ERROR_DEVICE_LOST ≠ VK_SUBOPTIMAL_KHR ∧
    (drawFrame (sampleFrame VK_SUCCESS 0 VK_ERROR_DEVICE_LOST)
        { initialApp with framebufferResized := true }).isReturned = true ∧
    (drawFrame (sampleFrame VK_SUCCESS 0 VK_ERROR_DEVICE_LOST)
        { initialApp with framebufferResized := true }).app.mCurrentFrame = 1 ∧
    (drawFrame (sampleFrame VK_SUCCESS 0 VK_ERROR_DEVICE_LOST)
        { initialApp with framebufferResized := true }).app.framebufferResized = false ∧
    Event.cleanupSwapChain ∈
      (drawFrame (sampleFrame VK_SUCCESS 0 VK_ERROR_DEVICE_LOST)
        { initialApp with framebufferResized := true }).app.trace := by
  decide

/-- C14 (amended): for every present result that is none of success, out-of-date or
suboptimal, reached after a successful acquisition and submission: when the
pending-resize flag is clear, `drawFrame` fails with the present error, which
propagates to its caller; when the flag is set, `drawFrame` instead clears the flag
and rebuilds the swapchain, its outcome being that of the rebuild. -/
theorem drawFrame_present_error_policy (input : FrameInput) (app : App)
    (hacq : input.acquireResult = VK_SUCCESS ∨ input.acquireResult = VK_SUBOPTIMAL_KHR)
    (hsubmit : input.submitResult = VK_SUCCESS)
    (h1 : input.presentResult ≠ VK_SUCCESS)
    (h2 : input.presentResult ≠ VK_ERROR_OUT_OF_DATE_KHR)
    (h3 : input.presentResult ≠ VK_SUBOPTIMAL_KHR) :
    (app.framebufferResized = false →
      drawFrame input app =
        .raised "failed to present swap chain image!" (app.afterPresent input.imageIndex)) ∧
    (app.framebufferResized = true →
      drawFrame input app =
        advanceFrame (recreateSwapChain input.rebuild
          { app.afterPresent input.imageIndex with framebufferResized := false })) := by
  rw [drawFrame_of_submitted input app hacq hsubmit]
  constructor
  · intro hf
    simp [h1, h2, h3, hf, advanceFrame]
  · intro hf
    simp [hf]

/-- Witness for C14 (amended): a device-lost presentation with the flag clear raises
the present error. -/
theorem drawFrame_present_error_policy_witness :
    drawFrame (sampleFrame VK_SUCCESS 0 VK_ERROR_DEVICE_LOST) initialApp =
      .raised "failed to present swap chain image!" (initialApp.afterPresent 0) :=
  (drawFrame_present_error_policy (sampleFrame VK_SUCCESS 0 VK_ERROR_DEVICE_LOST) initialApp
    (Or.inl rfl) rfl (by decide) (by decide) (by decide)).1 rfl

/-! ## The frame counter -/

theorem countP_isPresent_of_isRebuild (tail : List Event)
    (h : ∀ e, e ∈ tail → e.isRebuild = true) : tail.countP Event.isPresent = 0 := by
  rw [List.countP_eq_zero]
  intro e he hp
  rw [(isRebuild_not_frame_op e (h e he)).2.1] at hp
  exact Bool.noConfusion hp

theorem drawFrame_counter (input : FrameInput) (app : App)
    (hk : app.mCurrentFrame < MAX_FRAMES_IN_FLIGHT) :
    (drawFrame input app).app.mCurrentFrame < MAX_FRAMES_IN_FLIGHT ∧
    ∃ n, (drawFrame input app).app.trace.countP Event.isPresent =
        app.trace.countP Event.isPresent + n ∧
      ((drawFrame input app).isReturned = true →
        (drawFrame input app).app.mCurrentFrame =
          (app.mCurrentFrame + n) % MAX_FRAMES_IN_FLIGHT) := by
  rcases drawFrame_shape input app with
    ⟨tail, h1, h2, h3, _⟩ | ⟨h1, h3, h4, _⟩ | ⟨tail, h1, h2, h3, _⟩
  · refine ⟨by rw [h3]; exact hk, 0, ?_, fun _ => ?_⟩
    · rw [h1, List.countP_append, List.countP_append, countP_isPresent_of_isRebuild tail h2]
      rfl
    · rw [h3, Nat.add_zero, Nat.mod_eq_of_lt hk]
  · refine ⟨by rw [h3]; exact hk, 0, ?_, fun hr => ?_⟩
    · rw [h1, List.countP_append]
      rfl
    · rw [h4] at hr
      exact Bool.noConfusion hr
  · refine ⟨?_, 1, ?_, fun hr => ?_⟩
    · rw [h3]
      split_ifs
      · exact Nat.mod_lt _ (by decide)
      · exact hk
    · rw [h1, List.countP_append, List.countP_append, countP_isPresent_of_isRebuild tail h2]
      rfl
    · rw [h3, if_pos hr]

theorem gameLoopFrames_counter (iterations : List LoopIteration) (app : App)
    (hk : app.mCurrentFrame < MAX_FRAMES_IN_FLIGHT) :
    (gameLoopFrames iterations app).app.mCurrentFrame < MAX_FRAMES_IN_FLIGHT ∧
    ∃ n, (gameLoopFrames iterations app).app.trace.countP Event.isPresent =
        app.trace.countP Event.isPresent + n ∧
      ((gameLoopFrames iterations app).isReturned = true →
        (gameLoopFrames iterations app).app.mCurrentFrame =
          (app.mCurrentFrame + n) % MAX_FRAMES_IN_FLIGHT) := by
  induction iterations generalizing app with
  | nil =>
    exact ⟨hk, 0, rfl, fun _ => by
      simp only [gameLoopFrames, Outcome.app, Nat.add_zero]
      exact (Nat.mod_eq_of_lt hk).symm⟩
  | cons it rest ih =>
    obtain ⟨d1, n1, d2, d3⟩ := drawFrame_counter it.frame
      { app with framebufferResized := app.framebufferResized || it.resized } hk
    cases hd : drawFrame it.frame
        { app with framebufferResized := app.framebufferResized || it.resized } with
    | returned app1 =>
      rw [hd] at d1 d2 d3
      have hstep : gameLoopFrames (it :: rest) app = gameLoopFrames rest app1 := by
        simp only [gameLoopFrames, hd]
      obtain ⟨e1, n2, e2, e3⟩ := ih app1 d1
      rw [hstep]
      refine ⟨e1, n1 + n2, ?_, fun hr => ?_⟩
      · rw [e2]
        show List.countP Event.isPresent app1.trace + n2 = _
        have : List.countP Event.isPresent app1.trace =
            List.countP Event.isPresent app.trace + n1 := d2
        omega
      · rw [e3 hr]
        have : app1.mCurrentFrame = (app.mCurrentFrame + n1) % MAX_FRAMES_IN_FLIGHT := d3 rfl
        rw [this, Nat.add_mod, Nat.mod_mod, ← Nat.add_mod, Nat.add_assoc]
    | raised what app1 =>
      rw [hd] at d1 d2
      have hstep : gameLoopFrames (it :: rest) app = .raised what app1 := by
        simp only [gameLoopFrames, hd]
      rw [hstep]
      exact ⟨d1, n1, d2, fun hr => Bool.noConfusion hr⟩
    | waiting app1 =>
      rw [hd] at d1 d2
      have hstep : gameLoopFrames (it :: rest) app = .waiting app1 := by
        simp only [gameLoopFrames, hd]
      rw [hstep]
      exact ⟨d1, n1, d2, fun hr => Bool.noConfusion hr⟩

theorem initVulkan_state (routineError : Routine → Option String) (surface : SurfaceInput) :
    ∃ completed remaining, initRoutines = completed ++ remaining ∧
      (initVulkan routineError surface initialApp).app.trace =
        completed.map (routineEvent surface) ∧
      (initVulkan routineError surface initialApp).app.mCurrentFrame = 0 := by
  obtain ⟨completed, remaining, h1, h2, h3, _⟩ :=
    runRoutines_trace routineError surface initRoutines initialApp
  exact ⟨completed, remaining, h1, h2, h3⟩

theorem slotsAre_of_isRebuild (slot : Nat) (e : Event) (h : e.isRebuild = true) :
    e.slotsAre slot = true := by
  cases e <;> first
    | exact Bool.noConfusion h
    | rfl

theorem drawFrame_slotsAre (input : FrameInput) (app : App) (e : Event)
    (he : e ∈ (drawFrame input app).app.trace.drop app.trace.length) :
    e.slotsAre app.mCurrentFrame = true := by
  rcases drawFrame_shape input app with ⟨tail, h1, h2, _⟩ | ⟨h1, _⟩ | ⟨tail, h1, h2, _⟩
  · rw [h1, List.drop_left] at he
    rcases List.mem_append.mp he with h | h
    · simp only [frameHead, List.mem_cons, List.mem_singleton, List.not_mem_nil,
        or_false] at h
      rcases h with h | h <;> subst h <;> simp [Event.slotsAre]
    · exact slotsAre_of_isRebuild _ e (h2 e h)
  · rw [h1, List.drop_left] at he
    simp only [frameHead, List.cons_append, List.nil_append, List.mem_cons,
      List.mem_singleton, List.not_mem_nil, or_false] at he
    rcases he with h | h | h | h <;> subst h <;> simp [Event.slotsAre]
  · rw [h1, List.drop_left] at he
    rcases List.mem_append.mp he with h | h
    · simp only [frameBody, List.mem_cons, List.mem_singleton, List.not_mem_nil,
        or_false] at h
      rcases h with h | h | h | h | h | h <;> subst h <;> simp [Event.slotsAre]
    · exact slotsAre_of_isRebuild _ e (h2 e h)

/-- C15: (1) in every state reached by the frame loop after `initVulkan`,
`mCurrentFrame` is below `MAX_FRAMES_IN_FLIGHT`, and when the frames all returned it
equals the number of frames that reached presentation, modulo `MAX_FRAMES_IN_FLIGHT`;
(2) every fence and semaphore a `drawFrame` call touches is the one of slot
`k = mCurrentFrame`; (3) a `drawFrame` call that reaches presentation and returns
sets `mCurrentFrame` to `(k + 1) mod MAX_FRAMES_IN_FLIGHT`. -/
theorem frame_slot_rotation :
    (∀ (routineError : Routine → Option String) (surface : SurfaceInput)
        (iterations : List LoopIteration) (app0 : App),
      initVulkan routineError surface initialApp = .returned app0 →
      (gameLoopFrames iterations app0).app.mCurrentFrame < MAX_FRAMES_IN_FLIGHT ∧
      ((gameLoopFrames iterations app0).isReturned = true →
        (gameLoopFrames iterations app0).app.mCurrentFrame =
          (gameLoopFrames iterations app0).app.trace.countP Event.isPresent
            % MAX_FRAMES_IN_FLIGHT)) ∧
    (∀ (input : FrameInput) (app : App) (e : Event),
      e ∈ (drawFrame input app).app.trace.drop app.trace.length →
      e.slotsAre app.mCurrentFrame = true) ∧
    (∀ (input : FrameInput) (app : App),
      (drawFrame input app).isReturned = true →
      ((drawFrame input app).app.trace.drop app.trace.length).any Event.isPresent = true →
      (drawFrame input app).app.mCurrentFrame =
        (app.mCurrentFrame + 1) % MAX_FRAMES_IN_FLIGHT) := by
  refine ⟨?_, ?_, ?_⟩
  · intro routineError surface iterations app0 hinit
    obtain ⟨completed, _, _, h2, h3⟩ := initVulkan_state routineError surface
    rw [hinit] at h2 h3
    have hk : app0.mCurrentFrame < MAX_FRAMES_IN_FLIGHT := by
      have : app0.mCurrentFrame = 0 := h3
      rw [this]; decide
    have h0 : app0.trace.countP Event.isPresent = 0 := by
      have : app0.trace = completed.map (routineEvent surface) := h2
      rw [this]
      apply countP_isPresent_of_isRebuild
      intro e he
      obtain ⟨r, _, rfl⟩ := List.mem_map.mp he
      exact routineEvent_isRebuild _ r
    obtain ⟨g1, n, g2, g3⟩ := gameLoopFrames_counter iterations app0 hk
    refine ⟨g1, fun hr => ?_⟩
    have h30 : app0.mCurrentFrame = 0 := h3
    rw [g3 hr, g2, h0, h30]
  · exact drawFrame_slotsAre
  · intro input app hr hp
    rcases drawFrame_shape input app with
      ⟨tail, h1, h2, _⟩ | ⟨_, _, h4, _⟩ | ⟨tail, _, _, h3, _⟩
    · rw [h1, List.drop_left, List.any_eq_true] at hp
      obtain ⟨e, he, hpe⟩ := hp
      rcases List.mem_append.mp he with h | h
      · simp only [frameHead, List.mem_cons, List.mem_singleton, List.not_mem_nil,
          or_false] at h
        rcases h with h | h <;> subst h <;> exact Bool.noConfusion hpe
      · rw [(isRebuild_not_frame_op e (h2 e h)).2.1] at hpe
        exact Bool.noConfusion hpe
    · rw [h4] at hr
      exact Bool.noConfusion hr
    · rw [h3, if_pos hr]

/-- Witness for C15: three successful frames after initialisation leave the counter
at 3 mod 2 = 1. -/
theorem frame_slot_rotation_witness :
    (gameLoopFrames threeFrames
        (initVulkan noRoutineError sampleSurface initialApp).app).app.mCurrentFrame = 1 :=
  ((frame_slot_rotation.1 noRoutineError sampleSurface threeFrames
      (initVulkan noRoutineError sampleSurface initialApp).app (by decide)).2
    (by decide)).trans (by decide)

/-! ## Frames in flight -/

theorem inFlightFrom_append (pending : List Submission) (a b : List Event) :
    inFlightFrom pending (a ++ b) = inFlightFrom (inFlightFrom pending a) b := by
  simp [inFlightFrom, List.foldl_append]

theorem inFlightFrom_cons (pending : List Submission) (e : Event) (es : List Event) :
    inFlightFrom pending (e :: es) = inFlightFrom (inFlightStep pending e) es := rfl

theorem fenceDisciplineFrom_length (pending : List Submission) (es : List Event)
    (h : fenceDisciplineFrom pending es = true) : pending.length ≤ MAX_FRAMES_IN_FLIGHT := by
  cases es with
  | nil => simpa [fenceDisciplineFrom] using h
  | cons e es =>
    simp only [fenceDisciplineFrom, Bool.and_eq_true, decide_eq_true_eq] at h
    exact h.1.1

theorem fenceDisciplineFrom_append (pending : List Submission) (a b : List Event) :
    fenceDisciplineFrom pending (a ++ b) = true ↔
      fenceDisciplineFrom pending a = true ∧
        fenceDisciplineFrom (inFlightFrom pending a) b = true := by
  induction a generalizing pending with
  | nil =>
    simp only [List.nil_append, inFlightFrom, List.foldl_nil]
    constructor
    · intro h
      exact ⟨by simpa [fenceDisciplineFrom] using fenceDisciplineFrom_length _ _ h, h⟩
    · intro h; exact h.2
  | cons e es ih =>
    have hcons : (e :: es) ++ b = e :: (es ++ b) := rfl
    rw [hcons]
    simp only [fenceDisciplineFrom, Bool.and_eq_true, inFlightFrom_cons]
    rw [ih]
    tauto

theorem slotsDistinct_length (pending : List Submission) (h : SlotsDistinct pending) :
    pending.length ≤ MAX_FRAMES_IN_FLIGHT := by
  have h1 : (pending.map (fun s => s.fence)).toFinset ⊆ Finset.range MAX_FRAMES_IN_FLIGHT := by
    intro x hx
    rw [List.mem_toFinset] at hx
    obtain ⟨s, hs, rfl⟩ := List.mem_map.mp hx
    exact Finset.mem_range.mpr (h.2 s hs)
  have h2 := Finset.card_le_card h1
  rw [List.toFinset_card_of_nodup h.1, Finset.card_range, List.length_map] at h2
  exact h2

theorem slotsDistinct_nil : SlotsDistinct [] :=
  ⟨List.nodup_nil, fun s hs => absurd hs (List.not_mem_nil s)⟩

theorem slotsDistinct_of_sublist (p q : List Submission) (hsub : q.Sublist p)
    (h : SlotsDistinct p) : SlotsDistinct q :=
  ⟨List.Nodup.sublist (List.Sublist.map _ hsub) h.1, fun s hs => h.2 s (hsub.subset hs)⟩

theorem inFlightStep_sublist (pending : List Submission) (e : Event)
    (he : e.isSubmit = false) : (inFlightStep pending e).Sublist pending := by
  cases e <;> first
    | exact Bool.noConfusion he
    | exact List.Sublist.refl _
    | exact List.filter_sublist _
    | exact List.nil_sublist _

theorem slotsDistinct_submit (pending : List Submission) (c f : Nat)
    (h : SlotsDistinct pending) (hf : f < MAX_FRAMES_IN_FLIGHT)
    (hfresh : ∀ s, s ∈ pending → s.fence ≠ f) : SlotsDistinct (pending ++ [⟨c, f⟩]) := by
  constructor
  · rw [List.map_append, List.nodup_append]
    refine ⟨h.1, List.nodup_singleton _, ?_⟩
    intro x hx hx2
    obtain ⟨s, hs, rfl⟩ := List.mem_map.mp hx
    simp only [List.map_cons, List.map_nil, List.mem_singleton] at hx2
    exact hfresh s hs hx2
  · intro s hs
    rcases List.mem_append.mp hs with h1 | h1
    · exact h.2 s h1
    · rw [List.mem_singleton.mp h1]; exact hf

/-- Calls other than resets and submissions keep the fence discipline, and leave in
flight only submissions that were in flight before. -/
theorem fenceDiscipline_quiet (es : List Event) (pending : List Submission)
    (hq : ∀ e, e ∈ es → e.isSubmit = false ∧ ∀ fence, e ≠ .resetFences fence)
    (h : SlotsDistinct pending) :
    fenceDisciplineFrom pending es = true ∧ SlotsDistinct (inFlightFrom pending es) ∧
      (inFlightFrom pending es).Sublist pending := by
  induction es generalizing pending with
  | nil =>
    exact ⟨by simpa [fenceDisciplineFrom] using slotsDistinct_length _ h, h,
      List.Sublist.refl _⟩
  | cons e es ih =>
    have he := hq e (List.mem_cons_self _ _)
    have hsub := inFlightStep_sublist pending e he.1
    obtain ⟨i1, i2, i3⟩ := ih (inFlightStep pending e)
      (fun x hx => hq x (List.mem_cons_of_mem _ hx))
      (slotsDistinct_of_sublist _ _ hsub h)
    refine ⟨?_, i2, i3.trans hsub⟩
    simp only [fenceDisciplineFrom, Bool.and_eq_true, decide_eq_true_eq]
    refine ⟨⟨slotsDistinct_length _ h, ?_⟩, i1⟩
    cases e <;> first
      | rfl
      | exact absurd rfl (he.2 _)
      | exact Bool.noConfusion he.1

theorem filter_fence_fresh (pending : List Submission) (k : Nat) :
    ∀ s, s ∈ pending.filter (fun s => s.fence != k) → s.fence ≠ k := by
  intro s hs
  have := (List.mem_filter.mp hs).2
  simpa using this

theorem fenceDiscipline_frameBody (pending : List Submission) (k i : Nat)
    (h : SlotsDistinct pending) (hk : k < MAX_FRAMES_IN_FLIGHT) :
    fenceDisciplineFrom pending (frameBody k i) = true ∧
      inFlightFrom pending (frameBody k i) =
        pending.filter (fun s => s.fence != k) ++ [⟨i, k⟩] ∧
      SlotsDistinct (inFlightFrom pending (frameBody k i)) := by
  have h1 : SlotsDistinct (pending.filter (fun s => s.fence != k)) :=
    slotsDistinct_of_sublist _ _ (List.filter_sublist _) h
  have h2 : SlotsDistinct (pending.filter (fun s => s.fence != k) ++ [⟨i, k⟩]) :=
    slotsDistinct_submit _ i k h1 hk (filter_fence_fresh pending k)
  have l0 := slotsDistinct_length _ h
  have l1 := slotsDistinct_length _ h1
  have l2 := slotsDistinct_length _ h2
  have hall : (pending.filter (fun s => s.fence != k)).all (fun s => s.fence != k) = true := by
    rw [List.all_eq_true]
    intro s hs
    exact (List.mem_filter.mp hs).2
  have hfl : inFlightFrom pending (frameBody k i) =
      pending.filter (fun s => s.fence != k) ++ [⟨i, k⟩] := rfl
  refine ⟨?_, hfl, by rw [hfl]; exact h2⟩
  simp only [frameBody, fenceDisciplineFrom, fenceStepOk, inFlightStep, Bool.and_eq_true,
    decide_eq_true_eq, Bool.and_true, hall, and_true]
  exact ⟨l0, l1, l1, l1, l1, l2, l2⟩

theorem fenceDiscipline_submitError (pending : List Submission) (k i : Nat)
    (h : SlotsDistinct pending) :
    fenceDisciplineFrom pending
        (frameHead k ++ [.updateUniformBuffer i, .resetFences k]) = true ∧
      SlotsDistinct (inFlightFrom pending
        (frameHead k ++ [.updateUniformBuffer i, .resetFences k])) := by
  have h1 : SlotsDistinct (pending.filter (fun s => s.fence != k)) :=
    slotsDistinct_of_sublist _ _ (List.filter_sublist _) h
  have l0 := slotsDistinct_length _ h
  have l1 := slotsDistinct_length _ h1
  have hall : (pending.filter (fun s => s.fence != k)).all (fun s => s.fence != k) = true := by
    rw [List.all_eq_true]
    intro s hs
    exact (List.mem_filter.mp hs).2
  refine ⟨?_, h1⟩
  simp only [frameHead, List.cons_append, List.nil_append, fenceDisciplineFrom, fenceStepOk,
    inFlightStep, Bool.and_eq_true, decide_eq_true_eq, Bool.and_true, hall, and_true]
  exact ⟨l0, l1, l1, l1, l1⟩

theorem frameHead_quiet (k : Nat) :
    ∀ e, e ∈ frameHead k → e.isSubmit = false ∧ ∀ fence, e ≠ .resetFences fence := by
  intro e he
  simp only [frameHead, List.mem_cons, List.mem_singleton, List.not_mem_nil, or_false] at he
  rcases he with h | h <;> subst h <;> exact ⟨rfl, fun _ hne => Event.noConfusion hne⟩

theorem isRebuild_quiet (tail : List Event) (h : ∀ e, e ∈ tail → e.isRebuild = true) :
    ∀ e, e ∈ tail → e.isSubmit = false ∧ ∀ fence, e ≠ .resetFences fence :=
  fun e he => ⟨(isRebuild_not_frame_op e (h e he)).1, (isRebuild_not_frame_op e (h e he)).2.2⟩

/-- One `drawFrame` call keeps the fence discipline of the log. -/
theorem drawFrame_fenceDiscipline (input : FrameInput) (app : App)
    (hk : app.mCurrentFrame < MAX_FRAMES_IN_FLIGHT)
    (hd : fenceDisciplineFrom [] app.trace = true)
    (hs : SlotsDistinct (inFlight app.trace)) :
    fenceDisciplineFrom [] (drawFrame input app).app.trace = true ∧
      SlotsDistinct (inFlight (drawFrame input app).app.trace) := by
  rcases drawFrame_shape input app with ⟨tail, h1, h2, _⟩ | ⟨h1, _⟩ | ⟨tail, h1, h2, _⟩
  · have hq : ∀ e, e ∈ frameHead app.mCurrentFrame ++ tail →
        e.isSubmit = false ∧ ∀ fence, e ≠ .resetFences fence := by
      intro e he
      rcases List.mem_append.mp he with h | h
      · exact frameHead_quiet _ e h
      · exact isRebuild_quiet tail h2 e h
    obtain ⟨q1, q2, _⟩ := fenceDiscipline_quiet _ (inFlight app.trace) hq hs
    rw [h1]
    exact ⟨(fenceDisciplineFrom_append _ _ _).mpr ⟨hd, q1⟩,
      by unfold inFlight; rw [inFlightFrom_append]; exact q2⟩
  · obtain ⟨q1, q2⟩ := fenceDiscipline_submitError (inFlight app.trace) app.mCurrentFrame
      input.imageIndex hs
    rw [h1]
    exact ⟨(fenceDisciplineFrom_append _ _ _).mpr ⟨hd, q1⟩,
      by unfold inFlight; rw [inFlightFrom_append]; exact q2⟩
  · obtain ⟨b1, _, b3⟩ := fenceDiscipline_frameBody (inFlight app.trace) app.mCurrentFrame
      input.imageIndex hs hk
    obtain ⟨q1, q2, _⟩ := fenceDiscipline_quiet tail _ (isRebuild_quiet tail h2) b3
    rw [h1]
    refine ⟨(fenceDisciplineFrom_append _ _ _).mpr
      ⟨hd, (fenceDisciplineFrom_append _ _ _).mpr ⟨b1, q1⟩⟩, ?_⟩
    unfold inFlight
    rw [inFlightFrom_append, inFlightFrom_append]
    exact q2

theorem gameLoopFrames_fenceDiscipline (iterations : List LoopIteration) (app : App)
    (hk : app.mCurrentFrame < MAX_FRAMES_IN_FLIGHT)
    (hd : fenceDisciplineFrom [] app.trace = true)
    (hs : SlotsDistinct (inFlight app.trace)) :
    fenceDisciplineFrom [] (gameLoopFrames iterations app).app.trace = true := by
  induction iterations generalizing app with
  | nil => exact hd
  | cons it rest ih =>
    have hc := (drawFrame_counter it.frame
      { app with framebufferResized := app.framebufferResized || it.resized } hk).1
    obtain ⟨d1, d2⟩ := drawFrame_fenceDiscipline it.frame
      { app with framebufferResized := app.framebufferResized || it.resized } hk hd hs
    cases hdf : drawFrame it.frame
        { app with framebufferResized := app.framebufferResized || it.resized } with
    | returned app1 =>
      rw [hdf] at hc d1 d2
      have hstep : gameLoopFrames (it :: rest) app = gameLoopFrames rest app1 := by
        simp only [gameLoopFrames, hdf]
      rw [hstep]
      exact ih app1 hc d1 d2
    | raised what app1 =>
      rw [hdf] at d1
      have hstep : gameLoopFrames (it :: rest) app = .raised what app1 := by
        simp only [gameLoopFrames, hdf]
      rw [hstep]; exact d1
    | waiting app1 =>
      rw [hdf] at d1
      have hstep : gameLoopFrames (it :: rest) app = .waiting app1 := by
        simp only [gameLoopFrames, hdf]
      rw [hstep]; exact d1

theorem initVulkan_fenceDiscipline (routineError : Routine → Option String)
    (surface : SurfaceInput) :
    fenceDisciplineFrom [] (initVulkan routineError surface initialApp).app.trace = true ∧
      SlotsDistinct (inFlight (initVulkan routineError surface initialApp).app.trace) := by
  obtain ⟨completed, _, _, h2, _⟩ := initVulkan_state routineError surface
  have hq : ∀ e, e ∈ completed.map (routineEvent surface) →
      e.isSubmit = false ∧ ∀ fence, e ≠ .resetFences fence := by
    apply isRebuild_quiet
    intro e he
    obtain ⟨r, _, rfl⟩ := List.mem_map.mp he
    exact routineEvent_isRebuild _ r
  obtain ⟨q1, q2, _⟩ := fenceDiscipline_quiet _ [] hq slotsDistinct_nil
  rw [h2]
  exact ⟨q1, q2⟩

theorem fenceDiscipline_take (pending : List Submission) (es : List Event)
    (h : fenceDisciplineFrom pending es = true) (n : Nat) :
    (inFlightFrom pending (es.take n)).length ≤ MAX_FRAMES_IN_FLIGHT := by
  rw [← List.take_append_drop n es, fenceDisciplineFrom_append] at h
  exact fenceDisciplineFrom_length _ _ h.2

theorem fenceDiscipline_at (pending : List Submission) (pre post : List Event) (e : Event)
    (h : fenceDisciplineFrom pending (pre ++ e :: post) = true) :
    fenceStepOk (inFlightFrom pending pre) e = true := by
  rw [fenceDisciplineFrom_append] at h
  have h2 := h.2
  simp only [fenceDisciplineFrom, Bool.and_eq_true] at h2
  exact h2.1.2

/-- C16: (1) within one `drawFrame` call, a fence is reset, and attached to a queue
submission, only after the same call has waited for that fence; (2) in every log the
frame loop produces after `initVulkan`, at every moment the number of submitted frames
whose fence has not been observed signalled is at most `MAX_FRAMES_IN_FLIGHT`;
(3) at every submission no earlier submission attached to the same fence is still in
flight, so the submission that reuses a slot comes after the wait that recycles
it. -/
theorem frames_in_flight_bounded :
    (∀ (input : FrameInput) (app : App) (pre post : List Event) (e : Event) (fence : Nat),
      (drawFrame input app).app.trace.drop app.trace.length = pre ++ e :: post →
      (e = .resetFences fence ∨ ∃ c w s, e = .queueSubmit c w s fence) →
      Event.waitForFences fence ∈ pre) ∧
    (∀ (routineError : Routine → Option String) (surface : SurfaceInput)
        (iterations : List LoopIteration) (app0 : App),
      initVulkan routineError surface initialApp = .returned app0 →
      ∀ n, (inFlight ((gameLoopFrames iterations app0).app.trace.take n)).length
        ≤ MAX_FRAMES_IN_FLIGHT) ∧
    (∀ (routineError : Routine → Option String) (surface : SurfaceInput)
        (iterations : List LoopIteration) (app0 : App),
      initVulkan routineError surface initialApp = .returned app0 →
      ∀ (pre post : List Event) (c w s fence : Nat),
        (gameLoopFrames iterations app0).app.trace = pre ++ .queueSubmit c w s fence :: post →
        ∀ sub, sub ∈ inFlight pre → sub.fence ≠ fence) := by
  have hloop : ∀ (routineError : Routine → Option String) (surface : SurfaceInput)
      (iterations : List LoopIteration) (app0 : App),
      initVulkan routineError surface initialApp = .returned app0 →
      fenceDisciplineFrom [] (gameLoopFrames iterations app0).app.trace = true := by
    intro routineError surface iterations app0 hinit
    obtain ⟨i1, i2⟩ := initVulkan_fenceDiscipline routineError surface
    obtain ⟨_, _, _, _, i3⟩ := initVulkan_state routineError surface
    rw [hinit] at i1 i2 i3
    have hk : app0.mCurrentFrame < MAX_FRAMES_IN_FLIGHT := by
      have : app0.mCurrentFrame = 0 := i3
      rw [this]; decide
    exact gameLoopFrames_fenceDiscipline iterations app0 hk i1 i2
  refine ⟨?_, ?_, ?_⟩
  · intro input app pre post e fence hsplit he
    have hmem : e ∈ (drawFrame input app).app.trace.drop app.trace.length := by
      rw [hsplit]; exact List.mem_append_right _ (List.mem_cons_self _ _)
    have hslot := drawFrame_slotsAre input app e hmem
    have hf : fence = app.mCurrentFrame := by
      rcases he with h | ⟨c, w, s, h⟩
      · subst h
        simpa [Event.slotsAre] using hslot
      · subst h
        simp only [Event.slotsAre, Bool.and_eq_true, beq_iff_eq] at hslot
        exact hslot.2
    obtain ⟨more, hm⟩ := drawFrame_head input app
    rw [hm, List.drop_left] at hsplit
    cases pre with
    | nil =>
      simp only [frameHead, List.cons_append, List.nil_append, List.cons.injEq] at hsplit
      rcases he with h | ⟨c, w, s, h⟩
      · rw [h] at hsplit; exact Event.noConfusion hsplit.1
      · rw [h] at hsplit; exact Event.noConfusion hsplit.1
    | cons x pre1 =>
      simp only [frameHead, List.cons_append, List.nil_append, List.cons.injEq] at hsplit
      rw [hf, ← hsplit.1]
      exact List.mem_cons_self _ _
  · intro routineError surface iterations app0 hinit n
    exact fenceDiscipline_take [] _ (hloop routineError surface iterations app0 hinit) n
  · intro routineError surface iterations app0 hinit pre post c w s fence hsplit sub hsub
    have hd := hloop routineError surface iterations app0 hinit
    rw [hsplit] at hd
    have hok := fenceDiscipline_at [] pre post _ hd
    simp only [fenceStepOk, List.all_eq_true] at hok
    have := hok sub hsub
    simpa using this

/-- Witness for C16: after initialisation and three successful frames, two submissions
are in flight (those of the last two frames), within the bound. -/
theorem frames_in_flight_bounded_witness :
    (inFlight ((gameLoopFrames threeFrames readyApp).app.trace.take 44)).length
        ≤ MAX_FRAMES_IN_FLIGHT ∧
      inFlight (gameLoopFrames threeFrames readyApp).app.trace = [⟨1, 1⟩, ⟨2, 0⟩] :=
  ⟨frames_in_flight_bounded.2.1 noRoutineError sampleSurface threeFrames readyApp
      (by decide) 44, by decide⟩

/-! ## Command buffers and uniform buffers of in-flight frames -/

theorem inFlightFrom_sublist (pending : List Submission) (es : List Event)
    (hq : ∀ e, e ∈ es → e.isSubmit = false) : (inFlightFrom pending es).Sublist pending := by
  induction es generalizing pending with
  | nil => exact List.Sublist.refl _
  | cons e es ih =>
    rw [inFlightFrom_cons]
    exact (ih _ (fun x hx => hq x (List.mem_cons_of_mem _ hx))).trans
      (inFlightStep_sublist pending e (hq e (List.mem_cons_self _ _)))

theorem lastSubmissionFrom_append (last : Option Submission) (a b : List Event) :
    lastSubmissionFrom last (a ++ b) = lastSubmissionFrom (lastSubmissionFrom last a) b := by
  simp [lastSubmissionFrom, List.foldl_append]

theorem framesSinceFrom_append (since : Nat) (a b : List Event) :
    framesSinceFrom since (a ++ b) = framesSinceFrom (framesSinceFrom since a) b := by
  simp [framesSinceFrom, List.foldl_append]

theorem reuseDisciplineFrom_append (pending : List Submission) (last : Option Submission)
    (since : Nat) (a b : List Event) :
    reuseDisciplineFrom pending last since (a ++ b) = true ↔
      reuseDisciplineFrom pending last since a = true ∧
        reuseDisciplineFrom (inFlightFrom pending a) (lastSubmissionFrom last a)
          (framesSinceFrom since a) b = true := by
  induction a generalizing pending last since with
  | nil => simp [reuseDisciplineFrom, inFlightFrom, lastSubmissionFrom, framesSinceFrom]
  | cons e es ih =>
    have hcons : (e :: es) ++ b = e :: (es ++ b) := rfl
    rw [hcons]
    simp only [reuseDisciplineFrom, Bool.and_eq_true, inFlightFrom_cons]
    rw [ih]
    have hl : lastSubmissionFrom last (e :: es) =
        lastSubmissionFrom (lastSubmissionStep last e) es := rfl
    have hf : framesSinceFrom since (e :: es) =
        framesSinceFrom (framesSinceStep since e) es := rfl
    rw [hl, hf]
    tauto

theorem reuseDiscipline_at (pending : List Submission) (last : Option Submission)
    (since : Nat) (pre post : List Event) (e : Event)
    (h : reuseDisciplineFrom pending last since (pre ++ e :: post) = true) :
    reuseStepOk (inFlightFrom pending pre) (lastSubmissionFrom last pre)
      (framesSinceFrom since pre) e = true := by
  rw [reuseDisciplineFrom_append] at h
  have h2 := h.2
  simp only [reuseDisciplineFrom, Bool.and_eq_true] at h2
  exact h2.1

/-- Calls that neither submit a frame nor write a uniform buffer pass the check. -/
theorem reuseDiscipline_quiet (pending : List Submission) (last : Option Submission)
    (since : Nat) (es : List Event)
    (hq : ∀ e, e ∈ es → e.isSubmit = false ∧ ∀ j, e ≠ .updateUniformBuffer j) :
    reuseDisciplineFrom pending last since es = true := by
  induction es generalizing pending last since with
  | nil => rfl
  | cons e es ih =>
    have he := hq e (List.mem_cons_self _ _)
    simp only [reuseDisciplineFrom, Bool.and_eq_true]
    refine ⟨?_, ih _ _ _ (fun x hx => hq x (List.mem_cons_of_mem _ hx))⟩
    cases e <;> first
      | rfl
      | exact absurd rfl (he.2 _)
      | exact Bool.noConfusion he.1

theorem isRebuild_reuse_quiet (tail : List Event) (h : ∀ e, e ∈ tail → e.isRebuild = true) :
    ∀ e, e ∈ tail → e.isSubmit = false ∧ ∀ j, e ≠ .updateUniformBuffer j := by
  intro e he
  refine ⟨(isRebuild_not_frame_op e (h e he)).1, ?_⟩
  intro j hj
  have := h e he
  rw [hj] at this
  exact Bool.noConfusion this

theorem frameHead_reuse_quiet (k : Nat) :
    ∀ e, e ∈ frameHead k → e.isSubmit = false ∧ ∀ j, e ≠ .updateUniformBuffer j := by
  intro e he
  simp only [frameHead, List.mem_cons, List.mem_singleton, List.not_mem_nil, or_false] at he
  rcases he with h | h <;> subst h <;> exact ⟨rfl, fun _ hne => Event.noConfusion hne⟩

theorem all_last_of_onlyLast (pending : List Submission) (last : Option Submission)
    (since k : Nat) (h : OnlyLastOnOtherSlot pending last since k) :
    (pending.filter (fun s => s.fence != k)).all
      (fun s => last == some s && since + 1 == 1) = true := by
  rw [List.all_eq_true]
  intro s hs
  have hm := List.mem_filter.mp hs
  have hne : s.fence ≠ k := by simpa using hm.2
  obtain ⟨h1, h2⟩ := h s hm.1 hne
  rw [h1, h2]
  simp

/-- A frame that stops after acquisition, with or without a rebuild: the check
passes, since nothing is submitted and no uniform buffer is written. -/
theorem reuse_frameHead (pending : List Submission) (last : Option Submission)
    (since k : Nat) (tail : List Event) (ht : ∀ e, e ∈ tail → e.isRebuild = true) :
    reuseDisciplineFrom pending last since (frameHead k ++ tail) = true := by
  have hq : ∀ e, e ∈ frameHead k ++ tail →
      e.isSubmit = false ∧ ∀ j, e ≠ .updateUniformBuffer j := by
    intro e he
    rcases List.mem_append.mp he with h | h
    · exact frameHead_reuse_quiet k e h
    · exact isRebuild_reuse_quiet tail ht e h
  exact reuseDiscipline_quiet _ _ _ _ hq

/-- A frame that stops at a failed submission: the check passes. -/
theorem reuse_submitError (pending : List Submission) (last : Option Submission)
    (since k i : Nat) (h : OnlyLastOnOtherSlot pending last since k) :
    reuseDisciplineFrom pending last since
      (frameHead k ++ [.updateUniformBuffer i, .resetFences k]) = true := by
  have hall := all_last_of_onlyLast pending last since k h
  simp only [frameHead, List.cons_append, List.nil_append, reuseDisciplineFrom, reuseStepOk,
    inFlightStep, lastSubmissionStep, framesSinceStep, Bool.and_eq_true, Bool.and_true, hall,
    and_true, true_and]

/-- A frame that reaches presentation: the check passes at its uniform write and at
its submission. -/
theorem reuse_frameBody (pending : List Submission) (last : Option Submission)
    (since k i : Nat) (tail : List Event) (ht : ∀ e, e ∈ tail → e.isRebuild = true)
    (h : OnlyLastOnOtherSlot pending last since k) :
    reuseDisciplineFrom pending last since (frameBody k i ++ tail) = true := by
  have hall := all_last_of_onlyLast pending last since k h
  have hb : reuseDisciplineFrom pending last since (frameBody k i) = true := by
    simp only [frameBody, reuseDisciplineFrom, reuseStepOk, inFlightStep, lastSubmissionStep,
      framesSinceStep, Bool.and_eq_true, Bool.and_true, hall, and_true, true_and]
  exact (reuseDisciplineFrom_append _ _ _ _ _).mpr
    ⟨hb, reuseDiscipline_quiet _ _ _ _ (isRebuild_reuse_quiet tail ht)⟩

/-- When `recreateSwapChain` returns, nothing is in flight: it has waited for the
device to be idle and has submitted no frame since. -/
theorem recreateSwapChain_returned_inFlight (input : RebuildInput) (app app1 : App)
    (h : recreateSwapChain input app = .returned app1) : inFlight app1.trace = [] := by
  rcases recreateSwapChain_spec input app with
    ⟨a, hw, _⟩ | ⟨pre, p, rest, completed, remaining, _, _, _, _, h5, _⟩
  · rw [h] at hw
    exact Outcome.noConfusion hw
  · rw [h] at h5
    have h5a : app1.trace = app.trace ++ ((pre ++ [p]).map pollEvent ++
        ([Event.deviceWaitIdle, Event.cleanupSwapChain] ++
          completed.map (routineEvent input.surface))) := h5
    rw [h5a]
    unfold inFlight
    rw [inFlightFrom_append, inFlightFrom_append]
    have hq : ∀ e, e ∈ completed.map (routineEvent input.surface) → e.isSubmit = false := by
      intro e he
      obtain ⟨r, _, rfl⟩ := List.mem_map.mp he
      exact (isRebuild_not_frame_op _ (routineEvent_isRebuild _ r)).1
    have hsub := inFlightFrom_sublist [] (completed.map (routineEvent input.surface)) hq
    exact List.eq_nil_of_sublist_nil hsub

/-- A `drawFrame` call that returns either went through a rebuild, after which nothing
is in flight, or logged exactly the calls of a frame that reaches presentation and
advanced the frame counter. -/
theorem drawFrame_returned_flight (input : FrameInput) (app app1 : App)
    (h : drawFrame input app = .returned app1) :
    inFlight app1.trace = [] ∨
      (app1.trace = app.trace ++ frameBody app.mCurrentFrame input.imageIndex ∧
        app1.mCurrentFrame = (app.mCurrentFrame + 1) % MAX_FRAMES_IN_FLIGHT) := by
  by_cases hacq : input.acquireResult = VK_SUCCESS ∨ input.acquireResult = VK_SUBOPTIMAL_KHR
  · by_cases hs : input.submitResult = VK_SUCCESS
    · rw [drawFrame_of_submitted input app hacq hs] at h
      split at h
      · cases hrec : recreateSwapChain input.rebuild
            { app.afterPresent input.imageIndex with framebufferResized := false } with
        | returned a =>
          rw [hrec] at h
          simp only [advanceFrame, Outcome.returned.injEq] at h
          left
          rw [← h]
          exact recreateSwapChain_returned_inFlight _ _ a hrec
        | raised w a => rw [hrec] at h; exact Outcome.noConfusion h
        | waiting a => rw [hrec] at h; exact Outcome.noConfusion h
      · split at h
        · exact Outcome.noConfusion h
        · simp only [advanceFrame, Outcome.returned.injEq] at h
          right
          rw [← h]
          exact ⟨afterPresent_trace app input.imageIndex, rfl⟩
    · rw [drawFrame_of_submit_error input app hacq hs] at h
      exact Outcome.noConfusion h
  · have h2 : input.acquireResult ≠ VK_SUCCESS := fun h => hacq (Or.inl h)
    have h3 : input.acquireResult ≠ VK_SUBOPTIMAL_KHR := fun h => hacq (Or.inr h)
    by_cases h1 : input.acquireResult = VK_ERROR_OUT_OF_DATE_KHR
    · rw [drawFrame_of_stale_acquire input app h1] at h
      exact Or.inl (recreateSwapChain_returned_inFlight _ _ app1 h)
    · rw [drawFrame_of_acquire_error input app h1 h2 h3] at h
      exact Outcome.noConfusion h

/-- One `drawFrame` call keeps the check on the log, and a call that returns leaves
the invariant of the next frame start. -/
theorem drawFrame_reuseDiscipline (input : FrameInput) (app : App)
    (hk : app.mCurrentFrame < MAX_FRAMES_IN_FLIGHT)
    (hs : SlotsDistinct (inFlight app.trace))
    (hr : reuseDisciplineFrom [] none 0 app.trace = true)
    (h1 : OnlyLastOnOtherSlot (inFlight app.trace) (lastSubmission app.trace)
      (framesSinceSubmission app.trace) app.mCurrentFrame) :
    reuseDisciplineFrom [] none 0 (drawFrame input app).app.trace = true ∧
      (∀ app1, drawFrame input app = .returned app1 →
        OnlyLastOnOtherSlot (inFlight app1.trace) (lastSubmission app1.trace)
          (framesSinceSubmission app1.trace) app1.mCurrentFrame) := by
  constructor
  · rcases drawFrame_shape input app with ⟨tail, t1, t2, _⟩ | ⟨t1, _⟩ | ⟨tail, t1, t2, _⟩
    · rw [t1]
      exact (reuseDisciplineFrom_append _ _ _ _ _).mpr ⟨hr, reuse_frameHead _ _ _ _ tail t2⟩
    · rw [t1]
      exact (reuseDisciplineFrom_append _ _ _ _ _).mpr ⟨hr, reuse_submitError _ _ _ _ _ h1⟩
    · rw [t1]
      exact (reuseDisciplineFrom_append _ _ _ _ _).mpr
        ⟨hr, reuse_frameBody _ _ _ _ _ tail t2 h1⟩
  · intro app1 hret
    rcases drawFrame_returned_flight input app app1 hret with hnil | ⟨ht, hc⟩
    · intro s hmem
      rw [hnil] at hmem
      exact absurd hmem (List.not_mem_nil s)
    · rw [ht, hc]
      intro s hmem hne
      have hp : inFlight (app.trace ++ frameBody app.mCurrentFrame input.imageIndex) =
          (inFlight app.trace).filter (fun s => s.fence != app.mCurrentFrame) ++
            [⟨input.imageIndex, app.mCurrentFrame⟩] := by
        unfold inFlight
        rw [inFlightFrom_append]
        rfl
      have hl : lastSubmission (app.trace ++ frameBody app.mCurrentFrame input.imageIndex) =
          some ⟨input.imageIndex, app.mCurrentFrame⟩ := by
        unfold lastSubmission
        rw [lastSubmissionFrom_append]
        rfl
      have hf : framesSinceSubmission
          (app.trace ++ frameBody app.mCurrentFrame input.imageIndex) = 0 := by
        unfold framesSinceSubmission
        rw [framesSinceFrom_append]
        rfl
      rw [hp] at hmem
      rw [hl, hf]
      rcases List.mem_append.mp hmem with hm | hm
      · have hm2 := List.mem_filter.mp hm
        have hne2 : s.fence ≠ app.mCurrentFrame := by simpa using hm2.2
        have hlt := hs.2 s hm2.1
        unfold MAX_FRAMES_IN_FLIGHT at hlt hk hne
        omega
      · rw [List.mem_singleton.mp hm]
        exact ⟨rfl, rfl⟩

theorem gameLoopFrames_reuseDiscipline (iterations : List LoopIteration) (app : App)
    (hk : app.mCurrentFrame < MAX_FRAMES_IN_FLIGHT)
    (hd : fenceDisciplineFrom [] app.trace = true)
    (hs : SlotsDistinct (inFlight app.trace))
    (hr : reuseDisciplineFrom [] none 0 app.trace = true)
    (h1 : OnlyLastOnOtherSlot (inFlight app.trace) (lastSubmission app.trace)
      (framesSinceSubmission app.trace) app.mCurrentFrame) :
    reuseDisciplineFrom [] none 0 (gameLoopFrames iterations app).app.trace = true := by
  induction iterations generalizing app with
  | nil => exact hr
  | cons it rest ih =>
    have hc := (drawFrame_counter it.frame
      { app with framebufferResized := app.framebufferResized || it.resized } hk).1
    obtain ⟨d1, d2⟩ := drawFrame_fenceDiscipline it.frame
      { app with framebufferResized := app.framebufferResized || it.resized } hk hd hs
    obtain ⟨r1, r2⟩ := drawFrame_reuseDiscipline it.frame
      { app with framebufferResized := app.framebufferResized || it.resized } hk hs hr h1
    cases hdf : drawFrame it.frame
        { app with framebufferResized := app.framebufferResized || it.resized } with
    | returned app1 =>
      rw [hdf] at hc d1 d2 r1
      have hstep : gameLoopFrames (it :: rest) app = gameLoopFrames rest app1 := by
        simp only [gameLoopFrames, hdf]
      rw [hstep]
      exact ih app1 hc d1 d2 r1 (r2 app1 hdf)
    | raised what app1 =>
      rw [hdf] at r1
      have hstep : gameLoopFrames (it :: rest) app = .raised what app1 := by
        simp only [gameLoopFrames, hdf]
      rw [hstep]; exact r1
    | waiting app1 =>
      rw [hdf] at r1
      have hstep : gameLoopFrames (it :: rest) app = .waiting app1 := by
        simp only [gameLoopFrames, hdf]
      rw [hstep]; exact r1

/-- In every log the frame loop produces after `initVulkan`, each frame submission and
each uniform write passes the check: what is in flight at that moment is the most
recent submission, made by the immediately preceding frame. -/
theorem frameLoop_reuseDiscipline (routineError : Routine → Option String)
    (surface : SurfaceInput) (iterations : List LoopIteration) (app0 : App)
    (hinit : initVulkan routineError surface initialApp = .returned app0) :
    reuseDisciplineFrom [] none 0 (gameLoopFrames iterations app0).app.trace = true := by
  obtain ⟨i1, i2⟩ := initVulkan_fenceDiscipline routineError surface
  obtain ⟨completed, _, _, i4, i3⟩ := initVulkan_state routineError surface
  rw [hinit] at i1 i2 i3 i4
  have htrace : app0.trace = completed.map (routineEvent surface) := i4
  have hk : app0.mCurrentFrame < MAX_FRAMES_IN_FLIGHT := by
    have : app0.mCurrentFrame = 0 := i3
    rw [this]; decide
  have hq : ∀ e, e ∈ completed.map (routineEvent surface) → e.isRebuild = true := by
    intro e he
    obtain ⟨r, _, rfl⟩ := List.mem_map.mp he
    exact routineEvent_isRebuild _ r
  have hr : reuseDisciplineFrom [] none 0 app0.trace = true := by
    rw [htrace]
    exact reuseDiscipline_quiet _ _ _ _ (isRebuild_reuse_quiet _ hq)
  have hnil : inFlight app0.trace = [] := by
    rw [htrace]
    have hsub := inFlightFrom_sublist [] (completed.map (routineEvent surface))
      (fun e he => (isRebuild_reuse_quiet _ hq e he).1)
    exact List.eq_nil_of_sublist_nil hsub
  have h1 : OnlyLastOnOtherSlot (inFlight app0.trace) (lastSubmission app0.trace)
      (framesSinceSubmission app0.trace) app0.mCurrentFrame := by
    intro s hmem
    rw [hnil] at hmem
    exact absurd hmem (List.not_mem_nil s)
  exact gameLoopFrames_reuseDiscipline iterations app0 hk i1 i2 hr h1

/-- What the check says at a frame submission or uniform write of such a log. -/
theorem frameLoop_reuse_at (routineError : Routine → Option String)
    (surface : SurfaceInput) (iterations : List LoopIteration) (app0 : App)
    (hinit : initVulkan routineError surface initialApp = .returned app0)
    (pre post : List Event) (e : Event)
    (he : e.isSubmit = true ∨ ∃ j, e = .updateUniformBuffer j)
    (hsplit : (gameLoopFrames iterations app0).app.trace = pre ++ e :: post)
    (sub : Submission) (hsub : sub ∈ inFlight pre) :
    lastSubmission pre = some sub ∧ framesSinceSubmission pre = 1 := by
  have hr := frameLoop_reuseDiscipline routineError surface iterations app0 hinit
  rw [hsplit] at hr
  have hok := reuseDiscipline_at [] none 0 pre post _ hr
  have hall : (inFlightFrom [] pre).all
      (fun s => lastSubmissionFrom none pre == some s && framesSinceFrom 0 pre == 1) = true := by
    rcases he with h | ⟨j, h⟩
    · cases e <;> first
        | exact Bool.noConfusion h
        | exact hok
    · rw [h] at hok
      exact hok
  rw [List.all_eq_true] at hall
  have := hall sub hsub
  simpa [lastSubmission, framesSinceSubmission] using this

/-- C17 (counterexample): two successive frames both acquire image 0.  The second
frame, on slot 1, waits on fence 1 and submits command buffer 0 again while the first
submission of command buffer 0, whose fence is fence 0, is still in flight: fence 0
has not been waited on since. -/
theorem commandBuffer_resubmitted_in_flight :
    (gameLoopFrames sameImageFrames readyApp).app.trace =
      (readyApp.trace ++ frameBody 0 0 ++
        [.waitForFences 1, .acquireNextImage 1, .updateUniformBuffer 0, .resetFences 1]) ++
      .queueSubmit 0 1 1 1 :: [.queuePresent 1 0] ∧
    inFlight (readyApp.trace ++ frameBody 0 0 ++
        [.waitForFences 1, .acquireNextImage 1, .updateUniformBuffer 0, .resetFences 1]) =
      [⟨0, 0⟩] := by
  decide

/-- C17 (amended): (1) in every `drawFrame` that submits, the command buffer submitted
is the one of the acquired image index, `mCommandBuffers[imageIndex]`, it is the only
frame submission of the call, and it is made after the call has waited on the fence of
its own slot; (2) in every log the frame loop produces after `initVulkan`, at each
submission of a command buffer every submission still in flight (of that command
buffer or of another) is the most recent earlier submission, it was made by the
immediately preceding frame (one frame, the submitting one, has started since), and it
is attached to the fence of the other slot.  Hence every earlier submission of the
command buffer has been observed signalled, except possibly the one made by the
immediately preceding frame. -/
theorem drawFrame_submit_after_slot_wait :
    (∀ (input : FrameInput) (app : App),
      (input.acquireResult = VK_SUCCESS ∨ input.acquireResult = VK_SUBOPTIMAL_KHR) →
      input.submitResult = VK_SUCCESS →
      ∃ rest, (drawFrame input app).app.trace =
          (app.trace ++ (frameHead app.mCurrentFrame ++
            [.updateUniformBuffer input.imageIndex, .resetFences app.mCurrentFrame])) ++
          .queueSubmit input.imageIndex app.mCurrentFrame app.mCurrentFrame
            app.mCurrentFrame :: rest ∧
        (∀ e, e ∈ rest → e.isSubmit = false)) ∧
    (∀ (routineError : Routine → Option String) (surface : SurfaceInput)
        (iterations : List LoopIteration) (app0 : App),
      initVulkan routineError surface initialApp = .returned app0 →
      ∀ (pre post : List Event) (c w s fence : Nat),
        (gameLoopFrames iterations app0).app.trace = pre ++ .queueSubmit c w s fence :: post →
        ∀ sub, sub ∈ inFlight pre →
          lastSubmission pre = some sub ∧ framesSinceSubmission pre = 1 ∧
            sub.fence ≠ fence) := by
  constructor
  · intro input app hacq hsubmit
    rcases drawFrame_shape input app with ⟨_, _, _, _, h⟩ | ⟨_, _, _, _, h⟩ | ⟨tail, h1, h2, _⟩
    · exact absurd hacq h
    · exact absurd hsubmit h
    · refine ⟨.queuePresent app.mCurrentFrame input.imageIndex :: tail, ?_, ?_⟩
      · rw [h1]; simp [frameBody, frameHead]
      · intro e he
        rcases List.mem_cons.mp he with h | h
        · rw [h]; rfl
        · exact (isRebuild_not_frame_op e (h2 e h)).1
  · intro routineError surface iterations app0 hinit pre post c w s fence hsplit sub hsub
    obtain ⟨hlast, hsince⟩ := frameLoop_reuse_at routineError surface iterations app0 hinit
      pre post (.queueSubmit c w s fence) (Or.inl rfl) hsplit sub hsub
    refine ⟨hlast, hsince, ?_⟩
    obtain ⟨i1, i2⟩ := initVulkan_fenceDiscipline routineError surface
    obtain ⟨_, _, _, _, i3⟩ := initVulkan_state routineError surface
    rw [hinit] at i1 i2 i3
    have hk : app0.mCurrentFrame < MAX_FRAMES_IN_FLIGHT := by
      have : app0.mCurrentFrame = 0 := i3
      rw [this]; decide
    have hd := gameLoopFrames_fenceDiscipline iterations app0 hk i1 i2
    rw [hsplit] at hd
    have hok2 := fenceDiscipline_at [] pre post _ hd
    simp only [fenceStepOk, List.all_eq_true] at hok2
    have := hok2 sub hsub
    simpa using this

/-- Witness for C17 (amended): three frames all acquire image 0.  When the third frame
submits command buffer 0, its submission by the second frame (fence 1) is in flight and
is the most recent one; its submission by the first frame (fence 0) is no longer in
flight. -/
theorem drawFrame_submit_after_slot_wait_witness :
    inFlight (readyApp.trace ++ frameBody 0 0 ++ frameBody 1 0 ++
        [.waitForFences 0, .acquireNextImage 0, .updateUniformBuffer 0, .resetFences 0]) =
      [⟨0, 1⟩] ∧
    lastSubmission (readyApp.trace ++ frameBody 0 0 ++ frameBody 1 0 ++
        [.waitForFences 0, .acquireNextImage 0, .updateUniformBuffer 0, .resetFences 0]) =
      some ⟨0, 1⟩ ∧
    framesSinceSubmission (readyApp.trace ++ frameBody 0 0 ++ frameBody 1 0 ++
        [.waitForFences 0, .acquireNextImage 0, .updateUniformBuffer 0, .resetFences 0]) = 1 ∧
    (⟨0, 1⟩ : Submission).fence ≠ 0 :=
  ⟨by decide,
    drawFrame_submit_after_slot_wait.2 noRoutineError sampleSurface threeSameImageFrames
      readyApp (by decide)
      (readyApp.trace ++ frameBody 0 0 ++ frameBody 1 0 ++
        [.waitForFences 0, .acquireNextImage 0, .updateUniformBuffer 0, .resetFences 0])
      [.queuePresent 0 0] 0 0 0 0 (by decide) ⟨0, 1⟩ (by decide)⟩

/-- C18 (counterexample): two successive frames both acquire image 0.  When the second
frame writes uniform buffer 0, after waiting on fence 1, the first frame, which reads
uniform buffer 0 and signals fence 0, is still in flight. -/
theorem uniformBuffer_written_in_flight :
    (gameLoopFrames sameImageFrames readyApp).app.trace =
      (readyApp.trace ++ frameBody 0 0 ++ [.waitForFences 1, .acquireNextImage 1]) ++
      .updateUniformBuffer 0 ::
        [.resetFences 1, .queueSubmit 0 1 1 1, .queuePresent 1 0] ∧
    (∃ sub, sub ∈ inFlight (readyApp.trace ++ frameBody 0 0 ++
        [.waitForFences 1, .acquireNextImage 1]) ∧ sub.uniformBuffer = 0 ∧ sub.fence = 0) := by
  refine ⟨by decide, ⟨0, 0⟩, by decide, rfl, rfl⟩

/-- C18 (amended): (1) `drawFrame` writes a uniform buffer only after the fence wait
of its slot, the buffer written being that of the acquired image index; (2) in every
log the frame loop produces after `initVulkan`, at each uniform write every frame
still in flight (whichever uniform buffer it reads) is the most recent submission, and
it was made by the immediately preceding frame (one frame, the writing one, has
started since).  Hence no previously submitted frame that reads the written uniform
buffer is still outstanding, except possibly the immediately preceding frame. -/
theorem drawFrame_uniform_write_after_slot_wait :
    (∀ (input : FrameInput) (app : App) (pre post : List Event) (j : Nat),
      (drawFrame input app).app.trace.drop app.trace.length =
        pre ++ .updateUniformBuffer j :: post →
      Event.waitForFences app.mCurrentFrame ∈ pre ∧ j = input.imageIndex) ∧
    (∀ (routineError : Routine → Option String) (surface : SurfaceInput)
        (iterations : List LoopIteration) (app0 : App),
      initVulkan routineError surface initialApp = .returned app0 →
      ∀ (pre post : List Event) (j : Nat),
        (gameLoopFrames iterations app0).app.trace = pre ++ .updateUniformBuffer j :: post →
        ∀ sub, sub ∈ inFlight pre →
          lastSubmission pre = some sub ∧ framesSinceSubmission pre = 1) := by
  constructor
  · intro input app pre post j hsplit
    constructor
    · obtain ⟨more, hm⟩ := drawFrame_head input app
      rw [hm, List.drop_left] at hsplit
      cases pre with
      | nil =>
        simp only [frameHead, List.cons_append, List.nil_append, List.cons.injEq] at hsplit
        exact Event.noConfusion hsplit.1
      | cons x pre1 =>
        simp only [frameHead, List.cons_append, List.nil_append, List.cons.injEq] at hsplit
        rw [← hsplit.1]
        exact List.mem_cons_self _ _
    · have hmem : Event.updateUniformBuffer j ∈
          (drawFrame input app).app.trace.drop app.trace.length := by
        rw [hsplit]; exact List.mem_append_right _ (List.mem_cons_self _ _)
      rcases drawFrame_shape input app with ⟨tail, h1, h2, _⟩ | ⟨h1, _⟩ | ⟨tail, h1, h2, _⟩
      · rw [h1, List.drop_left] at hmem
        rcases List.mem_append.mp hmem with h | h
        · simp [frameHead] at h
        · exact Bool.noConfusion (h2 _ h)
      · rw [h1, List.drop_left] at hmem
        simpa [frameHead] using hmem
      · rw [h1, List.drop_left] at hmem
        rcases List.mem_append.mp hmem with h | h
        · simpa [frameBody] using h
        · exact Bool.noConfusion (h2 _ h)
  · intro routineError surface iterations app0 hinit pre post j hsplit sub hsub
    exact frameLoop_reuse_at routineError surface iterations app0 hinit pre post
      (.updateUniformBuffer j) (Or.inr ⟨j, rfl⟩) hsplit sub hsub

/-- Witness for C18 (amended): three frames all acquire image 0.  When the third frame
writes uniform buffer 0, the second frame, which reads it, is in flight and is the most
recent submission; the first frame, which read it too, is no longer in flight. -/
theorem drawFrame_uniform_write_after_slot_wait_witness :
    inFlight (readyApp.trace ++ frameBody 0 0 ++ frameBody 1 0 ++
        [.waitForFences 0, .acquireNextImage 0]) = [⟨0, 1⟩] ∧
    lastSubmission (readyApp.trace ++ frameBody 0 0 ++ frameBody 1 0 ++
        [.waitForFences 0, .acquireNextImage 0]) = some ⟨0, 1⟩ ∧
    framesSinceSubmission (readyApp.trace ++ frameBody 0 0 ++ frameBody 1 0 ++
        [.waitForFences 0, .acquireNextImage 0]) = 1 :=
  ⟨by decide,
    drawFrame_uniform_write_after_slot_wait.2 noRoutineError sampleSurface
      threeSameImageFrames readyApp (by decide)
      (readyApp.trace ++ frameBody 0 0 ++ frameBody 1 0 ++
        [.waitForFences 0, .acquireNextImage 0])
      [.resetFences 0, .queueSubmit 0 0 0 0, .queuePresent 0 0] 0 (by decide) ⟨0, 1⟩
      (by decide)⟩

/-! ## Extent of the swapchain at build and rebuild -/

theorem chooseSwapExtent_nonzero (capabilities : VkSurfaceCapabilitiesKHR)
    (fbWidth fbHeight : Int)
    (hcur : capabilities.currentExtent.width ≠ UINT32_MAX →
      capabilities.currentExtent.width ≠ 0 ∧ capabilities.currentExtent.height ≠ 0)
    (hmin : capabilities.currentExtent.width = UINT32_MAX →
      capabilities.minImageExtent.width ≠ 0 ∧ capabilities.minImageExtent.height ≠ 0) :
    (chooseSwapExtent capabilities fbWidth fbHeight).width ≠ 0 ∧
      (chooseSwapExtent capabilities fbWidth fbHeight).height ≠ 0 := by
  by_cases hs : capabilities.currentExtent.width = UINT32_MAX
  · rw [chooseSwapExtent_of_sentinel _ _ _ hs]
    obtain ⟨h1, h2⟩ := hmin hs
    constructor
    · show max _ _ ≠ 0
      have := le_max_left capabilities.minImageExtent.width
        (min capabilities.maxImageExtent.width (toUint32 fbWidth))
      omega
    · show max _ _ ≠ 0
      have := le_max_left capabilities.minImageExtent.height
        (min capabilities.maxImageExtent.height (toUint32 fbHeight))
      omega
  · rw [chooseSwapExtent_of_defined _ _ _ hs]
    exact hcur hs

theorem routineEvent_eq_createSwapChain (surface : SurfaceInput) (r : Routine)
    (info : Option VkSwapchainCreateInfoKHR)
    (h : routineEvent surface r = .createSwapChain info) :
    r = .createSwapChain ∧
      info = createSwapChainInfo surface.device surface.fbWidth surface.fbHeight := by
  cases r <;> first
    | exact Event.noConfusion h
    | exact ⟨rfl, by injection h with h1; exact h1.symm⟩

/-- C19 (counterexample): (1) `initVulkan` on a surface whose capabilities report a
0 x 0 current extent returns having created the swapchain with extent 0 x 0, and its
log holds no poll of the window size; (2) `recreateSwapChain` whose poll answers
800 x 600 while the capabilities still report 0 x 0 also creates a 0 x 0 swapchain. -/
theorem swapchain_built_with_zero_extent :
    ((initVulkan noRoutineError minimisedSurface initialApp).isReturned = true ∧
      Event.createSwapChain (createSwapChainInfo minimisedSurface.device 0 0) ∈
        (initVulkan noRoutineError minimisedSurface initialApp).app.trace ∧
      (createSwapChainInfo minimisedSurface.device 0 0).map (fun info => info.imageExtent) =
        some ⟨0, 0⟩ ∧
      (initVulkan noRoutineError minimisedSurface initialApp).app.trace.any Event.isPoll
        = false) ∧
    ((recreateSwapChain lateCapsRebuild readyApp).isReturned = true ∧
      (recreateSwapChain lateCapsRebuild readyApp).app.trace.drop readyApp.trace.length =
        [.getFramebufferSize 800 600, .deviceWaitIdle, .cleanupSwapChain,
         .createSwapChain (createSwapChainInfo lateCapsRebuild.surface.device 800 600)] ++
        (recreateRoutines.drop 1).map (routineEvent lateCapsRebuild.surface) ∧
      (createSwapChainInfo lateCapsRebuild.surface.device 800 600).map
        (fun info => info.imageExtent) = some ⟨0, 0⟩) := by
  decide

/-- C19 (amended): (1) `recreateSwapChain` reaches `createSwapChain` only once a poll
of the window size has answered with both dimensions nonzero, all earlier polls having
answered a zero dimension, and between that poll and `createSwapChain` lie exactly the
device-idle wait and the clean-up; (2) it leaves the polling loop as soon as some
poll answers both dimensions nonzero; (3) `initVulkan` makes no poll of the window size
at all; (4) in either build the extent handed to the swapchain is the one
`chooseSwapExtent` selects from the surface capabilities, and it has nonzero width and
height whenever the reported current extent (if not the sentinel) or `minImageExtent`
(if the current extent is the sentinel) is nonzero in both dimensions. -/
theorem swapchain_extent_on_build :
    (∀ (input : RebuildInput) (app : App) (info : Option VkSwapchainCreateInfoKHR),
      Event.createSwapChain info ∈
        (recreateSwapChain input app).app.trace.drop app.trace.length →
      ∃ pre p rest more, input.polls = pre ++ p :: rest ∧
        (∀ q, q ∈ pre → q.width = 0 ∨ q.height = 0) ∧ p.width ≠ 0 ∧ p.height ≠ 0 ∧
        (recreateSwapChain input app).app.trace.drop app.trace.length =
          (pre ++ [p]).map pollEvent ++
            ([Event.deviceWaitIdle, Event.cleanupSwapChain] ++
              Event.createSwapChain info :: more) ∧
        info = createSwapChainInfo input.surface.device input.surface.fbWidth
          input.surface.fbHeight) ∧
    (∀ (input : RebuildInput) (app : App),
      (∃ q, q ∈ input.polls ∧ q.width ≠ 0 ∧ q.height ≠ 0) →
      ∀ app1, recreateSwapChain input app ≠ .waiting app1) ∧
    (∀ (routineError : Routine → Option String) (surface : SurfaceInput) (e : Event),
      e ∈ (initVulkan routineError surface initialApp).app.trace → e.isPoll = false) ∧
    (∀ (device : PhysicalDeviceInfo) (fbWidth fbHeight : Int),
      device.surfaceFormats ≠ [] →
      (device.capabilities.currentExtent.width ≠ UINT32_MAX →
        device.capabilities.currentExtent.width ≠ 0 ∧
          device.capabilities.currentExtent.height ≠ 0) →
      (device.capabilities.currentExtent.width = UINT32_MAX →
        device.capabilities.minImageExtent.width ≠ 0 ∧
          device.capabilities.minImageExtent.height ≠ 0) →
      ∃ info, createSwapChainInfo device fbWidth fbHeight = some info ∧
        info.imageExtent = chooseSwapExtent device.capabilities fbWidth fbHeight ∧
        info.imageExtent.width ≠ 0 ∧ info.imageExtent.height ≠ 0) := by
  have hdeg : ∀ q : Poll, q.degenerate = true ↔ (q.width = 0 ∨ q.height = 0) := by
    intro q; simp [Poll.degenerate]
  refine ⟨?_, ?_, ?_, ?_⟩
  · intro input app info hmem
    rcases recreateSwapChain_spec input app with
      ⟨app1, h1, _, h3, _⟩ |
      ⟨pre, p, rest, completed, remaining, g1, g2, g3, g4, g5, _⟩
    · rw [h1] at hmem
      have h3' : app1.trace = app.trace ++ input.polls.map pollEvent := h3
      simp only [Outcome.app] at hmem
      rw [h3', List.drop_left] at hmem
      obtain ⟨q, _, hq⟩ := List.mem_map.mp hmem
      exact Event.noConfusion hq
    · rw [g5, List.drop_left] at hmem ⊢
      have hin : Event.createSwapChain info ∈ completed.map (routineEvent input.surface) := by
        rcases List.mem_append.mp hmem with h | h
        · obtain ⟨q, _, hq⟩ := List.mem_map.mp h
          exact Event.noConfusion hq
        · rcases List.mem_append.mp h with h | h
          · rcases List.mem_cons.mp h with h | h
            · exact Event.noConfusion h
            · exact Event.noConfusion (List.mem_singleton.mp h)
          · exact h
      obtain ⟨r, _, hr⟩ := List.mem_map.mp hin
      have hinfo := (routineEvent_eq_createSwapChain input.surface r info hr).2
      cases completed with
      | nil => exact absurd hin (List.not_mem_nil _)
      | cons c cs =>
        have hc : c = Routine.createSwapChain := by
          have := g4
          simp only [recreateRoutines, List.cons_append, List.cons.injEq] at this
          exact this.1.symm
        have hp : p.width ≠ 0 ∧ p.height ≠ 0 := by
          have : ¬ (p.width = 0 ∨ p.height = 0) := by
            rw [← hdeg]; rw [g3]; exact Bool.false_ne_true
          exact ⟨fun h => this (Or.inl h), fun h => this (Or.inr h)⟩
        refine ⟨pre, p, rest, cs.map (routineEvent input.surface), g1,
          fun q hq => (hdeg q).mp (g2 q hq), hp.1, hp.2, ?_, hinfo⟩
        rw [hc, hinfo]
        rfl
  · rintro input app ⟨q, hq, hw, hh⟩ app1 hwait
    rcases recreateSwapChain_spec input app with
      ⟨_, _, h2, _, _⟩ | ⟨_, _, _, _, _, _, _, _, _, _, _, _, g8, _⟩
    · rcases (hdeg q).mp (h2 q hq) with h | h
      · exact hw h
      · exact hh h
    · exact g8 app1 hwait
  · intro routineError surface e he
    obtain ⟨completed, _, _, h2, _⟩ := initVulkan_state routineError surface
    rw [h2] at he
    obtain ⟨r, _, rfl⟩ := List.mem_map.mp he
    cases r <;> rfl
  · intro device fbWidth fbHeight hfmt hcur hmin
    obtain ⟨info, h1, _, h3⟩ := createSwapChainInfo_fields device fbWidth fbHeight hfmt
    have hnz := chooseSwapExtent_nonzero device.capabilities fbWidth fbHeight hcur hmin
    exact ⟨info, h1, h3, by rw [h3]; exact hnz.1, by rw [h3]; exact hnz.2⟩

/-- Witness for C19 (amended): the sample rebuild polls 0 x 0, then 800 x 600, and
only then creates the swapchain, whose extent 800 x 600 is nonzero. -/
theorem swapchain_extent_on_build_witness :
    (∃ pre p rest more, sampleRebuild.polls = pre ++ p :: rest ∧
        (∀ q, q ∈ pre → q.width = 0 ∨ q.height = 0) ∧ p.width ≠ 0 ∧ p.height ≠ 0 ∧
        (recreateSwapChain sampleRebuild readyApp).app.trace.drop readyApp.trace.length =
          (pre ++ [p]).map pollEvent ++
            ([Event.deviceWaitIdle, Event.cleanupSwapChain] ++
              Event.createSwapChain (createSwapChainInfo sampleSurface.device 800 600)
                :: more) ∧
        createSwapChainInfo sampleSurface.device 800 600 =
          createSwapChainInfo sampleRebuild.surface.device sampleRebuild.surface.fbWidth
            sampleRebuild.surface.fbHeight) ∧
    (∃ info, createSwapChainInfo sampleSurface.device 800 600 = some info ∧
        info.imageExtent = chooseSwapExtent sampleSurface.device.capabilities 800 600 ∧
        info.imageExtent.width ≠ 0 ∧ info.imageExtent.height ≠ 0) :=
  ⟨swapchain_extent_on_build.1 sampleRebuild readyApp
      (createSwapChainInfo sampleSurface.device 800 600) (by decide),
   swapchain_extent_on_build.2.2.2 sampleSurface.device 800 600 (by decide)
      (fun h => absurd rfl h) (fun _ => by decide)⟩

/-! ## Clean-up of the swapchain only after a device-idle wait -/

theorem cleanupGuardedFrom_mono (es : List Event) (b : Bool)
    (h : cleanupGuardedFrom false es = true) : cleanupGuardedFrom b es = true := by
  cases es with
  | nil => rfl
  | cons e es =>
    simp only [cleanupGuardedFrom, Bool.and_eq_true, Bool.or_eq_true, Bool.or_false] at h ⊢
    exact ⟨Or.inl h.1, h.2⟩

theorem cleanupGuardedFrom_append (a c : List Event) (b : Bool)
    (ha : cleanupGuardedFrom b a = true) (hc : cleanupGuardedFrom false c = true) :
    cleanupGuardedFrom b (a ++ c) = true := by
  induction a generalizing b with
  | nil => exact cleanupGuardedFrom_mono c b hc
  | cons e es ih =>
    have hcons : (e :: es) ++ c = e :: (es ++ c) := rfl
    rw [hcons]
    simp only [cleanupGuardedFrom, Bool.and_eq_true] at ha ⊢
    exact ⟨ha.1, ih _ ha.2⟩

theorem cleanupGuardedFrom_of_no_cleanup (es : List Event) (b : Bool)
    (h : ∀ e, e ∈ es → e ≠ .cleanupSwapChain) : cleanupGuardedFrom b es = true := by
  induction es generalizing b with
  | nil => rfl
  | cons e es ih =>
    simp only [cleanupGuardedFrom, Bool.and_eq_true, Bool.or_eq_true]
    refine ⟨Or.inl ?_, ih _ (fun x hx => h x (List.mem_cons_of_mem _ hx))⟩
    simpa using h e (List.mem_cons_self _ _)

theorem cleanupGuardedFrom_split (es pre post : List Event) (b : Bool)
    (h : cleanupGuardedFrom b es = true) (hsplit : es = pre ++ .cleanupSwapChain :: post) :
    (pre = [] ∧ b = true) ∨ ∃ before, pre = before ++ [.deviceWaitIdle] := by
  induction pre generalizing es b with
  | nil =>
    left
    rw [hsplit] at h
    simp only [List.nil_append, cleanupGuardedFrom, Bool.and_eq_true, Bool.or_eq_true] at h
    rcases h.1 with h1 | h1
    · simp at h1
    · exact ⟨rfl, h1⟩
  | cons x xs ih =>
    right
    rw [hsplit] at h
    have hcons : (x :: xs) ++ Event.cleanupSwapChain :: post =
        x :: (xs ++ Event.cleanupSwapChain :: post) := rfl
    rw [hcons] at h
    simp only [cleanupGuardedFrom, Bool.and_eq_true] at h
    rcases ih (xs ++ Event.cleanupSwapChain :: post) (x == .deviceWaitIdle) h.2 rfl with
      ⟨hnil, hb⟩ | ⟨before, hbefore⟩
    · refine ⟨[], ?_⟩
      rw [hnil, beq_iff_eq.mp hb]
      rfl
    · exact ⟨x :: before, by rw [hbefore]; rfl⟩

theorem frame_events_no_cleanup (k i : Nat) :
    (∀ e, e ∈ frameHead k → e ≠ .cleanupSwapChain) ∧
    (∀ e, e ∈ frameHead k ++ [.updateUniformBuffer i, .resetFences k] →
      e ≠ .cleanupSwapChain) ∧
    (∀ e, e ∈ frameBody k i → e ≠ .cleanupSwapChain) := by
  refine ⟨?_, ?_, ?_⟩ <;> intro e he hc <;> subst hc <;>
    simp [frameHead, frameBody] at he

theorem recreateSwapChain_guard (input : RebuildInput) (app : App) :
    ∃ tail, (recreateSwapChain input app).app.trace = app.trace ++ tail ∧
      cleanupGuardedFrom false tail = true := by
  have hpoll : ∀ (l : List Poll) (e : Event), e ∈ l.map pollEvent → e ≠ .cleanupSwapChain := by
    intro l e he hc
    obtain ⟨q, _, hq⟩ := List.mem_map.mp he
    rw [hc] at hq
    exact Event.noConfusion hq
  rcases recreateSwapChain_spec input app with
    ⟨app1, h1, _, h3, _⟩ | ⟨pre, p, rest, completed, remaining, _, _, _, _, g5, _⟩
  · exact ⟨_, by rw [h1]; exact h3, cleanupGuardedFrom_of_no_cleanup _ _ (hpoll _)⟩
  · refine ⟨_, g5, cleanupGuardedFrom_append _ _ _
      (cleanupGuardedFrom_of_no_cleanup _ _ (hpoll _)) ?_⟩
    have hr : cleanupGuardedFrom false (completed.map (routineEvent input.surface)) = true := by
      apply cleanupGuardedFrom_of_no_cleanup
      intro e he hc
      obtain ⟨r, _, hq⟩ := List.mem_map.mp he
      rw [hc] at hq
      cases r <;> exact Event.noConfusion hq
    show cleanupGuardedFrom false (Event.deviceWaitIdle :: Event.cleanupSwapChain ::
      completed.map (routineEvent input.surface)) = true
    simp only [cleanupGuardedFrom, Bool.and_eq_true, Bool.or_eq_true]
    exact ⟨Or.inl (by decide), Or.inr (by decide), by simpa using hr⟩

theorem drawFrame_guard (input : FrameInput) (app : App)
    (h : cleanupGuardedFrom false app.trace = true) :
    cleanupGuardedFrom false (drawFrame input app).app.trace = true := by
  obtain ⟨n1, n2, n3⟩ := frame_events_no_cleanup app.mCurrentFrame input.imageIndex
  by_cases hacq : input.acquireResult = VK_SUCCESS ∨ input.acquireResult = VK_SUBOPTIMAL_KHR
  · by_cases hs : input.submitResult = VK_SUCCESS
    · have hbody : cleanupGuardedFrom false (app.afterPresent input.imageIndex).trace = true := by
        rw [afterPresent_trace]
        exact cleanupGuardedFrom_append _ _ _ h (cleanupGuardedFrom_of_no_cleanup _ _ n3)
      rw [drawFrame_of_submitted input app hacq hs, advanceFrame_trace]
      by_cases h1 : (input.presentResult == VK_ERROR_OUT_OF_DATE_KHR ||
          input.presentResult == VK_SUBOPTIMAL_KHR || app.framebufferResized) = true
      · rw [if_pos h1]
        obtain ⟨tail, t1, t2⟩ := recreateSwapChain_guard input.rebuild
          { app.afterPresent input.imageIndex with framebufferResized := false }
        rw [t1]
        exact cleanupGuardedFrom_append _ _ _ hbody t2
      · rw [if_neg h1]
        by_cases h2 : (input.presentResult != VK_SUCCESS) = true
        · rw [if_pos h2]; exact hbody
        · rw [if_neg h2]; exact hbody
    · rw [drawFrame_of_submit_error input app hacq hs]
      show cleanupGuardedFrom false (app.afterReset input.imageIndex).trace = true
      rw [afterReset_trace]
      exact cleanupGuardedFrom_append _ _ _ h (cleanupGuardedFrom_of_no_cleanup _ _ n2)
  · have hhead : cleanupGuardedFrom false app.afterAcquire.trace = true := by
      rw [afterAcquire_trace]
      exact cleanupGuardedFrom_append _ _ _ h (cleanupGuardedFrom_of_no_cleanup _ _ n1)
    have h2 : input.acquireResult ≠ VK_SUCCESS := fun h => hacq (Or.inl h)
    have h3 : input.acquireResult ≠ VK_SUBOPTIMAL_KHR := fun h => hacq (Or.inr h)
    by_cases h1 : input.acquireResult = VK_ERROR_OUT_OF_DATE_KHR
    · rw [drawFrame_of_stale_acquire input app h1]
      obtain ⟨tail, t1, t2⟩ := recreateSwapChain_guard input.rebuild app.afterAcquire
      rw [t1]
      exact cleanupGuardedFrom_append _ _ _ hhead t2
    · rw [drawFrame_of_acquire_error input app h1 h2 h3]
      exact hhead

theorem gameLoopFrames_guard (iterations : List LoopIteration) (app : App)
    (h : cleanupGuardedFrom false app.trace = true) :
    cleanupGuardedFrom false (gameLoopFrames iterations app).app.trace = true := by
  induction iterations generalizing app with
  | nil => exact h
  | cons it rest ih =>
    have hd := drawFrame_guard it.frame
      { app with framebufferResized := app.framebufferResized || it.resized } h
    cases hdf : drawFrame it.frame
        { app with framebufferResized := app.framebufferResized || it.resized } with
    | returned app1 =>
      rw [hdf] at hd
      have hstep : gameLoopFrames (it :: rest) app = gameLoopFrames rest app1 := by
        simp only [gameLoopFrames, hdf]
      rw [hstep]; exact ih app1 hd
    | raised what app1 =>
      rw [hdf] at hd
      have hstep : gameLoopFrames (it :: rest) app = .raised what app1 := by
        simp only [gameLoopFrames, hdf]
      rw [hstep]; exact hd
    | waiting app1 =>
      rw [hdf] at hd
      have hstep : gameLoopFrames (it :: rest) app = .waiting app1 := by
        simp only [gameLoopFrames, hdf]
      rw [hstep]; exact hd

theorem initVulkan_guard (routineError : Routine → Option String) (surface : SurfaceInput) :
    cleanupGuardedFrom false (initVulkan routineError surface initialApp).app.trace = true := by
  obtain ⟨completed, _, _, h2, _⟩ := initVulkan_state routineError surface
  rw [h2]
  apply cleanupGuardedFrom_of_no_cleanup
  intro e he hc
  obtain ⟨r, _, hq⟩ := List.mem_map.mp he
  rw [hc] at hq
  cases r <;> exact Event.noConfusion hq

/-- The log of a whole run, in each of the ways `run` can be left. -/
theorem run_trace (input : RunInput) :
    cleanupGuardedFrom false (run input).app.trace = true ∧
    (∀ app, run input = .returned app →
      ∃ before, app.trace =
        before ++ [.deviceWaitIdle, .cleanupSwapChain, .teardown]) := by
  have hinit := initVulkan_guard input.initError input.initSurface
  cases hi : initVulkan input.initError input.initSurface initialApp with
  | returned app1 =>
    rw [hi] at hinit
    have hloop := gameLoopFrames_guard input.iterations app1 hinit
    cases hl : gameLoopFrames input.iterations app1 with
    | returned app2 =>
      rw [hl] at hloop
      have hrun : run input = .returned
          (((app2.log .deviceWaitIdle).log .cleanupSwapChain).log .teardown) := by
        simp only [run, hi, gameLoop, hl, cleanApp]
      have htrace : (((app2.log .deviceWaitIdle).log .cleanupSwapChain).log .teardown).trace =
          app2.trace ++ [.deviceWaitIdle, .cleanupSwapChain, .teardown] := by
        simp [App.log]
      rw [hrun]
      refine ⟨?_, ?_⟩
      · show cleanupGuardedFrom false
          (((app2.log .deviceWaitIdle).log .cleanupSwapChain).log .teardown).trace = true
        rw [htrace]
        exact cleanupGuardedFrom_append _ _ _ hloop (by decide)
      · intro app happ
        injection happ with happ
        exact ⟨app2.trace, by rw [← happ, htrace]⟩
    | raised what app2 =>
      rw [hl] at hloop
      have hrun : run input = .raised what app2 := by
        simp only [run, hi, gameLoop, hl]
      rw [hrun]
      exact ⟨hloop, fun app happ => Outcome.noConfusion happ⟩
    | waiting app2 =>
      rw [hl] at hloop
      have hrun : run input = .waiting app2 := by
        simp only [run, hi, gameLoop, hl]
      rw [hrun]
      exact ⟨hloop, fun app happ => Outcome.noConfusion happ⟩
  | raised what app1 =>
    rw [hi] at hinit
    have hrun : run input = .raised what app1 := by
      simp only [run, hi]
    rw [hrun]
    exact ⟨hinit, fun app happ => Outcome.noConfusion happ⟩
  | waiting app1 =>
    rw [hi] at hinit
    have hrun : run input = .waiting app1 := by
      simp only [run, hi]
    rw [hrun]
    exact ⟨hinit, fun app happ => Outcome.noConfusion happ⟩

/-- C20: in every run, however it ends, each `cleanupSwapChain` in the log is directly
preceded by a `vkDeviceWaitIdle`, with no call (hence no queue submission) between
them; this covers the clean-up inside every rebuild, and a run that does not raise
ends with the device-idle wait of `gameLoop`, the clean-up of `cleanApp` and the rest
of the teardown, in this order. -/
theorem cleanup_directly_after_device_idle (input : RunInput) :
    (∀ pre post, (run input).app.trace = pre ++ .cleanupSwapChain :: post →
      ∃ before, pre = before ++ [.deviceWaitIdle]) ∧
    (∀ app, run input = .returned app →
      ∃ before, app.trace =
        before ++ [.deviceWaitIdle, .cleanupSwapChain, .teardown]) := by
  obtain ⟨h1, h2⟩ := run_trace input
  refine ⟨fun pre post hsplit => ?_, h2⟩
  rcases cleanupGuardedFrom_split _ pre post false h1 hsplit with ⟨_, hb⟩ | h
  · exact Bool.noConfusion hb
  · exact h

/-- Witness for C20: in the sample run (one stale frame, then the window is closed)
the clean-up of the rebuild is the 32nd call and the call before it is the device-idle
wait; the run ends with device-idle wait, clean-up, teardown. -/
theorem cleanup_directly_after_device_idle_witness :
    (∃ before, (run sampleRun).app.trace.take 31 = before ++ [.deviceWaitIdle]) ∧
    (∃ before, (run sampleRun).app.trace =
        before ++ [.deviceWaitIdle, .cleanupSwapChain, .teardown]) :=
  ⟨(cleanup_directly_after_device_idle sampleRun).1 ((run sampleRun).app.trace.take 31)
      ((run sampleRun).app.trace.drop 32) (by decide),
   (cleanup_directly_after_device_idle sampleRun).2 (run sampleRun).app (by decide)⟩

/-! ## Sample counts and presentation modes the device does not report -/

/-- C26 (evaluation at the failing input): the colour mask `1 | 4` and the depth mask
`1 | 2` both include the 1-sample bit; `getMaxUsableSampleCount` takes the numeric
minimum 3 of the two masks and returns 2 samples, a count whose bit is set in the depth
mask and not in the colour mask. -/
theorem getMaxUsableSampleCount_not_in_colour_mask :
    mixedSampleDevice.framebufferColorSampleCounts &&& 1 ≠ 0 ∧
    mixedSampleDevice.framebufferDepthSampleCounts &&& 1 ≠ 0 ∧
    getMaxUsableSampleCount mixedSampleDevice = 2 ∧
    mixedSampleDevice.framebufferDepthSampleCounts &&&
      getMaxUsableSampleCount mixedSampleDevice ≠ 0 ∧
    mixedSampleDevice.framebufferColorSampleCounts &&&
      getMaxUsableSampleCount mixedSampleDevice = 0 := by
  decide

/-- C27 (evaluation at the failing inputs): for a device reporting two surface formats
and the single presentation mode FIFO, `querySwapChainSupport` returns the formats as
reported but a two-entry `mPresentModes`, FIFO followed by a zero-filled slot that
reads as IMMEDIATE, and `createSwapChain` asks for IMMEDIATE, which is neither FIFO nor
a mode the device reports.  For a device reporting one format and the modes FIFO and
MAILBOX, the returned list is cut to its first entry. -/
theorem querySwapChainSupport_modes_not_as_reported :
    twoFormatDevice.presentModes = [VK_PRESENT_MODE_FIFO_KHR] ∧
    (querySwapChainSupport twoFormatDevice).mFormats = twoFormatDevice.surfaceFormats ∧
    (querySwapChainSupport twoFormatDevice).mPresentModes =
      [VK_PRESENT_MODE_FIFO_KHR, VK_PRESENT_MODE_IMMEDIATE_KHR] ∧
    (createSwapChainInfo twoFormatDevice 800 600).map (fun info => info.presentMode) =
      some VK_PRESENT_MODE_IMMEDIATE_KHR ∧
    VK_PRESENT_MODE_IMMEDIATE_KHR ≠ VK_PRESENT_MODE_FIFO_KHR ∧
    VK_PRESENT_MODE_IMMEDIATE_KHR ∉ twoFormatDevice.presentModes ∧
    (querySwapChainSupport (sampleDevice capsSentinel
        [VK_PRESENT_MODE_FIFO_KHR, VK_PRESENT_MODE_MAILBOX_KHR])).mPresentModes =
      [VK_PRESENT_MODE_FIFO_KHR] := by
  decide

/-! ## Fences at the start of a frame -/

theorem fenceArmedFrom_append (fence : Nat) (armed : Bool) (a b : List Event) :
    fenceArmedFrom fence armed (a ++ b) =
      fenceArmedFrom fence (fenceArmedFrom fence armed a) b := by
  simp [fenceArmedFrom, List.foldl_append]

theorem fenceArmedStep_of_isRebuild (fence : Nat) (e : Event) (h : e.isRebuild = true) :
    fenceArmedStep fence true e = true ∨
      fenceArmedStep fence true e = decide (fence < MAX_FRAMES_IN_FLIGHT) := by
  cases e with
  | call r => cases r <;> first | exact Or.inr rfl | exact Or.inl rfl
  | getFramebufferSize w h => exact Or.inl rfl
  | deviceWaitIdle => exact Or.inl rfl
  | cleanupSwapChain => exact Or.inl rfl
  | createSwapChain info => exact Or.inl rfl
  | waitForFences f => exact Bool.noConfusion h
  | acquireNextImage s => exact Bool.noConfusion h
  | updateUniformBuffer i => exact Bool.noConfusion h
  | resetFences f => exact Bool.noConfusion h
  | queueSubmit c w s f => exact Bool.noConfusion h
  | queuePresent w i => exact Bool.noConfusion h
  | teardown => exact Bool.noConfusion h

/-- The calls of `recreateSwapChain` leave an armed fence of a frame slot armed. -/
theorem fenceArmedFrom_rebuild (fence : Nat) (hf : fence < MAX_FRAMES_IN_FLIGHT)
    (tail : List Event) (h : ∀ e, e ∈ tail → e.isRebuild = true) :
    fenceArmedFrom fence true tail = true := by
  induction tail with
  | nil => rfl
  | cons e es ih =>
    have hstep : fenceArmedStep fence true e = true := by
      rcases fenceArmedStep_of_isRebuild fence e (h e (List.mem_cons_self _ _)) with h1 | h1
      · exact h1
      · rw [h1]; exact decide_eq_true hf
    show fenceArmedFrom fence (fenceArmedStep fence true e) es = true
    rw [hstep]
    exact ih (fun x hx => h x (List.mem_cons_of_mem _ hx))

theorem fenceArmedFrom_frameHead (fence slot : Nat) (armed : Bool) :
    fenceArmedFrom fence armed (frameHead slot) = armed := rfl

/-- A frame that reaches presentation leaves every fence armed that was armed, and
leaves the fence of its own slot armed in any case: the reset is followed by the
submission. -/
theorem fenceArmedFrom_frameBody (fence slot imageIndex : Nat) (armed : Bool) :
    fenceArmedFrom fence armed (frameBody slot imageIndex) =
      (if slot = fence then true else armed) := by
  by_cases h : slot = fence
  · simp [fenceArmedFrom, frameBody, fenceArmedStep, h]
  · simp [fenceArmedFrom, frameBody, fenceArmedStep, h]

theorem drawFrame_keeps_fences_armed (input : FrameInput) (app app1 : App) (fence : Nat)
    (hf : fence < MAX_FRAMES_IN_FLIGHT) (hret : drawFrame input app = .returned app1)
    (harmed : fenceArmed app.trace fence = true) :
    fenceArmed app1.trace fence = true := by
  have hr : (drawFrame input app).isReturned = true := by rw [hret]; rfl
  have happ : (drawFrame input app).app = app1 := by rw [hret]; rfl
  rcases drawFrame_shape input app with ⟨tail, h1, h2, _⟩ | ⟨_, _, h3, _⟩ | ⟨tail, h1, h2, _⟩
  · rw [happ] at h1
    unfold fenceArmed at harmed ⊢
    rw [h1, fenceArmedFrom_append, fenceArmedFrom_append, harmed, fenceArmedFrom_frameHead]
    exact fenceArmedFrom_rebuild fence hf tail h2
  · rw [hr] at h3
    exact Bool.noConfusion h3
  · rw [happ] at h1
    unfold fenceArmed at harmed ⊢
    rw [h1, fenceArmedFrom_append, fenceArmedFrom_append, harmed, fenceArmedFrom_frameBody]
    simp only [ite_self]
    exact fenceArmedFrom_rebuild fence hf tail h2

theorem gameLoopFrames_keeps_fences_armed (iterations : List LoopIteration)
    (app app1 : App) (fence : Nat) (hf : fence < MAX_FRAMES_IN_FLIGHT)
    (hret : gameLoopFrames iterations app = .returned app1)
    (harmed : fenceArmed app.trace fence = true) :
    fenceArmed app1.trace fence = true := by
  induction iterations generalizing app with
  | nil =>
    simp only [gameLoopFrames, Outcome.returned.injEq] at hret
    rw [← hret]; exact harmed
  | cons it rest ih =>
    cases hdf : drawFrame it.frame
        { app with framebufferResized := app.framebufferResized || it.resized } with
    | returned app2 =>
      have hstep : gameLoopFrames (it :: rest) app = gameLoopFrames rest app2 := by
        simp only [gameLoopFrames, hdf]
      rw [hstep] at hret
      exact ih app2 hret (drawFrame_keeps_fences_armed it.frame _ app2 fence hf hdf harmed)
    | raised what app2 =>
      have hstep : gameLoopFrames (it :: rest) app = .raised what app2 := by
        simp only [gameLoopFrames, hdf]
      rw [hstep] at hret
      exact Outcome.noConfusion hret
    | waiting app2 =>
      have hstep : gameLoopFrames (it :: rest) app = .waiting app2 := by
        simp only [gameLoopFrames, hdf]
      rw [hstep] at hret
      exact Outcome.noConfusion hret

/-- After a completed `initVulkan` the log is that of all its routines, the last of
which is `createSyncObjects`: the fences of both frame slots are armed. -/
theorem initVulkan_fences_armed (routineError : Routine → Option String)
    (surface : SurfaceInput) (app0 : App) (fence : Nat)
    (hf : fence < MAX_FRAMES_IN_FLIGHT)
    (hinit : initVulkan routineError surface initialApp = .returned app0) :
    fenceArmed app0.trace fence = true := by
  obtain ⟨completed, rest, h1, h2, _, _, h5, _⟩ :=
    runRoutines_trace routineError surface initRoutines initialApp
  have hrest : rest = [] := h5 app0 hinit
  rw [hrest, List.append_nil] at h1
  have htrace : app0.trace = initRoutines.map (routineEvent surface) := by
    have : (initVulkan routineError surface initialApp).app.trace =
        initialApp.trace ++ completed.map (routineEvent surface) := h2
    rw [hinit] at this
    rw [h1]
    exact this
  rw [htrace]
  simp [fenceArmed, fenceArmedFrom, initRoutines, routineEvent, fenceArmedStep, hf]

/-- C30: (1) when `initVulkan` has completed, the fences of both frame slots are
armed (created signalled); (2) a `drawFrame` call that returns normally leaves every
slot fence armed that was armed when it started, whatever its inputs: on the stale
acquisition path it returns without any `vkResetFences`, and on the path that resets
the fence the submission that signals it follows before the return; (3) hence at the
start of every `drawFrame` call of the game loop, that is, after `initVulkan` and any
number of `drawFrame` calls that returned, `mCurrentFrame` is a frame slot and its
fence is armed: signalled, or attached to a submitted batch that signals it. -/
theorem fence_armed_at_frame_start :
    (∀ (routineError : Routine → Option String) (surface : SurfaceInput) (app0 : App),
      initVulkan routineError surface initialApp = .returned app0 →
      ∀ fence, fence < MAX_FRAMES_IN_FLIGHT → fenceArmed app0.trace fence = true) ∧
    (∀ (input : FrameInput) (app app1 : App), drawFrame input app = .returned app1 →
      (∀ fence, fence < MAX_FRAMES_IN_FLIGHT → fenceArmed app.trace fence = true →
        fenceArmed app1.trace fence = true) ∧
      (input.acquireResult = VK_ERROR_OUT_OF_DATE_KHR →
        ∀ fence, Event.resetFences fence ∉ app1.trace.drop app.trace.length)) ∧
    (∀ (routineError : Routine → Option String) (surface : SurfaceInput)
        (iterations : List LoopIteration) (app0 app1 : App),
      initVulkan routineError surface initialApp = .returned app0 →
      gameLoopFrames iterations app0 = .returned app1 →
      app1.mCurrentFrame < MAX_FRAMES_IN_FLIGHT ∧
        fenceArmed app1.trace app1.mCurrentFrame = true) := by
  refine ⟨?_, ?_, ?_⟩
  · intro routineError surface app0 hinit fence hf
    exact initVulkan_fences_armed routineError surface app0 fence hf hinit
  · intro input app app1 hret
    refine ⟨fun fence hf harmed =>
      drawFrame_keeps_fences_armed input app app1 fence hf hret harmed, ?_⟩
    intro hstale fence hmem
    rw [drawFrame_of_stale_acquire input app hstale] at hret
    obtain ⟨tail, t1, t2, _⟩ := recreateSwapChain_tail input.rebuild app.afterAcquire
    rw [hret] at t1
    have t1a : app1.trace = app.afterAcquire.trace ++ tail := t1
    rw [t1a, afterAcquire_trace, List.append_assoc, List.drop_left] at hmem
    rcases List.mem_append.mp hmem with h | h
    · simp [frameHead] at h
    · exact (isRebuild_not_frame_op _ (t2 _ h)).2.2 fence rfl
  · intro routineError surface iterations app0 app1 hinit hloop
    obtain ⟨_, _, _, _, i3⟩ := initVulkan_state routineError surface
    rw [hinit] at i3
    have hk0 : app0.mCurrentFrame < MAX_FRAMES_IN_FLIGHT := by
      have : app0.mCurrentFrame = 0 := i3
      rw [this]; decide
    have hk := (gameLoopFrames_counter iterations app0 hk0).1
    rw [hloop] at hk
    have hk1 : app1.mCurrentFrame < MAX_FRAMES_IN_FLIGHT := hk
    exact ⟨hk1, gameLoopFrames_keeps_fences_armed iterations app0 app1 _ hk1 hloop
      (initVulkan_fences_armed routineError surface app0 _ hk1 hinit)⟩

/-- Witness for C30: after initialisation, a stale acquisition and a drawn frame, the
next `drawFrame` starts on slot 1, whose fence is still in its created, signalled
state. -/
theorem fence_armed_at_frame_start_witness :
    initVulkan noRoutineError sampleSurface initialApp = .returned readyApp ∧
    gameLoopFrames staleThenDrawn readyApp =
      .returned (gameLoopFrames staleThenDrawn readyApp).app ∧
    (gameLoopFrames staleThenDrawn readyApp).app.mCurrentFrame = 1 ∧
    fenceArmed (gameLoopFrames staleThenDrawn readyApp).app.trace
      (gameLoopFrames staleThenDrawn readyApp).app.mCurrentFrame = true :=
  ⟨by decide, by decide, by decide,
    (fence_armed_at_frame_start.2.2 noRoutineError sampleSurface staleThenDrawn readyApp
      (gameLoopFrames staleThenDrawn readyApp).app (by decide) (by decide)).2⟩

/-! ## Fatal errors and teardown -/

theorem getLast?_append_singleton_ne (l : List Event) (e x : Event) (h : e ≠ x) :
    (l ++ [e]).getLast? ≠ some x := by
  rw [List.getLast?_append, List.getLast?_singleton]
  simpa using h

theorem routineEvent_ne_teardown (surface : SurfaceInput) (r : Routine) :
    routineEvent surface r ≠ .teardown ∧ routineEvent surface r ≠ .deviceWaitIdle := by
  cases r <;> exact ⟨fun h => Event.noConfusion h, fun h => Event.noConfusion h⟩

/-- Routines stopped by an exception leave a log without teardown, if the log had none
before and did not end in a device-idle wait. -/
theorem runRoutines_raised_noTeardown (routineError : Routine → Option String)
    (surface : SurfaceInput) (routines : List Routine) (app app1 : App) (what : String)
    (h : runRoutines routineError surface routines app = .raised what app1)
    (hn : NoTeardown app.trace) : NoTeardown app1.trace := by
  induction routines generalizing app with
  | nil => simp [runRoutines] at h
  | cons r rs ih =>
    cases he : routineError r with
    | some w =>
      simp only [runRoutines, he, Outcome.raised.injEq] at h
      rw [← h.2]; exact hn
    | none =>
      simp only [runRoutines, he] at h
      refine ih (app.log (routineEvent surface r)) h ⟨?_, ?_⟩
      · intro hmem
        rcases List.mem_append.mp hmem with h1 | h1
        · exact hn.1 h1
        · exact (routineEvent_ne_teardown surface r).1 (List.mem_singleton.mp h1).symm
      · exact getLast?_append_singleton_ne _ _ _ (routineEvent_ne_teardown surface r).2

theorem recreatePollLoop_not_raised (polls : List Poll) (app app1 : App) (what : String) :
    recreatePollLoop polls app ≠ .raised what app1 := by
  induction polls generalizing app with
  | nil => intro h; exact Outcome.noConfusion h
  | cons p ps ih =>
    intro h
    simp only [recreatePollLoop] at h
    split at h
    · exact ih _ h
    · exact Outcome.noConfusion h

theorem recreatePollLoop_no_teardown (polls : List Poll) (app : App)
    (hn : Event.teardown ∉ app.trace) :
    Event.teardown ∉ (recreatePollLoop polls app).app.trace := by
  rcases recreatePollLoop_spec polls app with
    ⟨app1, pre, p, rest, h1, _, _, _, h5, _⟩ | ⟨app1, h1, _, h3, _⟩
  · rw [h1]
    show Event.teardown ∉ app1.trace
    rw [h5]
    intro hmem
    rcases List.mem_append.mp hmem with h | h
    · exact hn h
    · obtain ⟨q, _, hq⟩ := List.mem_map.mp h
      exact Event.noConfusion hq
  · rw [h1]
    show Event.teardown ∉ app1.trace
    rw [h3]
    intro hmem
    rcases List.mem_append.mp hmem with h | h
    · exact hn h
    · obtain ⟨q, _, hq⟩ := List.mem_map.mp h
      exact Event.noConfusion hq

theorem recreateSwapChain_raised_noTeardown (input : RebuildInput) (app app1 : App)
    (what : String) (h : recreateSwapChain input app = .raised what app1)
    (hn : Event.teardown ∉ app.trace) : NoTeardown app1.trace := by
  have hpoll := recreatePollLoop_no_teardown input.polls app hn
  cases hp : recreatePollLoop input.polls app with
  | returned app2 =>
    rw [hp] at hpoll
    have hpoll2 : Event.teardown ∉ app2.trace := hpoll
    simp only [recreateSwapChain, hp] at h
    refine runRoutines_raised_noTeardown _ _ _ _ app1 what h ⟨?_, ?_⟩
    · intro hmem
      simp only [App.log, List.mem_append, List.mem_singleton] at hmem
      rcases hmem with (h1 | h1) | h1
      · exact hpoll2 h1
      · exact Event.noConfusion h1
      · exact Event.noConfusion h1
    · exact getLast?_append_singleton_ne _ _ _ (fun h => Event.noConfusion h)
  | raised w app2 => exact absurd hp (recreatePollLoop_not_raised _ _ _ _)
  | waiting app2 =>
    simp only [recreateSwapChain, hp] at h
    exact Outcome.noConfusion h

theorem drawFrame_no_teardown (input : FrameInput) (app : App)
    (hn : Event.teardown ∉ app.trace) :
    Event.teardown ∉ (drawFrame input app).app.trace := by
  have hrb : ∀ tail : List Event, (∀ e, e ∈ tail → e.isRebuild = true) →
      Event.teardown ∉ tail := fun tail h hmem => Bool.noConfusion (h _ hmem)
  rcases drawFrame_shape input app with ⟨tail, h1, h2, _⟩ | ⟨h1, _⟩ | ⟨tail, h1, h2, _⟩
  · rw [h1]
    intro hmem
    rcases List.mem_append.mp hmem with h | h
    · exact hn h
    · rcases List.mem_append.mp h with h | h
      · simp [frameHead] at h
      · exact hrb tail h2 h
  · rw [h1]
    intro hmem
    rcases List.mem_append.mp hmem with h | h
    · exact hn h
    · simp [frameHead] at h
  · rw [h1]
    intro hmem
    rcases List.mem_append.mp hmem with h | h
    · exact hn h
    · rcases List.mem_append.mp h with h | h
      · simp [frameBody] at h
      · exact hrb tail h2 h

theorem afterAcquire_no_teardown (app : App) (hn : Event.teardown ∉ app.trace) :
    Event.teardown ∉ app.afterAcquire.trace := by
  rw [afterAcquire_trace]
  intro hmem
  rcases List.mem_append.mp hmem with h | h
  · exact hn h
  · simp [frameHead] at h

theorem afterPresent_no_teardown (app : App) (i : Nat) (hn : Event.teardown ∉ app.trace) :
    Event.teardown ∉ (app.afterPresent i).trace := by
  rw [afterPresent_trace]
  intro hmem
  rcases List.mem_append.mp hmem with h | h
  · exact hn h
  · simp [frameBody] at h

theorem advanceFrame_raised (o : Outcome) (what : String) (app1 : App)
    (h : advanceFrame o = .raised what app1) : o = .raised what app1 := by
  cases o with
  | returned a => exact Outcome.noConfusion h
  | raised w a => exact h
  | waiting a => exact Outcome.noConfusion h

/-- A `drawFrame` call that throws leaves a log without teardown. -/
theorem drawFrame_raised_noTeardown (input : FrameInput) (app app1 : App) (what : String)
    (h : drawFrame input app = .raised what app1) (hn : Event.teardown ∉ app.trace) :
    NoTeardown app1.trace := by
  have hall := drawFrame_no_teardown input app hn
  rw [h] at hall
  have hno : Event.teardown ∉ app1.trace := hall
  by_cases hacq : input.acquireResult = VK_SUCCESS ∨ input.acquireResult = VK_SUBOPTIMAL_KHR
  · by_cases hs : input.submitResult = VK_SUCCESS
    · rw [drawFrame_of_submitted input app hacq hs] at h
      have h2 := advanceFrame_raised _ _ _ h
      split at h2
      · exact recreateSwapChain_raised_noTeardown _ _ app1 what h2
          (afterPresent_no_teardown app input.imageIndex hn)
      · split at h2
        · simp only [Outcome.raised.injEq] at h2
          refine ⟨hno, ?_⟩
          rw [← h2.2, afterPresent_trace]
          show (app.trace ++ ([Event.waitForFences app.mCurrentFrame,
            Event.acquireNextImage app.mCurrentFrame,
            Event.updateUniformBuffer input.imageIndex,
            Event.resetFences app.mCurrentFrame,
            Event.queueSubmit input.imageIndex app.mCurrentFrame app.mCurrentFrame
              app.mCurrentFrame] ++
            [Event.queuePresent app.mCurrentFrame input.imageIndex])).getLast? ≠ _
          rw [← List.append_assoc]
          exact getLast?_append_singleton_ne _ _ _ (fun h => Event.noConfusion h)
        · exact Outcome.noConfusion h2
    · rw [drawFrame_of_submit_error input app hacq hs] at h
      simp only [Outcome.raised.injEq] at h
      refine ⟨hno, ?_⟩
      rw [← h.2, afterReset_trace]
      show (app.trace ++ ([Event.waitForFences app.mCurrentFrame,
        Event.acquireNextImage app.mCurrentFrame,
        Event.updateUniformBuffer input.imageIndex] ++
        [Event.resetFences app.mCurrentFrame])).getLast? ≠ _
      rw [← List.append_assoc]
      exact getLast?_append_singleton_ne _ _ _ (fun h => Event.noConfusion h)
  · have h2 : input.acquireResult ≠ VK_SUCCESS := fun h => hacq (Or.inl h)
    have h3 : input.acquireResult ≠ VK_SUBOPTIMAL_KHR := fun h => hacq (Or.inr h)
    by_cases h1 : input.acquireResult = VK_ERROR_OUT_OF_DATE_KHR
    · rw [drawFrame_of_stale_acquire input app h1] at h
      exact recreateSwapChain_raised_noTeardown _ _ app1 what h
        (afterAcquire_no_teardown app hn)
    · rw [drawFrame_of_acquire_error input app h1 h2 h3] at h
      simp only [Outcome.raised.injEq] at h
      refine ⟨hno, ?_⟩
      rw [← h.2, afterAcquire_trace]
      show (app.trace ++ ([Event.waitForFences app.mCurrentFrame] ++
        [Event.acquireNextImage app.mCurrentFrame])).getLast? ≠ _
      rw [← List.append_assoc]
      exact getLast?_append_singleton_ne _ _ _ (fun h => Event.noConfusion h)

theorem gameLoopFrames_raised_noTeardown (iterations : List LoopIteration)
    (app app1 : App) (what : String)
    (h : gameLoopFrames iterations app = .raised what app1)
    (hn : Event.teardown ∉ app.trace) : NoTeardown app1.trace := by
  induction iterations generalizing app with
  | nil => simp [gameLoopFrames] at h
  | cons it rest ih =>
    have hd := drawFrame_no_teardown it.frame
      { app with framebufferResized := app.framebufferResized || it.resized } hn
    cases hdf : drawFrame it.frame
        { app with framebufferResized := app.framebufferResized || it.resized } with
    | returned app2 =>
      rw [hdf] at hd
      simp only [gameLoopFrames, hdf] at h
      exact ih app2 h hd
    | raised w app2 =>
      simp only [gameLoopFrames, hdf, Outcome.raised.injEq] at h
      rw [← h.2]
      exact drawFrame_raised_noTeardown it.frame _ app2 w hdf hn
    | waiting app2 =>
      simp only [gameLoopFrames, hdf] at h
      exact Outcome.noConfusion h

theorem initVulkan_no_teardown (routineError : Routine → Option String)
    (surface : SurfaceInput) :
    Event.teardown ∉ (initVulkan routineError surface initialApp).app.trace := by
  obtain ⟨completed, _, _, h2, _⟩ := initVulkan_state routineError surface
  rw [h2]
  intro hmem
  obtain ⟨r, _, hr⟩ := List.mem_map.mp hmem
  exact (routineEvent_ne_teardown surface r).1 hr

/-- C25 (what the code does on a fatal error): when `run` is left by an exception, the
exception came out of `initVulkan` or out of a `drawFrame` call of `gameLoop`, and
`run` is left in the state of that throw: `cleanApp` has not run (the log has no
`teardown` entry), the last call made is not a device-idle wait, and `main` returns
`EXIT_FAILURE` with exactly that log, making no further call. -/
theorem run_raised_skips_teardown (input : RunInput) (what : String) (app : App)
    (h : run input = .raised what app) :
    (initVulkan input.initError input.initSurface initialApp = .raised what app ∨
      ∃ app0, initVulkan input.initError input.initSurface initialApp = .returned app0 ∧
        gameLoopFrames input.iterations app0 = .raised what app) ∧
    Event.teardown ∉ app.trace ∧ app.trace.getLast? ≠ some Event.deviceWaitIdle ∧
    main input = some ⟨EXIT_FAILURE, app.trace⟩ := by
  have hmain : main input = some ⟨EXIT_FAILURE, app.trace⟩ := by
    simp only [main, h]
  have hinit := initVulkan_no_teardown input.initError input.initSurface
  cases hi : initVulkan input.initError input.initSurface initialApp with
  | returned app0 =>
    rw [hi] at hinit
    have hinit0 : Event.teardown ∉ app0.trace := hinit
    cases hl : gameLoopFrames input.iterations app0 with
    | returned app2 =>
      simp only [run, hi, gameLoop, hl, cleanApp] at h
      exact Outcome.noConfusion h
    | raised w app2 =>
      simp only [run, hi, gameLoop, hl, Outcome.raised.injEq] at h
      have hnt := gameLoopFrames_raised_noTeardown input.iterations app0 app2 w hl hinit0
      rw [h.1, h.2] at hl
      rw [h.2] at hnt
      exact ⟨Or.inr ⟨app0, rfl, hl⟩, hnt.1, hnt.2, hmain⟩
    | waiting app2 =>
      simp only [run, hi, gameLoop, hl] at h
      exact Outcome.noConfusion h
  | raised w app0 =>
    simp only [run, hi, Outcome.raised.injEq] at h
    have hnt := runRoutines_raised_noTeardown input.initError input.initSurface
      initRoutines initialApp app0 w hi
      ⟨fun hm => absurd hm (List.not_mem_nil _), fun hm => Option.noConfusion hm⟩
    rw [h.2] at hnt
    rw [h.1, h.2]
    exact ⟨Or.inl rfl, hnt.1, hnt.2, hmain⟩
  | waiting app0 =>
    simp only [run, hi] at h
    exact Outcome.noConfusion h

/-- Witness for C25: the run whose second frame loses the device. -/
theorem run_raised_skips_teardown_witness :
    run lostDeviceRun =
      .raised "failed to acquire swap chain image!" (run lostDeviceRun).app ∧
    main lostDeviceRun = some ⟨EXIT_FAILURE, (run lostDeviceRun).app.trace⟩ :=
  ⟨by decide, (run_raised_skips_teardown lostDeviceRun
    "failed to acquire swap chain image!" (run lostDeviceRun).app (by decide)).2.2.2⟩

/-- C25 (counterexample to teardown on a fatal path): a frame is submitted and
presented, the next acquisition reports a lost device, and `run` throws.  The batch
of the first frame is still in flight, no device-idle wait and no clean-up call has
been made at any point, and the process exits with `EXIT_FAILURE`.  The same holds
when `createTextureImage` throws inside `initVulkan`: the objects created by the
fourteen routines before it are never released. -/
theorem run_fatal_error_without_teardown :
    (run lostDeviceRun).isReturned = false ∧
    inFlight (run lostDeviceRun).app.trace = [⟨0, 0⟩] ∧
    Event.deviceWaitIdle ∉ (run lostDeviceRun).app.trace ∧
    Event.cleanupSwapChain ∉ (run lostDeviceRun).app.trace ∧
    Event.teardown ∉ (run lostDeviceRun).app.trace ∧
    (main lostDeviceRun).map (fun e => e.status) = some EXIT_FAILURE ∧
    run failedInitRun = .raised "Failed to load texture image!" (run failedInitRun).app ∧
    (run failedInitRun).app.trace.length = 14 ∧
    Event.cleanupSwapChain ∉ (run failedInitRun).app.trace ∧
    Event.teardown ∉ (run failedInitRun).app.trace := by
  decide

/-! ## Allocation failures in `createBuffer` and `createImage` -/

theorem findMemoryType_error_of_no_match (typeFilter properties : Nat)
    (mem : VkPhysicalDeviceMemoryProperties)
    (h : ∀ i, i < mem.memoryTypeCount →
      memoryTypeMatches typeFilter properties mem i = false) :
    findMemoryType typeFilter properties mem =
      .error "failed to find suitable memory type!" := by
  have hnone : findMemoryTypeLoop typeFilter properties mem mem.memoryTypeCount 0 = none :=
    (findMemoryTypeLoop_none typeFilter properties mem mem.memoryTypeCount 0).mpr
      (fun j _ hj => h j (by omega))
  simp only [findMemoryType, hnone]

/-- C23 (what the code does when the memory-type search fails): if the object was
created and no memory type below `memoryTypeCount` passes the test of
`findMemoryType`, then `createBuffer` and `createImage` throw
"failed to find suitable memory type!"; the memory allocations of the device are the
same as before the call (`vkAllocateMemory` is not reached), and the buffer or image
the call created is alive when the exception leaves the routine. -/
theorem allocation_search_failure_keeps_object (size width height usage properties : Nat)
    (driver : AllocationAnswers) (heap : DeviceHeap)
    (hcreate : driver.createResult = VK_SUCCESS)
    (hsearch : ∀ i, i < driver.memProperties.memoryTypeCount →
      memoryTypeMatches driver.memRequirements.memoryTypeBits properties
        driver.memProperties i = false) :
    (createBuffer size usage properties driver heap).error =
        some "failed to find suitable memory type!" ∧
      (createBuffer size usage properties driver heap).heap.memories = heap.memories ∧
      (createBuffer size usage properties driver heap).heap.buffers =
        heap.buffers ++ [⟨heap.nextHandle, size, usage⟩] ∧
      (createBuffer size usage properties driver heap).heap.images = heap.images ∧
    (createImage width height usage properties driver heap).error =
        some "failed to find suitable memory type!" ∧
      (createImage width height usage properties driver heap).heap.memories =
        heap.memories ∧
      (createImage width height usage properties driver heap).heap.images =
        heap.images ++ [⟨heap.nextHandle, width, height, usage⟩] ∧
      (createImage width height usage properties driver heap).heap.buffers =
        heap.buffers := by
  have hfind := findMemoryType_error_of_no_match _ properties _ hsearch
  have h0 : driver.createResult = 0 := hcreate
  have hb : createBuffer size usage properties driver heap =
      { heap := { heap with nextHandle := heap.nextHandle + 1,
                            buffers := heap.buffers ++ [⟨heap.nextHandle, size, usage⟩] },
        object := heap.nextHandle, memory := VK_NULL_HANDLE,
        error := some "failed to find suitable memory type!" } := by
    simp [createBuffer, hcreate, hfind]
  have hi : createImage width height usage properties driver heap =
      { heap := { heap with nextHandle := heap.nextHandle + 1,
                            images := heap.images ++
                              [⟨heap.nextHandle, width, height, usage⟩] },
        object := heap.nextHandle, memory := VK_NULL_HANDLE,
        error := some "failed to find suitable memory type!" } := by
    simp [createImage, h0, hfind]
  rw [hb, hi]
  exact ⟨rfl, rfl, rfl, rfl, rfl, rfl, rfl, rfl⟩

/-- Witness for C23: a driver whose type bitmask has only bit 2 set, on a device with
memory types 0 and 1. -/
theorem allocation_search_failure_keeps_object_witness :
    (createBuffer 1024 VK_BUFFER_USAGE_VERTEX_BUFFER_BIT VK_MEMORY_PROPERTY_DEVICE_LOCAL_BIT
        noTypeDriver emptyHeap).heap.buffers =
      emptyHeap.buffers ++ [⟨emptyHeap.nextHandle, 1024, VK_BUFFER_USAGE_VERTEX_BUFFER_BIT⟩] :=
  (allocation_search_failure_keeps_object 1024 800 600 VK_BUFFER_USAGE_VERTEX_BUFFER_BIT
    VK_MEMORY_PROPERTY_DEVICE_LOCAL_BIT noTypeDriver emptyHeap rfl (by decide)).2.2.1

/-- C23 (counterexample to "no object left alive"): on a device without any live
object, with a type bitmask matching no available memory type, `createBuffer` and
`createImage` throw, no memory is allocated, and one buffer, respectively one image,
is alive afterwards. -/
theorem allocation_search_failure_leaves_object :
    findMemoryType noTypeDriver.memRequirements.memoryTypeBits
        VK_MEMORY_PROPERTY_DEVICE_LOCAL_BIT noTypeDriver.memProperties =
      .error "failed to find suitable memory type!" ∧
    (createBuffer 1024 VK_BUFFER_USAGE_VERTEX_BUFFER_BIT VK_MEMORY_PROPERTY_DEVICE_LOCAL_BIT
        noTypeDriver emptyHeap).error = some "failed to find suitable memory type!" ∧
    (createBuffer 1024 VK_BUFFER_USAGE_VERTEX_BUFFER_BIT VK_MEMORY_PROPERTY_DEVICE_LOCAL_BIT
        noTypeDriver emptyHeap).heap.memories = [] ∧
    (createBuffer 1024 VK_BUFFER_USAGE_VERTEX_BUFFER_BIT VK_MEMORY_PROPERTY_DEVICE_LOCAL_BIT
        noTypeDriver emptyHeap).heap.buffers =
      [⟨1, 1024, VK_BUFFER_USAGE_VERTEX_BUFFER_BIT⟩] ∧
    (createImage 800 600 16 VK_MEMORY_PROPERTY_DEVICE_LOCAL_BIT
        noTypeDriver emptyHeap).error = some "failed to find suitable memory type!" ∧
    (createImage 800 600 16 VK_MEMORY_PROPERTY_DEVICE_LOCAL_BIT
        noTypeDriver emptyHeap).heap.memories = [] ∧
    (createImage 800 600 16 VK_MEMORY_PROPERTY_DEVICE_LOCAL_BIT
        noTypeDriver emptyHeap).heap.images = [⟨1, 800, 600, 16⟩] :=
  ⟨rfl, by decide⟩

/-! ## Zero-length uploads -/

/-- C24 (what the code does with the size): `createBuffer` makes no test on `size`.
For every size, zero included, it returns normally exactly when `vkCreateBuffer`
succeeds, the memory-type search finds a type and `vkAllocateMemory` succeeds; and
when it returns normally, a buffer of the requested size has been created and is
alive, bound to a new memory allocation. -/
theorem createBuffer_makes_no_size_check (size usage properties : Nat)
    (driver : AllocationAnswers) (heap : DeviceHeap) :
    ((createBuffer size usage properties driver heap).error = none ↔
      (driver.createResult = VK_SUCCESS ∧
        (∃ i, findMemoryType driver.memRequirements.memoryTypeBits properties
          driver.memProperties = .ok i) ∧
        driver.allocateResult = VK_SUCCESS)) ∧
    ((createBuffer size usage properties driver heap).error = none →
      (createBuffer size usage properties driver heap).heap.buffers =
        heap.buffers ++ [⟨heap.nextHandle, size, usage⟩] ∧
      ∃ i, (createBuffer size usage properties driver heap).heap.memories =
        heap.memories ++
          [⟨heap.nextHandle + 1, driver.memRequirements.size, i, heap.nextHandle⟩]) := by
  by_cases hc : driver.createResult = VK_SUCCESS
  · cases hf : findMemoryType driver.memRequirements.memoryTypeBits properties
        driver.memProperties with
    | error what =>
      have hb : (createBuffer size usage properties driver heap).error = some what := by
        simp [createBuffer, hc, hf]
      rw [hb]
      simp
    | ok i =>
      by_cases ha : driver.allocateResult = VK_SUCCESS
      · have hb : createBuffer size usage properties driver heap =
            { heap :=
                { nextHandle := heap.nextHandle + 1 + 1,
                  buffers := heap.buffers ++ [⟨heap.nextHandle, size, usage⟩],
                  images := heap.images,
                  memories := heap.memories ++
                    [⟨heap.nextHandle + 1, driver.memRequirements.size, i,
                      heap.nextHandle⟩] },
              object := heap.nextHandle, memory := heap.nextHandle + 1, error := none } := by
          simp [createBuffer, hc, hf, ha]
        rw [hb]
        exact ⟨⟨fun _ => ⟨hc, ⟨i, rfl⟩, ha⟩, fun _ => rfl⟩, fun _ => ⟨rfl, i, rfl⟩⟩
      · have hb : (createBuffer size usage properties driver heap).error =
            some "failed to allocate vertex buffer memory!" := by
          simp [createBuffer, hc, hf, ha]
        rw [hb]
        simp [ha]
  · have hb : (createBuffer size usage properties driver heap).error =
        some "failed to create vertex buffer!" := by
      simp [createBuffer, hc]
    rw [hb]
    simp [hc]

/-- Witness for C24: a 1024-byte request on an accepting driver. -/
theorem createBuffer_makes_no_size_check_witness :
    (createBuffer 1024 VK_BUFFER_USAGE_VERTEX_BUFFER_BIT VK_MEMORY_PROPERTY_DEVICE_LOCAL_BIT
        (acceptingDriver 1024) emptyHeap).heap.buffers =
      emptyHeap.buffers ++ [⟨emptyHeap.nextHandle, 1024, VK_BUFFER_USAGE_VERTEX_BUFFER_BIT⟩] :=
  ((createBuffer_makes_no_size_check 1024 VK_BUFFER_USAGE_VERTEX_BUFFER_BIT
    VK_MEMORY_PROPERTY_DEVICE_LOCAL_BIT (acceptingDriver 1024) emptyHeap).2 (by decide)).1

/-- C24 (counterexample to the rejection of size 0): with a driver that answers
`VK_SUCCESS`, `createBuffer` called with size 0 returns normally and a zero-sized
buffer is alive afterwards; `createVertexBuffer` on an empty mesh computes
`bufferSize = 0`, makes both `createBuffer` calls with it, returns normally and
leaves `mVertexBuffer` naming a live zero-sized buffer. -/
theorem createBuffer_accepts_size_zero :
    (createBuffer 0 VK_BUFFER_USAGE_TRANSFER_SRC_BIT
        (VK_MEMORY_PROPERTY_HOST_VISIBLE_BIT ||| VK_MEMORY_PROPERTY_HOST_COHERENT_BIT)
        (acceptingDriver 0) emptyHeap).error = none ∧
    (createBuffer 0 VK_BUFFER_USAGE_TRANSFER_SRC_BIT
        (VK_MEMORY_PROPERTY_HOST_VISIBLE_BIT ||| VK_MEMORY_PROPERTY_HOST_COHERENT_BIT)
        (acceptingDriver 0) emptyHeap).heap.buffers =
      [⟨1, 0, VK_BUFFER_USAGE_TRANSFER_SRC_BIT⟩] ∧
    (createVertexBuffer 0 (acceptingDriver 0) (acceptingDriver 0) emptyHeap).error = none ∧
    (createVertexBuffer 0 (acceptingDriver 0) (acceptingDriver 0) emptyHeap).mVertexBuffer
      = 3 ∧
    (createVertexBuffer 0 (acceptingDriver 0) (acceptingDriver 0) emptyHeap).heap.buffers =
      [⟨3, 0, VK_BUFFER_USAGE_TRANSFER_DST_BIT ||| VK_BUFFER_USAGE_VERTEX_BUFFER_BIT⟩] := by
  decide

/-! ## Vertex de-duplication -/

/-- C29 (evaluation at the failing input): the model names one corner twice, with the
same position and texture coordinate and with two different normals.  Whatever the
rounding of `1.f - v`, `loadModel` stores one index per input index, both below
`mVertices.size()`, and one vertex; the two vertices read from the model compare equal
under `Vertex::operator==`, which leaves `normal` out, so the second is merged into the
first, and the vertex the second index refers to has the normal (0, 0, 1) where the
vertex read from the model has the normal (1, 0, 0). -/
theorem loadModel_merges_vertices_with_distinct_normals (oneMinus : Int → Int) :
    ∃ mesh first second,
      loadModel oneMinus hardEdgeAttrib hardEdgeShapes = some mesh ∧
      readVertex oneMinus hardEdgeAttrib ⟨0, 0, 0⟩ = some first ∧
      readVertex oneMinus hardEdgeAttrib ⟨0, 1, 0⟩ = some second ∧
      mesh.mIndices = [0, 0] ∧
      mesh.mVertices = [first] ∧
      first.equals second = true ∧
      (modelIndices hardEdgeShapes).get? 1 = some ⟨0, 1, 0⟩ ∧
      second.normal = ⟨1, 0, 0⟩ ∧
      (mesh.mVertices.get? (mesh.mIndices.getD 1 0)).map (fun v => v.normal) =
        some ⟨0, 0, 1⟩ := by
  have h1 : readVertex oneMinus hardEdgeAttrib ⟨0, 0, 0⟩ =
      some ⟨⟨0, 0, 0⟩, ⟨1, 1, 1⟩, ⟨0, oneMinus 0⟩, ⟨0, 0, 1⟩⟩ := rfl
  have h2 : readVertex oneMinus hardEdgeAttrib ⟨0, 1, 0⟩ =
      some ⟨⟨0, 0, 0⟩, ⟨1, 1, 1⟩, ⟨0, oneMinus 0⟩, ⟨1, 0, 0⟩⟩ := rfl
  have heq : (⟨⟨0, 0, 0⟩, ⟨1, 1, 1⟩, ⟨0, oneMinus 0⟩, ⟨0, 0, 1⟩⟩ : Vertex).equals
      ⟨⟨0, 0, 0⟩, ⟨1, 1, 1⟩, ⟨0, oneMinus 0⟩, ⟨1, 0, 0⟩⟩ = true := by
    simp [Vertex.equals]
  refine ⟨⟨[⟨⟨0, 0, 0⟩, ⟨1, 1, 1⟩, ⟨0, oneMinus 0⟩, ⟨0, 0, 1⟩⟩], [0, 0],
      [(⟨⟨0, 0, 0⟩, ⟨1, 1, 1⟩, ⟨0, oneMinus 0⟩, ⟨0, 0, 1⟩⟩, 0)]⟩, _, _, ?_, h1, h2,
    rfl, rfl, heq, rfl, rfl, rfl⟩
  simp [loadModel, hardEdgeShapes, loadShapes, loadShape, loadModelStep, h1, h2, storeVertex,
    uniqueVerticesFind, heq]

theorem Vertex.equals_refl (v : Vertex) : v.equals v = true := by
  simp [Vertex.equals]

theorem Vertex.equals_iff (a b : Vertex) :
    a.equals b = true ↔ a.pos = b.pos ∧ a.color = b.color ∧ a.texCoord = b.texCoord := by
  simp [Vertex.equals, and_assoc]

theorem uniqueVerticesFind_some (uniqueVertices : List (Vertex × Nat)) (vertex : Vertex)
    (slot : Nat) (h : uniqueVerticesFind uniqueVertices vertex = some slot) :
    ∃ key, (key, slot) ∈ uniqueVertices ∧ key.equals vertex = true := by
  unfold uniqueVerticesFind at h
  cases hf : uniqueVertices.find? (fun entry => entry.1.equals vertex) with
  | none => rw [hf] at h; exact Option.noConfusion h
  | some entry =>
    rw [hf] at h
    simp only [Option.map_some', Option.some.injEq] at h
    have hmem := List.mem_of_find?_eq_some hf
    have hp := List.find?_some hf
    refine ⟨entry.1, ?_, hp⟩
    rw [← h]
    exact hmem

theorem uniqueVerticesFind_none (uniqueVertices : List (Vertex × Nat)) (vertex : Vertex)
    (h : uniqueVerticesFind uniqueVertices vertex = none) :
    ∀ entry, entry ∈ uniqueVertices → entry.1.equals vertex = false := by
  unfold uniqueVerticesFind at h
  cases hf : uniqueVertices.find? (fun entry => entry.1.equals vertex) with
  | some entry => rw [hf] at h; exact Option.noConfusion h
  | none =>
    intro entry hmem
    have := List.find?_eq_none.mp hf entry hmem
    simpa using this

theorem get?_append_of_some {α : Type} (l : List α) (x : α) (i : Nat) (v : α)
    (h : l.get? i = some v) : (l ++ [x]).get? i = some v := by
  have hi : i < l.length := by
    by_contra hge
    rw [List.get?_eq_none.mpr (by omega)] at h
    exact Option.noConfusion h
  rw [List.get?_eq_getElem?, List.getElem?_append_left hi, ← List.get?_eq_getElem?]
  exact h

/-- One iteration of the loop of `loadModel` keeps the invariant, as long as fewer
than `2 ^ 32` indices have been read before it. -/
theorem loadModelStep_invariant (oneMinus : Int → Int) (attrib : Attrib)
    (mesh mesh1 : Mesh) (done : List Index)
    (index : Index) (hlen : done.length < 2 ^ 32)
    (hstep : loadModelStep oneMinus attrib mesh index = some mesh1)
    (h : LoadInvariant oneMinus attrib mesh done) :
    LoadInvariant oneMinus attrib mesh1 (done ++ [index]) := by
  obtain ⟨h1, h2, h3, h4, h5⟩ := h
  unfold loadModelStep at hstep
  cases hread : readVertex oneMinus attrib index with
  | none => rw [hread] at hstep; exact Option.noConfusion hstep
  | some vertex =>
    rw [hread] at hstep
    simp only [Option.map_some', Option.some.injEq] at hstep
    rw [← hstep]
    cases hf : uniqueVerticesFind mesh.uniqueVertices vertex with
    | none =>
      have hnone := uniqueVerticesFind_none _ _ hf
      have hslot : mesh.mVertices.length % 2 ^ 32 = mesh.mVertices.length :=
        Nat.mod_eq_of_lt (by omega)
      have hstore : storeVertex mesh vertex =
          { mVertices := mesh.mVertices ++ [vertex],
            mIndices := mesh.mIndices ++ [mesh.mVertices.length],
            uniqueVertices := mesh.uniqueVertices ++ [(vertex, mesh.mVertices.length)] } := by
        simp only [storeVertex, hf, hslot]
      rw [hstore]
      refine ⟨?_, ?_, ?_, ?_, ?_⟩
      · intro entry hmem
        rcases List.mem_append.mp hmem with hm | hm
        · exact get?_append_of_some _ _ _ _ (h1 entry hm)
        · rw [List.mem_singleton.mp hm]
          simp
      · intro v hv
        rcases List.mem_append.mp hv with hm | hm
        · obtain ⟨slot, hs⟩ := h2 v hm
          exact ⟨slot, List.mem_append_left _ hs⟩
        · rw [List.mem_singleton.mp hm]
          exact ⟨mesh.mVertices.length, List.mem_append_right _ (List.mem_singleton.mpr rfl)⟩
      · rw [List.pairwise_append]
        refine ⟨h3, List.pairwise_singleton _ _, ?_⟩
        intro a ha b hb
        rw [List.mem_singleton.mp hb]
        obtain ⟨slot, hs⟩ := h2 a ha
        exact hnone (a, slot) hs
      · refine List.rel_append ?_ ?_
        · refine List.Forall₂.imp ?_ h4
          intro slot idx ⟨v, read, hv1, hv2, hv3⟩
          exact ⟨v, read, get?_append_of_some _ _ _ _ hv1, hv2, hv3⟩
        · refine List.Forall₂.cons ?_ List.Forall₂.nil
          exact ⟨vertex, vertex, by simp, hread, Vertex.equals_refl _⟩
      · simp only [List.length_append, List.length_singleton]
        omega
    | some slot =>
      obtain ⟨key, hk1, hk2⟩ := uniqueVerticesFind_some _ _ _ hf
      have hstore : storeVertex mesh vertex =
          { mesh with mIndices := mesh.mIndices ++ [slot] } := by
        simp only [storeVertex, hf]
      rw [hstore]
      refine ⟨h1, h2, h3, ?_, ?_⟩
      · refine List.rel_append h4 ?_
        refine List.Forall₂.cons ?_ List.Forall₂.nil
        exact ⟨key, vertex, h1 (key, slot) hk1, hread, hk2⟩
      · simp only [List.length_append, List.length_singleton]
        omega

theorem loadShape_invariant (oneMinus : Int → Int) (attrib : Attrib) (rest : List Index)
    (mesh mesh1 : Mesh) (done : List Index) (hlen : (done ++ rest).length ≤ 2 ^ 32)
    (hload : loadShape oneMinus attrib mesh rest = some mesh1)
    (h : LoadInvariant oneMinus attrib mesh done) :
    LoadInvariant oneMinus attrib mesh1 (done ++ rest) := by
  induction rest generalizing mesh done with
  | nil =>
    simp only [loadShape, Option.some.injEq] at hload
    rw [← hload]
    simpa using h
  | cons index rest ih =>
    have hlen1 : done.length < 2 ^ 32 := by
      simp only [List.length_append, List.length_cons] at hlen
      omega
    cases hs : loadModelStep oneMinus attrib mesh index with
    | none =>
      simp only [loadShape, hs, Option.none_bind] at hload
      exact Option.noConfusion hload
    | some mesh2 =>
      simp only [loadShape, hs, Option.some_bind] at hload
      have hstep := loadModelStep_invariant oneMinus attrib mesh mesh2 done index hlen1 hs h
      have happ : done ++ index :: rest = (done ++ [index]) ++ rest := by simp
      rw [happ]
      exact ih mesh2 (done ++ [index]) (by rw [← happ]; exact hlen) hload hstep

theorem loadShapes_invariant (oneMinus : Int → Int) (attrib : Attrib)
    (shapes : List (List Index)) (mesh mesh1 : Mesh) (done : List Index)
    (hlen : (done ++ modelIndices shapes).length ≤ 2 ^ 32)
    (hload : loadShapes oneMinus attrib mesh shapes = some mesh1)
    (h : LoadInvariant oneMinus attrib mesh done) :
    LoadInvariant oneMinus attrib mesh1 (done ++ modelIndices shapes) := by
  induction shapes generalizing mesh done with
  | nil =>
    simp only [loadShapes, Option.some.injEq] at hload
    rw [← hload]
    simpa [modelIndices] using h
  | cons shape rest ih =>
    have hflat : modelIndices (shape :: rest) = shape ++ modelIndices rest := by
      simp [modelIndices]
    rw [hflat] at hlen ⊢
    cases hs : loadShape oneMinus attrib mesh shape with
    | none =>
      simp only [loadShapes, hs, Option.none_bind] at hload
      exact Option.noConfusion hload
    | some mesh2 =>
      simp only [loadShapes, hs, Option.some_bind] at hload
      have hshape := loadShape_invariant oneMinus attrib shape mesh mesh2 done
        (by simp only [List.length_append] at hlen ⊢; omega) hs h
      rw [← List.append_assoc]
      exact ih mesh2 (done ++ shape) (by rw [List.append_assoc]; exact hlen) hload hshape

/-- The loop of `loadModel` makes no undefined read, and so yields a mesh, when every
index of the model can be read. -/
theorem loadModel_defined (oneMinus : Int → Int) (attrib : Attrib)
    (shapes : List (List Index))
    (hread : ∀ index, index ∈ modelIndices shapes →
      (readVertex oneMinus attrib index).isSome = true) :
    ∃ mesh, loadModel oneMinus attrib shapes = some mesh := by
  have hshape : ∀ (shape : List Index) (mesh : Mesh),
      (∀ index, index ∈ shape → (readVertex oneMinus attrib index).isSome = true) →
      ∃ mesh1, loadShape oneMinus attrib mesh shape = some mesh1 := by
    intro shape
    induction shape with
    | nil => exact fun mesh _ => ⟨mesh, rfl⟩
    | cons index rest ih =>
      intro mesh hr
      obtain ⟨v, hv⟩ := Option.isSome_iff_exists.mp (hr index (List.mem_cons_self _ _))
      obtain ⟨mesh1, h1⟩ := ih (storeVertex mesh v)
        (fun i hi => hr i (List.mem_cons_of_mem _ hi))
      exact ⟨mesh1, by simp only [loadShape, loadModelStep, hv, Option.map_some',
        Option.some_bind, h1]⟩
  unfold loadModel
  generalize (⟨[], [], []⟩ : Mesh) = mesh
  induction shapes generalizing mesh with
  | nil => exact ⟨mesh, rfl⟩
  | cons shape rest ih =>
    have hflat : modelIndices (shape :: rest) = shape ++ modelIndices rest := by
      simp [modelIndices]
    obtain ⟨mesh1, h1⟩ := hshape shape mesh
      (fun i hi => hread i (by rw [hflat]; exact List.mem_append_left _ hi))
    obtain ⟨mesh2, h2⟩ := ih
      (fun i hi => hread i (by rw [hflat]; exact List.mem_append_right _ hi)) mesh1
    exact ⟨mesh2, by simp only [loadShapes, h1, Option.some_bind, h2]⟩

/-- The parts of the de-duplication that hold for every model with at most `2 ^ 32`
indices on which `loadModel` makes no undefined read: `mIndices` gets one entry per
input index, every entry is below `mVertices.size()`, no two entries of `mVertices`
compare equal, and the vertex an index refers to has the position, colour and texture
coordinate of the vertex read from the model at that place. -/
theorem loadModel_keeps_compared_fields (oneMinus : Int → Int) (attrib : Attrib)
    (shapes : List (List Index)) (mesh : Mesh)
    (hlen : (modelIndices shapes).length ≤ 2 ^ 32)
    (hload : loadModel oneMinus attrib shapes = some mesh) :
    mesh.mIndices.length = (modelIndices shapes).length ∧
    mesh.mVertices.Pairwise (fun a b => a.equals b = false) ∧
    (∀ k slot index, mesh.mIndices.get? k = some slot →
      (modelIndices shapes).get? k = some index →
      slot < mesh.mVertices.length ∧
      ∃ v read, mesh.mVertices.get? slot = some v ∧
        readVertex oneMinus attrib index = some read ∧
        v.pos = read.pos ∧ v.color = read.color ∧ v.texCoord = read.texCoord) := by
  have hinit : LoadInvariant oneMinus attrib ⟨[], [], []⟩ [] :=
    ⟨fun e he => absurd he (List.not_mem_nil e), fun v hv => absurd hv (List.not_mem_nil v),
      List.Pairwise.nil, List.Forall₂.nil, Nat.le_refl _⟩
  have hinv : LoadInvariant oneMinus attrib mesh (modelIndices shapes) := by
    have h0 := loadShapes_invariant oneMinus attrib shapes ⟨[], [], []⟩ mesh []
      (by simpa using hlen) hload hinit
    rw [List.nil_append] at h0
    exact h0
  obtain ⟨_, _, h3, h4, _⟩ := hinv
  refine ⟨h4.length_eq, h3, ?_⟩
  intro k slot index hs hi
  have hrel := List.Forall₂.get h4
  have hk1 : k < mesh.mIndices.length := by
    by_contra hge
    rw [List.get?_eq_none.mpr (by omega)] at hs
    exact Option.noConfusion hs
  have hk2 : k < (modelIndices shapes).length := by rw [← h4.length_eq]; exact hk1
  obtain ⟨v, read, hv1, hv2, hv3⟩ := hrel hk1 hk2
  have e1 : mesh.mIndices.get ⟨k, hk1⟩ = slot := by
    rw [List.get?_eq_get hk1] at hs
    exact Option.some.inj hs
  have e2 : (modelIndices shapes).get ⟨k, hk2⟩ = index := by
    rw [List.get?_eq_get hk2] at hi
    exact Option.some.inj hi
  rw [e1] at hv1
  rw [e2] at hv2
  have hlt : slot < mesh.mVertices.length := by
    by_contra hge
    rw [List.get?_eq_none.mpr (by omega)] at hv1
    exact Option.noConfusion hv1
  exact ⟨hlt, v, read, hv1, hv2, (Vertex.equals_iff _ _).mp hv3⟩

/-! ## Objects named after a rebuild -/

theorem getD_map_range {α : Type} (f : Nat → α) (n i : Nat) (d : α) (hi : i < n) :
    ((List.range n).map f).getD i d = f i := by
  simp [List.getD_eq_getElem?_getD, List.getElem?_map, List.getElem?_range hi]

/-- Every handle named by a view, framebuffer, descriptor set or command buffer held
after a rebuild is alive and was handed out during that rebuild. -/
theorem Resources.recreateSwapChain_referenced (imageCount : Nat) (r : Resources) (h : Nat)
    (hmem : h ∈ (r.recreateSwapChain imageCount).referenced) :
    h ∈ (r.recreateSwapChain imageCount).live ∧ r.nextHandle ≤ h := by
  simp only [Resources.recreateSwapChain, recreateRoutines, Resources.runRoutine,
    Resources.createSwapChain, Resources.createImageViews,
    Resources.createRenderPass, Resources.createGraphicsPipeline,
    Resources.createColorResources, Resources.createDepthResources,
    Resources.createFramebuffers, Resources.createUniformBuffers,
    Resources.createDescriptorPool, Resources.createDescriptorSets,
    Resources.createCommandBuffers, Resources.create, Resources.cleanupSwapChain,
    Resources.referenced, List.foldl_cons, List.foldl_nil, List.length_map,
    List.length_range] at hmem ⊢
  simp only [List.mem_append, List.mem_map, List.mem_flatMap, List.mem_range,
    List.mem_cons, List.mem_singleton, List.not_mem_nil, or_false,
    List.mem_range'_1] at hmem ⊢
  rcases hmem with ((((h1 | h1) | ⟨a, ⟨i, hi, rfl⟩, ha⟩) | ⟨a, ⟨i, hi, rfl⟩, ha⟩) |
    ⟨a, ⟨i, hi, rfl⟩, ha⟩) | ⟨a, ⟨i, hi, rfl⟩, ha⟩
  · omega
  · omega
  · simp only [getD_map_range _ _ _ _ hi] at ha
    omega
  · simp only [getD_map_range _ _ _ _ hi, List.mem_cons, List.mem_singleton,
      List.not_mem_nil, or_false] at ha
    omega
  · simp only [getD_map_range _ _ _ _ hi] at ha
    omega
  · simp only [getD_map_range _ _ _ _ hi] at ha
    omega

/-- Every entry of a per-image vector after a rebuild is alive and was handed out
during that rebuild. -/
theorem Resources.recreateSwapChain_perImageEntries (imageCount : Nat) (r : Resources)
    (h : Nat) (hmem : h ∈ (r.recreateSwapChain imageCount).perImageEntries) :
    h ∈ (r.recreateSwapChain imageCount).live ∧ r.nextHandle ≤ h := by
  simp only [Resources.recreateSwapChain, recreateRoutines, Resources.runRoutine,
    Resources.createSwapChain, Resources.createImageViews,
    Resources.createRenderPass, Resources.createGraphicsPipeline,
    Resources.createColorResources, Resources.createDepthResources,
    Resources.createFramebuffers, Resources.createUniformBuffers,
    Resources.createDescriptorPool, Resources.createDescriptorSets,
    Resources.createCommandBuffers, Resources.create, Resources.cleanupSwapChain,
    Resources.perImageEntries, List.foldl_cons, List.foldl_nil, List.length_map,
    List.length_range] at hmem ⊢
  simp only [List.mem_append, List.mem_map, List.mem_flatMap, List.mem_range,
    List.mem_cons, List.mem_singleton, List.not_mem_nil, or_false,
    List.mem_range'_1] at hmem ⊢
  rcases hmem with (((((⟨i, hi, rfl⟩ | ⟨a, ⟨i, hi, rfl⟩, rfl⟩) | ⟨a, ⟨i, hi, rfl⟩, rfl⟩) |
    ⟨i, hi, rfl⟩) | ⟨i, hi, rfl⟩) | ⟨a, ⟨i, hi, rfl⟩, rfl⟩) | ⟨a, ⟨i, hi, rfl⟩, rfl⟩
  all_goals first | omega | (dsimp only; omega)

/-- Handles alive after a rebuild are below the next handle, if that held before. -/
theorem Resources.recreateSwapChain_live_below (imageCount : Nat) (r : Resources)
    (hwf : ∀ h, h ∈ r.live → h < r.nextHandle) (h : Nat)
    (hmem : h ∈ (r.recreateSwapChain imageCount).live) :
    h < (r.recreateSwapChain imageCount).nextHandle ∧
      (h < r.nextHandle → h ∈ r.live ∧ h ∉ r.destroyedByCleanup) := by
  simp only [Resources.recreateSwapChain, recreateRoutines, Resources.runRoutine,
    Resources.createSwapChain, Resources.createImageViews,
    Resources.createRenderPass, Resources.createGraphicsPipeline,
    Resources.createColorResources, Resources.createDepthResources,
    Resources.createFramebuffers, Resources.createUniformBuffers,
    Resources.createDescriptorPool, Resources.createDescriptorSets,
    Resources.createCommandBuffers, Resources.create, Resources.cleanupSwapChain,
    List.foldl_cons, List.foldl_nil, List.length_map, List.length_range] at hmem ⊢
  simp only [List.mem_append, List.mem_range'_1, List.mem_filter, Bool.not_eq_true',
    List.contains_eq_any_beq, List.any_eq_false, beq_iff_eq] at hmem
  rcases hmem with ((((((((((((⟨h1, h2⟩ | h1) | h1) | h1) | h1) | h1) | h1) | h1) | h1) |
    h1) | h1) | h1) | h1)
  · have hlt := hwf h h1
    refine ⟨by omega, fun _ => ⟨h1, fun hd => ?_⟩⟩
    exact h2 h hd rfl
  all_goals exact ⟨by omega, fun hlt => by omega⟩

theorem Resources.initVulkan_live_below (imageCount : Nat) (h : Nat)
    (hmem : h ∈ (Resources.initVulkan imageCount).live) :
    h < (Resources.initVulkan imageCount).nextHandle := by
  simp only [Resources.initVulkan, initRoutines, Resources.runRoutine,
    Resources.createSwapChain, Resources.createImageViews,
    Resources.createRenderPass, Resources.createGraphicsPipeline,
    Resources.createColorResources, Resources.createDepthResources,
    Resources.createFramebuffers, Resources.createUniformBuffers,
    Resources.createDescriptorPool, Resources.createDescriptorSets,
    Resources.createCommandBuffers, Resources.create, Resources.initial,
    List.foldl_cons, List.foldl_nil, List.length_map, List.length_range] at hmem ⊢
  simp only [List.mem_append, List.mem_range'_1, List.not_mem_nil, false_or] at hmem
  omega

/-- C22: let `r` be the state before a `recreateSwapChain` that completes, in which
every live handle is one the driver has handed out (this holds after `initVulkan` and
is kept by every rebuild, last part).  After the rebuild, every object named by a
held image view, framebuffer, descriptor set or recorded command buffer (swapchain
image, image view, colour or depth target, render pass, pipeline, pipeline layout,
descriptor pool, uniform buffer, framebuffer, descriptor set) is alive and did not
exist before the rebuild, so it is none of the objects the rebuild destroyed; every
entry of the per-image vectors is such a new object too; and the objects the rebuild
destroyed are not alive. -/
theorem rebuild_names_only_new_generation (imageCount : Nat) (r : Resources)
    (hwf : ∀ h, h ∈ r.live → h < r.nextHandle) :
    (∀ h, h ∈ (r.recreateSwapChain imageCount).referenced →
      h ∈ (r.recreateSwapChain imageCount).live ∧ h ∉ r.live) ∧
    (∀ h, h ∈ (r.recreateSwapChain imageCount).perImageEntries →
      h ∈ (r.recreateSwapChain imageCount).live ∧ h ∉ r.live) ∧
    (∀ h, h ∈ r.live → h ∈ r.destroyedByCleanup →
      h ∉ (r.recreateSwapChain imageCount).live) ∧
    (∀ h, h ∈ (r.recreateSwapChain imageCount).live →
      h < (r.recreateSwapChain imageCount).nextHandle) := by
  refine ⟨?_, ?_, ?_, ?_⟩
  · intro h hmem
    obtain ⟨h1, h2⟩ := Resources.recreateSwapChain_referenced imageCount r h hmem
    exact ⟨h1, fun hl => absurd (hwf h hl) (by omega)⟩
  · intro h hmem
    obtain ⟨h1, h2⟩ := Resources.recreateSwapChain_perImageEntries imageCount r h hmem
    exact ⟨h1, fun hl => absurd (hwf h hl) (by omega)⟩
  · intro h hl hd hmem
    exact ((Resources.recreateSwapChain_live_below imageCount r hwf h hmem).2 (hwf h hl)).2 hd
  · intro h hmem
    exact (Resources.recreateSwapChain_live_below imageCount r hwf h hmem).1

/-- Witness for C22: the rebuild of the state after `initVulkan` with three images.
Command buffer 0 names framebuffer 52, which is alive and new; the old framebuffer 17
is destroyed. -/
theorem rebuild_names_only_new_generation_witness :
    52 ∈ ((Resources.initVulkan 3).recreateSwapChain 3).referenced ∧
    (52 ∈ ((Resources.initVulkan 3).recreateSwapChain 3).live ∧
      52 ∉ (Resources.initVulkan 3).live) ∧
    17 ∉ ((Resources.initVulkan 3).recreateSwapChain 3).live :=
  ⟨by decide,
    (rebuild_names_only_new_generation 3 (Resources.initVulkan 3)
      (fun h hmem => Resources.initVulkan_live_below 3 h hmem)).1 52 (by decide),
    (rebuild_names_only_new_generation 3 (Resources.initVulkan 3)
      (fun h hmem => Resources.initVulkan_live_below 3 h hmem)).2.2.1 17 (by decide)
      (by decide)⟩

/-! ## Sizes of the per-image vectors -/

theorem Resources.recreateSwapChain_sizes (imageCount : Nat) (r : Resources) :
    (r.recreateSwapChain imageCount).mSwapChainImages.length = imageCount ∧
    (r.recreateSwapChain imageCount).SizesAgree := by
  simp [Resources.recreateSwapChain, recreateRoutines, Resources.runRoutine,
    Resources.SizesAgree, Resources.createSwapChain, Resources.createImageViews,
    Resources.createRenderPass, Resources.createGraphicsPipeline,
    Resources.createColorResources, Resources.createDepthResources,
    Resources.createFramebuffers, Resources.createUniformBuffers,
    Resources.createDescriptorPool, Resources.createDescriptorSets,
    Resources.createCommandBuffers, Resources.create, Resources.cleanupSwapChain]

theorem Resources.initVulkan_sizes (imageCount : Nat) :
    (Resources.initVulkan imageCount).mSwapChainImages.length = imageCount ∧
    (Resources.initVulkan imageCount).SizesAgree := by
  simp [Resources.initVulkan, initRoutines, Resources.runRoutine,
    Resources.SizesAgree, Resources.createSwapChain, Resources.createImageViews,
    Resources.createRenderPass, Resources.createGraphicsPipeline,
    Resources.createColorResources, Resources.createDepthResources,
    Resources.createFramebuffers, Resources.createUniformBuffers,
    Resources.createDescriptorPool, Resources.createDescriptorSets,
    Resources.createCommandBuffers, Resources.create, Resources.initial]

theorem get?_isSome_of_lt {α : Type} (l : List α) (i : Nat) (h : i < l.length) :
    (l.get? i).isSome = true := by
  rw [List.get?_eq_get h]; rfl

/-- C28: for every number of images the driver reports, after `initVulkan` and after
a completed `recreateSwapChain` from any state, `mSwapChainImages` has that many
entries and the image views, framebuffers, command buffers, uniform buffers, uniform
buffer memories and descriptor sets have as many entries as `mSwapChainImages`.  In a
state where the sizes agree, `mCommandBuffers[i]`, `mUniformBuffersMemory[i]` and
`mUniformBuffers[i]` are in range for every index `i` below the image count: the reads
of `drawFrame` at an acquired image index and those of the per-image loop of
`cleanupSwapChain`. -/
theorem per_image_vectors_sized_by_image_count (imageCount : Nat) (r : Resources) :
    ((Resources.initVulkan imageCount).mSwapChainImages.length = imageCount ∧
      (Resources.initVulkan imageCount).SizesAgree) ∧
    ((r.recreateSwapChain imageCount).mSwapChainImages.length = imageCount ∧
      (r.recreateSwapChain imageCount).SizesAgree) ∧
    (∀ s : Resources, s.SizesAgree → ∀ i, i < s.mSwapChainImages.length →
      (s.mCommandBuffers.get? i).isSome = true ∧
      (s.mUniformBuffersMemory.get? i).isSome = true ∧
      (s.mUniformBuffers.get? i).isSome = true) := by
  refine ⟨Resources.initVulkan_sizes imageCount, Resources.recreateSwapChain_sizes imageCount r,
    ?_⟩
  intro s hs i hi
  obtain ⟨_, _, h3, h4, h5, _⟩ := hs
  exact ⟨get?_isSome_of_lt _ _ (by omega), get?_isSome_of_lt _ _ (by omega),
    get?_isSome_of_lt _ _ (by omega)⟩

/-- Witness for C28: after `initVulkan` and one rebuild with three images, index 2 is
in range of the three vectors. -/
theorem per_image_vectors_sized_by_image_count_witness :
    (((Resources.initVulkan 3).recreateSwapChain 3).mCommandBuffers.get? 2).isSome = true ∧
    (((Resources.initVulkan 3).recreateSwapChain 3).mUniformBuffersMemory.get? 2).isSome
      = true ∧
    (((Resources.initVulkan 3).recreateSwapChain 3).mUniformBuffers.get? 2).isSome = true :=
  (per_image_vectors_sized_by_image_count 3 (Resources.initVulkan 3)).2.2
    ((Resources.initVulkan 3).recreateSwapChain 3)
    (per_image_vectors_sized_by_image_count 3 (Resources.initVulkan 3)).2.1.2 2 (by decide)

/-! ## Colour and depth targets across a rebuild -/

/-- Every completed `recreateSwapChain` creates two colour targets.  The members hold
the second; the image, memory and view of the first are alive and differ from the
handles held. -/
theorem Resources.recreateSwapChain_colorTargets (imageCount : Nat) (r : Resources) :
    ∃ first second : RenderTarget,
      (r.recreateSwapChain imageCount).colorTargets = r.colorTargets ++ [first] ++ [second] ∧
      (r.recreateSwapChain imageCount).heldColorTarget = second ∧
      first.image ∈ (r.recreateSwapChain imageCount).live ∧
      first.memory ∈ (r.recreateSwapChain imageCount).live ∧
      first.view ∈ (r.recreateSwapChain imageCount).live ∧
      first.image ≠ second.image ∧ first.memory ≠ second.memory ∧
      first.view ≠ second.view := by
  refine ⟨⟨r.nextHandle + (1 + imageCount) + imageCount + 1 + 2,
      r.nextHandle + (1 + imageCount) + imageCount + 1 + 2 + 1,
      r.nextHandle + (1 + imageCount) + imageCount + 1 + 2 + 2⟩,
    ⟨r.nextHandle + (1 + imageCount) + imageCount + 1 + 2 + 3,
      r.nextHandle + (1 + imageCount) + imageCount + 1 + 2 + 3 + 1,
      r.nextHandle + (1 + imageCount) + imageCount + 1 + 2 + 3 + 2⟩, ?_⟩
  simp only [Resources.recreateSwapChain, recreateRoutines, Resources.runRoutine,
    Resources.createSwapChain, Resources.createImageViews,
    Resources.createRenderPass, Resources.createGraphicsPipeline,
    Resources.createColorResources, Resources.createDepthResources,
    Resources.createFramebuffers, Resources.createUniformBuffers,
    Resources.createDescriptorPool, Resources.createDescriptorSets,
    Resources.createCommandBuffers, Resources.create, Resources.cleanupSwapChain,
    Resources.heldColorTarget, List.foldl_cons, List.foldl_nil, List.length_map,
    List.length_range]
  simp only [List.mem_append, List.mem_range'_1]
  refine ⟨trivial, trivial, ?_, ?_, ?_, ?_, ?_, ?_⟩ <;> omega
/-- C21 (evaluation at the failing input): with three swapchain images, after
`initVulkan` one colour target and one depth target are alive, the ones held in the
members.  After one `recreateSwapChain` three colour targets have been created: the
one of `initVulkan` is destroyed, and the two made by the two `createColorResources`
calls of the rebuild are both alive, while the members hold only the second; the image,
memory and view of the first are alive and no member names them.  The depth target is
rebuilt once and the single live one is held. -/
theorem recreateSwapChain_leaves_unheld_colour_target :
    (Resources.initVulkan 3).liveColorTargets = [(Resources.initVulkan 3).heldColorTarget] ∧
    (Resources.initVulkan 3).liveDepthTargets = [(Resources.initVulkan 3).heldDepthTarget] ∧
    ((Resources.initVulkan 3).recreateSwapChain 3).colorTargets =
      [⟨11, 12, 13⟩, ⟨43, 44, 45⟩, ⟨46, 47, 48⟩] ∧
    ((Resources.initVulkan 3).recreateSwapChain 3).liveColorTargets =
      [⟨43, 44, 45⟩, ⟨46, 47, 48⟩] ∧
    ((Resources.initVulkan 3).recreateSwapChain 3).heldColorTarget = ⟨46, 47, 48⟩ ∧
    ((Resources.initVulkan 3).recreateSwapChain 3).liveDepthTargets =
      [((Resources.initVulkan 3).recreateSwapChain 3).heldDepthTarget] := by
  decide

end DemoApp
